import Mathlib

/-!
# Meeting summarizer backend: summary lifecycle

A shallow embedding of the backend of the meeting summarizer
(`backend/utils/aiService.js`, `backend/models/Summary.js`,
`backend/controllers/summarizeController.js`) together with theorems about
the create / edit / get life cycle of a summary record.

Modelling conventions

* A JavaScript string is a list of characters (`JsString`).  Its `.length`
  is the number of UTF-16 code units (`jsLength`): a character outside the
  basic multilingual plane counts twice.
* A request field that may be absent (`undefined`) is an `Option`.
* Handlers are pure functions from an environment (API keys, the outcome of
  the outbound provider requests, the clock), the record store and the
  request to an `Outcome`: the HTTP response, the store afterwards and the
  calls made to the AI client and to the providers.
-/

namespace MeetingSummarizer

/-- Equality of results is decidable when equality of errors and of values is. -/
instance instDecidableEqExcept {ε α : Type} [DecidableEq ε] [DecidableEq α] :
    DecidableEq (Except ε α)
  | .ok a, .ok b =>
    if h : a = b then isTrue (by rw [h]) else isFalse (fun h' => h (Except.ok.inj h'))
  | .error a, .error b =>
    if h : a = b then isTrue (by rw [h]) else isFalse (fun h' => h (Except.error.inj h'))
  | .ok _, .error _ => isFalse (fun h => Except.noConfusion h)
  | .error _, .ok _ => isFalse (fun h => Except.noConfusion h)

/-! ## JavaScript strings -/

/-- A JavaScript string, as the list of its characters. -/
abbrev JsString := List Char

/-- Number of UTF-16 code units of one character. -/
def utf16Units (c : Char) : Nat :=
  if c.toNat < 65536 then 1 else 2

/-- The `.length` of a JavaScript string: its number of UTF-16 code units. -/
def jsLength : JsString → Nat
  | [] => 0
  | c :: s => utf16Units c + jsLength s

/-- The characters matched by `\s` in a JavaScript regular expression (the
same set is removed by `String.prototype.trim`). -/
def isJsWhitespace (c : Char) : Bool :=
  let n := c.toNat
  n == 9 || n == 10 || n == 11 || n == 12 || n == 13 || n == 32 ||
  n == 160 || n == 5760 || (8192 ≤ n && n ≤ 8202) ||
  n == 8232 || n == 8233 || n == 8239 || n == 8287 || n == 12288 || n == 65279

/-- Truthiness of a string value that may be `undefined`: the empty string and
`undefined` are falsy. -/
def truthy : Option JsString → Bool
  | some (_ :: _) => true
  | _ => false

/-- The loop of `s.split(/\s+/)`: `inWs` tells whether the scan is inside a
whitespace run (a separator match), `cur` is the piece being read, reversed. -/
def splitWsGo : Bool → List Char → List Char → List JsString
  | _, cur, [] => [cur.reverse]
  | inWs, cur, c :: rest =>
    if isJsWhitespace c then
      if inWs then splitWsGo true cur rest
      else cur.reverse :: splitWsGo true [] rest
    else splitWsGo false (c :: cur) rest

/-- The array `s.split(/\s+/)`: the pieces of `s` between maximal whitespace
runs; a leading or trailing whitespace run yields an empty first or last
piece, and the empty string yields the one-element array `[""]`. -/
def splitWs (s : JsString) : List JsString :=
  splitWsGo false [] s

/-- The array length `s.split(/\s+/).length`. -/
def splitCount (s : JsString) : Nat :=
  (splitWs s).length

/-- The value `s.trim()`. -/
def trim (s : JsString) : JsString :=
  ((s.dropWhile isJsWhitespace).reverse.dropWhile isJsWhitespace).reverse

/-- The test `s.includes(sub)`. -/
def includes : JsString → JsString → Bool
  | [], sub => sub.isEmpty
  | c :: s, sub => sub.isPrefixOf (c :: s) || includes s sub

/-- Number of words of a string in the sense of the specification: the number
of maximal runs of non-whitespace characters.  `prevWs` tells whether the
previous character was whitespace (or the start of the string); a run is
counted at its first character. -/
def countWordsFrom : Bool → List Char → Nat
  | _, [] => 0
  | prevWs, c :: rest =>
    if isJsWhitespace c then countWordsFrom true rest
    else (if prevWs then 1 else 0) + countWordsFrom false rest

/-- Word count of the specification: maximal runs of non-whitespace. -/
def countWords (s : JsString) : Nat :=
  countWordsFrom true s

/-- Whether the string starts with a whitespace character. -/
def startsWithWs : JsString → Bool
  | [] => false
  | c :: _ => isJsWhitespace c

/-- Whether the string ends with a whitespace character. -/
def endsWithWs (s : JsString) : Bool :=
  startsWithWs s.reverse

/-! ## The AI service (`backend/utils/aiService.js`) -/

/-- The two errors thrown by `validateTranscript`. -/
inductive TranscriptError where
  | tooLong
  | tooShort
  deriving DecidableEq, Repr

/-- The message of the error thrown by `validateTranscript`. -/
def TranscriptError.message : TranscriptError → JsString
  | .tooLong => "Transcript too long. Maximum 50,000 characters allowed.".toList
  | .tooShort => "Transcript too short. Please provide more content.".toList

/-- The counts returned by `validateTranscript` on success. -/
structure TranscriptCounts where
  wordCount : Nat
  charCount : Nat
  deriving DecidableEq, Repr

/-- `AIService.validateTranscript`. -/
def validateTranscript (transcript : JsString) : Except TranscriptError TranscriptCounts :=
  let wordCount := splitCount transcript
  let charCount := jsLength transcript
  if charCount > 50000 then .error .tooLong
  else if wordCount < 10 then .error .tooShort
  else .ok { wordCount := wordCount, charCount := charCount }

/-- The process environment and the outside world, as far as the handlers
depend on them. -/
structure Env where
  /-- Value of `process.env.GROQ_API_KEY` (none when unset). -/
  groqApiKey : Option JsString
  /-- Value of `process.env.OPENAI_API_KEY` (none when unset). -/
  openaiApiKey : Option JsString
  /-- Outcome of the chat-completion request to Groq for a transcript and a
  prompt: the returned content, or the message of the error raised. -/
  groqPost : JsString → JsString → Except JsString JsString
  /-- Outcome of the chat-completion request to OpenAI. -/
  openaiPost : JsString → JsString → Except JsString JsString
  /-- Wall-clock time `Date.now() - startTime` measured by `generateSummary`. -/
  elapsed : Nat
  /-- The value returned by `uuidv4()`. -/
  uuid : JsString
  /-- A uuid is never the empty string. -/
  uuid_ne : uuid ≠ []
  /-- The time of the request, for the timestamps of a record. -/
  now : Nat
  /-- Cast of a request parameter to an object id (`none`: the cast fails
  and `findById` throws). -/
  castObjectId : JsString → Option Nat
  /-- Message of the validation error thrown by `save()` for a document
  that violates the schema, as a function of the failing paths and their
  values (the message is generated by the document library). -/
  validationMessage : List (JsString × JsString) → JsString

/-- One outbound chat-completion request. -/
structure ProviderRequest where
  provider : JsString
  transcript : JsString
  prompt : JsString
  deriving DecidableEq, Repr

/-- The object returned by `AIService.generateSummary`. -/
structure AiResult where
  summary : JsString
  processingTime : Nat
  provider : JsString
  deriving DecidableEq, Repr

/-- What a call of the AI service did: the provider requests it sent and
its result, `error msg` standing for a thrown `Error` with message `msg`. -/
structure AiOutcome where
  requests : List ProviderRequest
  result : Except JsString AiResult

namespace AIService

/-- `AIService.getPreferredProvider`. -/
def getPreferredProvider (env : Env) : Except JsString JsString :=
  if truthy env.groqApiKey then .ok "groq".toList
  else if truthy env.openaiApiKey then .ok "openai".toList
  else .error "No AI API key configured".toList

/-- `AIService.generateSummaryWithGroq`: any failure of the request is
rethrown with the prefix `Groq API Error: `. -/
def generateSummaryWithGroq (env : Env) (transcript prompt : JsString) :
    Except JsString JsString :=
  match env.groqPost transcript prompt with
  | .ok content => .ok content
  | .error m => .error ("Groq API Error: ".toList ++ m)

/-- `AIService.generateSummaryWithOpenAI`. -/
def generateSummaryWithOpenAI (env : Env) (transcript prompt : JsString) :
    Except JsString JsString :=
  match env.openaiPost transcript prompt with
  | .ok content => .ok content
  | .error m => .error ("OpenAI API Error: ".toList ++ m)

/-- The provider chosen by `provider || this.getPreferredProvider()`. -/
def selectProvider (env : Env) (provider : Option JsString) : Except JsString JsString :=
  if truthy provider then .ok (provider.getD []) else getPreferredProvider env

/-- The `switch (selectedProvider)` of `generateSummary`: the key check, the
provider request and the returned object. -/
def callProvider (env : Env) (transcript prompt selectedProvider : JsString) : AiOutcome :=
  if selectedProvider = "groq".toList then
    if !truthy env.groqApiKey then
      { requests := [], result := .error "Groq API key not configured".toList }
    else
      { requests := [{ provider := selectedProvider, transcript := transcript,
                       prompt := prompt }],
        result :=
          match generateSummaryWithGroq env transcript prompt with
          | .error m => .error m
          | .ok summary =>
            .ok { summary := summary, processingTime := env.elapsed,
                  provider := selectedProvider } }
  else if selectedProvider = "openai".toList then
    if !truthy env.openaiApiKey then
      { requests := [], result := .error "OpenAI API key not configured".toList }
    else
      { requests := [{ provider := selectedProvider, transcript := transcript,
                       prompt := prompt }],
        result :=
          match generateSummaryWithOpenAI env transcript prompt with
          | .error m => .error m
          | .ok summary =>
            .ok { summary := summary, processingTime := env.elapsed,
                  provider := selectedProvider } }
  else
    { requests := [],
      result := .error ("Unsupported AI provider: ".toList ++ selectedProvider) }

/-- `AIService.generateSummary(transcript, prompt, provider)`. -/
def generateSummary (env : Env) (transcript prompt : JsString)
    (provider : Option JsString) : AiOutcome :=
  if transcript.isEmpty || jsLength (trim transcript) == 0 then
    { requests := [], result := .error "Transcript is required".toList }
  else if prompt.isEmpty || jsLength (trim prompt) == 0 then
    { requests := [], result := .error "Prompt is required".toList }
  else
    match selectProvider env provider with
    | .error m => { requests := [], result := .error m }
    | .ok selectedProvider => callProvider env transcript prompt selectedProvider

/-- The property names every object literal inherits from `Object.prototype`:
for these keys `stylePrompts[style]` is a function or an object, not a
string and not undefined. -/
def objectPrototypeKeys : List JsString :=
  ["constructor".toList, "__defineGetter__".toList, "__defineSetter__".toList,
   "hasOwnProperty".toList, "__lookupGetter__".toList, "__lookupSetter__".toList,
   "isPrototypeOf".toList, "propertyIsEnumerable".toList, "toString".toList,
   "valueOf".toList, "__proto__".toList, "toLocaleString".toList]

/-- The value `stylePrompts.custom`: `customPrompt || <generic default>`. -/
def customStylePrompt (customPrompt : JsString) : JsString :=
  if customPrompt.isEmpty then
    "Create a comprehensive summary of the meeting covering main topics, decisions, and key takeaways.".toList
  else customPrompt

/-- The prompt `stylePrompts[style] || stylePrompts.custom` for a style that
is not a key of `Object.prototype`. -/
def stylePrompt (style customPrompt : JsString) : JsString :=
  if style = "executive".toList then
    "Create an executive summary with key points, decisions made, and next steps. Focus on high-level insights and business impact.".toList
  else if style = "action-items".toList then
    "Extract all action items, assignments, and deadlines from the meeting. Organize by person responsible and priority.".toList
  else if style = "technical".toList then
    "Provide a technical summary focusing on technical discussions, specifications, architecture decisions, and implementation details.".toList
  else customStylePrompt customPrompt

/-- `AIService.generateSummaryWithStyle(transcript, style, customPrompt)`.
For a style naming an inherited property the looked-up prompt is not a
string, and `generateSummary` throws a `TypeError` at `prompt.trim()`
(after the transcript check). -/
def generateSummaryWithStyle (env : Env) (transcript style customPrompt : JsString) :
    AiOutcome :=
  if style ∈ objectPrototypeKeys then
    if transcript.isEmpty || jsLength (trim transcript) == 0 then
      { requests := [], result := .error "Transcript is required".toList }
    else
      { requests := [], result := .error "prompt.trim is not a function".toList }
  else generateSummary env transcript (stylePrompt style customPrompt) none

end AIService

/-! ## The summary model (`backend/models/Summary.js`) -/

/-- One entry of `emailLogs`. -/
structure EmailLog where
  recipients : List JsString
  subject : JsString
  sentAt : Nat
  status : JsString
  deriving DecidableEq, Repr

/-- The `metadata` sub-document. -/
structure Metadata where
  wordCount : Option Nat
  processingTime : Option Nat
  aiProvider : JsString
  deriving DecidableEq, Repr

/-- A summary document.  `id` is the object id `_id`. -/
structure Summary where
  id : Nat
  userId : JsString
  transcript : JsString
  prompt : JsString
  generatedSummary : JsString
  editedSummary : Option JsString
  summaryStyle : JsString
  language : JsString
  emailLogs : List EmailLog
  metadata : Metadata
  createdAt : Nat
  updatedAt : Nat
  deriving DecidableEq, Repr

/-- The collection of stored summaries. -/
abbrev Store := List Summary

/-- The document with a given object id, if any. -/
def Store.lookup (store : Store) (oid : Nat) : Option Summary :=
  store.find? (fun r => r.id == oid)

/-- A fresh object id: object ids are generated unique. -/
def Store.freshId (store : Store) : Nat :=
  (store.map (fun r => r.id)).foldr max 0 + 1

/-- Write back an existing document: the stored document with the same
object id is replaced. -/
def Store.update : Store → Summary → Store
  | [], _ => []
  | r :: rest, doc =>
    if r.id = doc.id then doc :: rest else r :: Store.update rest doc

/-- The `enum` of `summaryStyle`. -/
def summaryStyles : List JsString :=
  ["executive".toList, "action-items".toList, "technical".toList, "custom".toList]

/-- The `enum` of `metadata.aiProvider`. -/
def aiProviders : List JsString :=
  ["groq".toList, "openai".toList]

/-- The schema paths with a validator. -/
inductive SchemaPath where
  | userId
  | transcript
  | prompt
  | generatedSummary
  | editedSummary
  | summaryStyle
  | aiProvider
  deriving DecidableEq, Repr

/-- The name of a schema path. -/
def SchemaPath.name : SchemaPath → JsString
  | .userId => "userId".toList
  | .transcript => "transcript".toList
  | .prompt => "prompt".toList
  | .generatedSummary => "generatedSummary".toList
  | .editedSummary => "editedSummary".toList
  | .summaryStyle => "summaryStyle".toList
  | .aiProvider => "metadata.aiProvider".toList

/-- The value of a document at a schema path (the empty string when the
path is unset). -/
def SchemaPath.value (doc : Summary) : SchemaPath → JsString
  | .userId => doc.userId
  | .transcript => doc.transcript
  | .prompt => doc.prompt
  | .generatedSummary => doc.generatedSummary
  | .editedSummary => doc.editedSummary.getD []
  | .summaryStyle => doc.summaryStyle
  | .aiProvider => doc.metadata.aiProvider

/-- The validators of the schema at one path: `required` rejects the empty
string, `maxlength` compares `.length`, `enum` tests membership. -/
def pathValid (doc : Summary) : SchemaPath → Bool
  | .userId => !doc.userId.isEmpty
  | .transcript => !doc.transcript.isEmpty && jsLength doc.transcript ≤ 50000
  | .prompt => !doc.prompt.isEmpty && jsLength doc.prompt ≤ 1000
  | .generatedSummary =>
    !doc.generatedSummary.isEmpty && jsLength doc.generatedSummary ≤ 10000
  | .editedSummary =>
    match doc.editedSummary with
    | none => true
    | some e => jsLength e ≤ 10000
  | .summaryStyle => doc.summaryStyle ∈ summaryStyles
  | .aiProvider => doc.metadata.aiProvider ∈ aiProviders

/-- All schema paths with a validator, in schema order. -/
def allPaths : List SchemaPath :=
  [.userId, .transcript, .prompt, .generatedSummary, .editedSummary, .summaryStyle,
   .aiProvider]

/-- Those of the given paths at which the document fails validation. -/
def invalidPaths (doc : Summary) (paths : List SchemaPath) : List SchemaPath :=
  paths.filter (fun p => !pathValid doc p)

/-- The failing paths with their values, as reported in a validation error. -/
def failures (doc : Summary) (invalid : List SchemaPath) : List (JsString × JsString) :=
  invalid.map (fun p => (p.name, p.value doc))

/-- The `pre('save')` middleware: recompute `metadata.wordCount` from the
transcript (when the transcript is truthy). -/
def preSave (doc : Summary) : Summary :=
  if !doc.transcript.isEmpty then
    { doc with metadata := { doc.metadata with wordCount := some (splitCount doc.transcript) } }
  else doc

/-- `save()` of a new document: validation of every path, then the pre-save
middleware, then the insert with both timestamps set.  An error carries the
message of the thrown validation error. -/
def saveNew (env : Env) (store : Store) (doc : Summary) : Except JsString (Store × Summary) :=
  match invalidPaths doc allPaths with
  | p :: ps => .error (env.validationMessage (failures doc (p :: ps)))
  | [] =>
    let saved := { preSave doc with createdAt := env.now, updatedAt := env.now }
    .ok (store ++ [saved], saved)

/-- The `timestamps` option on the save of an existing document: `updatedAt`
is set to the current time when the document differs from the stored one. -/
def touch (env : Env) (old doc : Summary) : Summary :=
  if doc = old then doc else { doc with updatedAt := env.now }

/-- `save()` of a document loaded from the store as `old` and since assigned
to at the paths `modified`: validation of the modified paths (the other
paths of a loaded document are not validated again), then the pre-save
middleware, then the write; `updatedAt` moves only when the document
differs from the stored one. -/
def saveExisting (env : Env) (store : Store) (old doc : Summary)
    (modified : List SchemaPath) : Except JsString (Store × Summary) :=
  match invalidPaths doc modified with
  | p :: ps => .error (env.validationMessage (failures doc (p :: ps)))
  | [] =>
    let saved := touch env old (preSave doc)
    .ok (store.update saved, saved)

/-! ## The summarize controller (`backend/controllers/summarizeController.js`) -/

/-- The body of a create request (`POST /`): every field may be absent. -/
structure CreateRequest where
  transcript : Option JsString
  prompt : Option JsString
  style : Option JsString
  language : Option JsString
  provider : Option JsString
  userId : Option JsString
  deriving DecidableEq, Repr

/-- The `data` object of a successful create response. -/
structure CreatedData where
  id : Nat
  summary : JsString
  processingTime : Nat
  provider : JsString
  userId : JsString
  createdAt : Nat
  deriving DecidableEq, Repr

/-- The JSON bodies sent by the summarize controller. -/
inductive Body where
  | error (error message : JsString)
  | created (data : CreatedData)
  | updated (id : Nat) (editedSummary : Option JsString) (updatedAt : Nat)
  | updatedFields (id : Nat) (editedSummary : Option JsString)
      (prompt summaryStyle language : JsString) (updatedAt : Nat)
  | document (doc : Summary)
  | deleted (message : JsString)
  deriving DecidableEq, Repr

/-- An HTTP response: status code and JSON body. -/
structure Response where
  status : Nat
  body : Body
  deriving DecidableEq, Repr

/-- A call of the AI client made by the controller. -/
inductive AiCall where
  | generateSummary (transcript prompt : JsString) (provider : Option JsString)
  | generateSummaryWithStyle (transcript style customPrompt : JsString)
  deriving DecidableEq, Repr

/-- The effect of handling one request. -/
structure Outcome where
  response : Response
  store : Store
  aiCalls : List AiCall
  providerRequests : List ProviderRequest
  deriving DecidableEq, Repr

/-- Run a call of the AI client. -/
def AiCall.run (env : Env) : AiCall → AiOutcome
  | .generateSummary transcript prompt provider =>
    AIService.generateSummary env transcript prompt provider
  | .generateSummaryWithStyle transcript style customPrompt =>
    AIService.generateSummaryWithStyle env transcript style customPrompt

namespace SummarizeController

/-- The effective style of a create request (`style = 'custom'` by default). -/
def styleOf (req : CreateRequest) : JsString :=
  req.style.getD "custom".toList

/-- The effective language of a create request (`language = 'en'` by default). -/
def languageOf (req : CreateRequest) : JsString :=
  req.language.getD "en".toList

/-- The user id of a create request: `req.body.userId || uuidv4()`. -/
def userIdOf (env : Env) (req : CreateRequest) : JsString :=
  if truthy req.userId then req.userId.getD [] else env.uuid

/-- The call of the AI client made for a request that passed validation:
the style-aware path unless the style is `custom`. -/
def aiCallOf (req : CreateRequest) : AiCall :=
  if styleOf req ≠ "custom".toList then
    .generateSummaryWithStyle (req.transcript.getD []) (styleOf req) (req.prompt.getD [])
  else
    .generateSummary (req.transcript.getD []) (req.prompt.getD []) req.provider

/-- The document `new Summary(...)` built from a request and the AI result. -/
def newDocument (env : Env) (store : Store) (req : CreateRequest) (ai : AiResult) : Summary :=
  { id := store.freshId
    userId := userIdOf env req
    transcript := req.transcript.getD []
    prompt := req.prompt.getD []
    generatedSummary := ai.summary
    editedSummary := none
    summaryStyle := styleOf req
    language := languageOf req
    emailLogs := []
    metadata := { wordCount := none, processingTime := some ai.processingTime,
                  aiProvider := ai.provider }
    createdAt := 0
    updatedAt := 0 }

/-- The `catch` block of `generateSummary`: 503 when the message of the
error contains `API Error`, otherwise the generic 500. -/
def generateSummaryCatch (message : JsString) : Response :=
  if includes message "API Error".toList then
    { status := 503, body := .error "AI Service Unavailable".toList message }
  else
    { status := 500,
      body := .error "Internal Server Error".toList "Failed to generate summary".toList }

/-- The controller validation of a create request: both fields truthy and
the transcript accepted by `validateTranscript`. -/
def passesValidation (req : CreateRequest) : Bool :=
  truthy req.transcript && truthy req.prompt &&
    (match validateTranscript (req.transcript.getD []) with
     | .ok _ => true
     | .error _ => false)

/-- `generateSummary` (the create handler). -/
def generateSummary (env : Env) (store : Store) (req : CreateRequest) : Outcome :=
  if !truthy req.transcript || !truthy req.prompt then
    { response :=
        { status := 400,
          body := .error "Missing required fields".toList
                    "Transcript and prompt are required".toList }
      store := store, aiCalls := [], providerRequests := [] }
  else
    match validateTranscript (req.transcript.getD []) with
    | .error e =>
      { response := { status := 400, body := .error "Invalid transcript".toList e.message }
        store := store, aiCalls := [], providerRequests := [] }
    | .ok _ =>
      let call := aiCallOf req
      let ai := call.run env
      match ai.result with
      | .error m =>
        { response := generateSummaryCatch m
          store := store, aiCalls := [call], providerRequests := ai.requests }
      | .ok aiResult =>
        match saveNew env store (newDocument env store req aiResult) with
        | .error m =>
          { response := generateSummaryCatch m
            store := store, aiCalls := [call], providerRequests := ai.requests }
        | .ok (store', summary) =>
          { response :=
              { status := 200,
                body := .created
                  { id := summary.id, summary := aiResult.summary,
                    processingTime := aiResult.processingTime,
                    provider := aiResult.provider, userId := summary.userId,
                    createdAt := summary.createdAt } }
            store := store', aiCalls := [call], providerRequests := ai.requests }

/-- `Summary.findById(id)`: an error when the id cannot be cast. -/
def findById (env : Env) (store : Store) (id : JsString) : Except Unit (Option Summary) :=
  match env.castObjectId id with
  | none => .error ()
  | some oid => .ok (store.lookup oid)

/-- The 404 response shared by the handlers. -/
def notFound : Response :=
  { status := 404,
    body := .error "Summary not found".toList
              "Summary with the provided ID does not exist".toList }

/-- The generic 500 response of a handler, with its fixed message. -/
def internalError (message : JsString) : Response :=
  { status := 500, body := .error "Internal Server Error".toList message }

/-- `updateSummary` (the edit handler, `PUT /:id`). -/
def updateSummary (env : Env) (store : Store) (id : JsString)
    (editedSummary : Option JsString) : Outcome :=
  if !truthy editedSummary then
    { response :=
        { status := 400,
          body := .error "Missing edited summary".toList "Edited summary is required".toList }
      store := store, aiCalls := [], providerRequests := [] }
  else
    match findById env store id with
    | .error _ =>
      { response := internalError "Failed to update summary".toList
        store := store, aiCalls := [], providerRequests := [] }
    | .ok none =>
      { response := notFound, store := store, aiCalls := [], providerRequests := [] }
    | .ok (some summary) =>
      match saveExisting env store summary { summary with editedSummary := editedSummary }
              (if editedSummary = summary.editedSummary then [] else [.editedSummary]) with
      | .error _ =>
        { response := internalError "Failed to update summary".toList
          store := store, aiCalls := [], providerRequests := [] }
      | .ok (store', saved) =>
        { response :=
            { status := 200, body := .updated saved.id saved.editedSummary saved.updatedAt }
          store := store', aiCalls := [], providerRequests := [] }

/-- `getSummary` (`GET /:id`). -/
def getSummary (env : Env) (store : Store) (id : JsString) : Outcome :=
  match findById env store id with
  | .error _ =>
    { response := internalError "Failed to retrieve summary".toList
      store := store, aiCalls := [], providerRequests := [] }
  | .ok none =>
    { response := notFound, store := store, aiCalls := [], providerRequests := [] }
  | .ok (some summary) =>
    { response := { status := 200, body := .document summary }
      store := store, aiCalls := [], providerRequests := [] }

end SummarizeController

/-! ## Facts about strings -/

theorem utf16Units_pos (c : Char) : 0 < utf16Units c := by
  unfold utf16Units
  split <;> decide

theorem jsLength_eq_zero_iff (s : JsString) : jsLength s = 0 ↔ s = [] := by
  cases s with
  | nil => simp [jsLength]
  | cons c s =>
    have := utf16Units_pos c
    simp [jsLength]
    omega

theorem jsLength_replicate_bmp (c : Char) (h : c.toNat < 65536) (n : Nat) :
    jsLength (List.replicate n c) = n := by
  induction n with
  | zero => rfl
  | succ n ih =>
    simp [List.replicate_succ, jsLength, ih, utf16Units, h]
    omega

/-- Whether a scan that has read `s` after a state `inWs` ends inside a
whitespace run. -/
def endsWsFrom : Bool → List Char → Bool
  | inWs, [] => inWs
  | _, c :: rest => endsWsFrom (isJsWhitespace c) rest

theorem endsWsFrom_cons (b : Bool) (c : Char) (s : List Char) :
    endsWsFrom b (c :: s) = endsWithWs (c :: s) := by
  induction s generalizing b c with
  | nil => simp [endsWsFrom, endsWithWs, startsWithWs]
  | cons d s ih =>
    have h1 : endsWsFrom b (c :: d :: s) = endsWsFrom (isJsWhitespace c) (d :: s) := rfl
    rw [h1, ih]
    unfold endsWithWs
    have h2 : (c :: d :: s).reverse = (d :: s).reverse ++ [c] := by simp
    rw [h2]
    cases h : (d :: s).reverse with
    | nil => simp at h
    | cons e t => simp [startsWithWs]

theorem splitWsGo_length (inWs : Bool) (cur s : List Char) :
    (splitWsGo inWs cur s).length =
      countWordsFrom inWs s + (if inWs then 0 else 1) + (if endsWsFrom inWs s then 1 else 0) := by
  induction s generalizing inWs cur with
  | nil => cases inWs <;> simp [splitWsGo, countWordsFrom, endsWsFrom]
  | cons c s ih =>
    by_cases hc : isJsWhitespace c = true
    · cases inWs
      · simp [splitWsGo, countWordsFrom, endsWsFrom, hc, ih]
        omega
      · simp [splitWsGo, countWordsFrom, endsWsFrom, hc, ih]
    · simp only [Bool.not_eq_true] at hc
      cases inWs
      · simp [splitWsGo, countWordsFrom, endsWsFrom, hc, ih]
      · simp [splitWsGo, countWordsFrom, endsWsFrom, hc, ih]
        omega

/-- The count `s.split(/\s+/).length` of a non-empty string: its number of
words, plus one for leading whitespace, plus one for trailing whitespace. -/
theorem splitCount_cons (c : Char) (s : List Char) :
    splitCount (c :: s) =
      countWords (c :: s) + (if startsWithWs (c :: s) then 1 else 0) +
        (if endsWithWs (c :: s) then 1 else 0) := by
  unfold splitCount splitWs countWords
  rw [splitWsGo_length, endsWsFrom_cons]
  by_cases hc : isJsWhitespace c = true
  · simp [countWordsFrom, startsWithWs, hc]
  · simp only [Bool.not_eq_true] at hc
    simp [countWordsFrom, startsWithWs, hc]
    omega

theorem splitCount_nil : splitCount [] = 1 := rfl

/-- Without leading or trailing whitespace the split count of a string is
its word count, except for the empty string, where it is one. -/
theorem splitCount_of_trimmed (s : JsString) (h1 : startsWithWs s = false)
    (h2 : endsWithWs s = false) :
    splitCount s = if s = [] then 1 else countWords s := by
  cases s with
  | nil => rfl
  | cons c s => rw [splitCount_cons, h1, h2]; simp

theorem includes_append_right (a sub : JsString) (h : includes a sub = true) (b : JsString) :
    includes (a ++ b) sub = true := by
  induction a with
  | nil =>
    cases sub with
    | nil => cases b <;> simp [includes]
    | cons x sub => simp [includes] at h
  | cons c a ih =>
    simp only [includes, Bool.or_eq_true] at h
    simp only [List.cons_append, includes, Bool.or_eq_true]
    rcases h with h | h
    · left
      rw [List.isPrefixOf_iff_prefix] at h ⊢
      exact h.trans (List.prefix_append (c :: a) b)
    · right
      exact ih h

/-! ## Sample environments and requests -/

/-- A transcript of ten words without surrounding whitespace. -/
def tenWords : JsString :=
  "one two three four five six seven eight nine ten".toList

/-- Object ids written in decimal, for the sample environments. -/
def decimalId (s : JsString) : Option Nat :=
  if !s.isEmpty && s.all Char.isDigit then
    some (s.foldl (fun n c => 10 * n + (c.toNat - 48)) 0)
  else none

/-- An environment without any API key. -/
def offlineEnv : Env :=
  { groqApiKey := none
    openaiApiKey := none
    groqPost := fun _ _ => .error "connect ECONNREFUSED".toList
    openaiPost := fun _ _ => .error "connect ECONNREFUSED".toList
    elapsed := 0
    uuid := "3b241101-e2bb-4255-8caf-4136c566a962".toList
    uuid_ne := by decide
    now := 1700000000000
    castObjectId := decimalId
    validationMessage := fun failed =>
      "Summary validation failed: ".toList ++ ", ".toList.intercalate (failed.map Prod.fst) }

/-- An environment with a Groq key whose provider answers every request
with the given content. -/
def groqEnv (content : JsString) : Env :=
  { offlineEnv with
    groqApiKey := some "gsk_test".toList
    groqPost := fun _ _ => .ok content
    elapsed := 850 }

/-- A create request with the given transcript and prompt and nothing else. -/
def plainRequest (transcript prompt : JsString) : CreateRequest :=
  { transcript := some transcript, prompt := some prompt, style := none,
    language := none, provider := none, userId := none }

/-! ## Lemmas about the create handler -/

open SummarizeController

theorem truthy_some_getD (o : Option JsString) (h : truthy o = true) : o = some (o.getD []) := by
  cases o with
  | none => simp [truthy] at h
  | some s => rfl

theorem generateSummaryCatch_status (m : JsString) :
    (generateSummaryCatch m).status = 500 ∨ (generateSummaryCatch m).status = 503 := by
  unfold generateSummaryCatch
  split <;> simp

theorem generateSummaryCatch_status_of_not_includes (m : JsString)
    (h : includes m "API Error".toList = false) :
    generateSummaryCatch m = internalError "Failed to generate summary".toList := by
  simp only [generateSummaryCatch, h]
  rfl

/-- A request with a falsy transcript or prompt is answered 400 and has no
effect. -/
theorem generateSummary_missing (env : Env) (store : Store) (req : CreateRequest)
    (h : truthy req.transcript = false ∨ truthy req.prompt = false) :
    generateSummary env store req =
      { response :=
          { status := 400,
            body := .error "Missing required fields".toList
                      "Transcript and prompt are required".toList }
        store := store, aiCalls := [], providerRequests := [] } := by
  unfold generateSummary
  rcases h with h | h <;> simp [h]

/-- A request whose transcript is rejected by `validateTranscript` is
answered 400 and has no effect. -/
theorem generateSummary_invalid (env : Env) (store : Store) (req : CreateRequest)
    (h1 : truthy req.transcript = true) (h2 : truthy req.prompt = true) (e : TranscriptError)
    (h : validateTranscript (req.transcript.getD []) = .error e) :
    generateSummary env store req =
      { response := { status := 400, body := .error "Invalid transcript".toList e.message }
        store := store, aiCalls := [], providerRequests := [] } := by
  unfold generateSummary
  simp [h1, h2, h]

/-- A request that passes the controller validation reaches the AI client. -/
theorem generateSummary_valid (env : Env) (store : Store) (req : CreateRequest)
    (h : passesValidation req = true) :
    generateSummary env store req =
      match ((aiCallOf req).run env).result with
      | .error m =>
        { response := generateSummaryCatch m
          store := store, aiCalls := [aiCallOf req],
          providerRequests := ((aiCallOf req).run env).requests }
      | .ok aiResult =>
        match saveNew env store (newDocument env store req aiResult) with
        | .error m =>
          { response := generateSummaryCatch m
            store := store, aiCalls := [aiCallOf req],
            providerRequests := ((aiCallOf req).run env).requests }
        | .ok (store', summary) =>
          { response :=
              { status := 200,
                body := .created
                  { id := summary.id, summary := aiResult.summary,
                    processingTime := aiResult.processingTime,
                    provider := aiResult.provider, userId := summary.userId,
                    createdAt := summary.createdAt } }
            store := store', aiCalls := [aiCallOf req],
            providerRequests := ((aiCallOf req).run env).requests } := by
  unfold passesValidation at h
  simp only [Bool.and_eq_true] at h
  obtain ⟨⟨h1, h2⟩, h3⟩ := h
  unfold generateSummary
  simp only [h1, h2, Bool.not_true, Bool.or_self, Bool.false_eq_true, if_false]
  cases hv : validateTranscript (req.transcript.getD []) with
  | error e => simp [hv] at h3
  | ok c => rfl

/-- A valid request whose AI call succeeds but whose document is rejected by
`save()` is answered from the `catch` block and leaves the store as it was. -/
theorem generateSummary_of_save_error (env : Env) (store : Store) (req : CreateRequest)
    (aiResult : AiResult) (m : JsString) (hv : passesValidation req = true)
    (hai : ((aiCallOf req).run env).result = .ok aiResult)
    (hs : saveNew env store (newDocument env store req aiResult) = .error m) :
    generateSummary env store req =
      { response := generateSummaryCatch m
        store := store, aiCalls := [aiCallOf req],
        providerRequests := ((aiCallOf req).run env).requests } := by
  rw [generateSummary_valid env store req hv]
  simp only [hai, hs]

/-- A valid request whose AI call throws is answered from the `catch` block
and leaves the store as it was. -/
theorem generateSummary_of_ai_error (env : Env) (store : Store) (req : CreateRequest)
    (m : JsString) (hv : passesValidation req = true)
    (hf : ((aiCallOf req).run env).result = .error m) :
    generateSummary env store req =
      { response := generateSummaryCatch m
        store := store, aiCalls := [aiCallOf req],
        providerRequests := ((aiCallOf req).run env).requests } := by
  rw [generateSummary_valid env store req hv]
  simp only [hf]

theorem preSave_of_ne_nil (doc : Summary) (h : doc.transcript ≠ []) :
    preSave doc =
      { doc with
        metadata := { doc.metadata with wordCount := some (splitCount doc.transcript) } } := by
  unfold preSave
  simp [h]

theorem passesValidation_cases (req : CreateRequest) :
    (truthy req.transcript = false ∨ truthy req.prompt = false) ∨
    (truthy req.transcript = true ∧ truthy req.prompt = true ∧
      ∃ e, validateTranscript (req.transcript.getD []) = .error e) ∨
    passesValidation req = true := by
  unfold passesValidation
  cases h1 : truthy req.transcript
  · simp
  · cases h2 : truthy req.prompt
    · simp
    · cases hv : validateTranscript (req.transcript.getD []) with
      | error e => simp
      | ok c => simp

/-- A 400 response of the create handler comes with no call of the AI client,
no provider request and an unchanged store. -/
theorem generateSummary_400_no_effect (env : Env) (store : Store) (req : CreateRequest)
    (h : (generateSummary env store req).response.status = 400) :
    (generateSummary env store req).aiCalls = [] ∧
    (generateSummary env store req).providerRequests = [] ∧
    (generateSummary env store req).store = store := by
  rcases passesValidation_cases req with hm | ⟨h1, h2, e, he⟩ | hp
  · rw [generateSummary_missing env store req hm]
    simp
  · rw [generateSummary_invalid env store req h1 h2 e he]
    simp
  · rw [generateSummary_valid env store req hp] at h
    exfalso
    split at h
    · rename_i m _
      rcases generateSummaryCatch_status m with hs | hs <;> simp [hs] at h
    · split at h
      · rename_i m _
        rcases generateSummaryCatch_status m with hs | hs <;> simp [hs] at h
      · simp at h

/-- The store after a create request that did not answer 200 is the store
before it. -/
theorem generateSummary_store_of_not_200 (env : Env) (store : Store) (req : CreateRequest)
    (h : (generateSummary env store req).response.status ≠ 200) :
    (generateSummary env store req).store = store := by
  rcases passesValidation_cases req with hm | ⟨h1, h2, e, he⟩ | hp
  · rw [generateSummary_missing env store req hm]
  · rw [generateSummary_invalid env store req h1 h2 e he]
  · rw [generateSummary_valid env store req hp] at h ⊢
    cases hr : ((aiCallOf req).run env).result with
    | error m => rfl
    | ok aiResult =>
      simp only [hr] at h ⊢
      cases hsv : saveNew env store (newDocument env store req aiResult) with
      | error m => rfl
      | ok r => simp [hsv] at h

theorem isJsWhitespace_a : isJsWhitespace 'a' = false := by decide

theorem countWordsFrom_false_replicate_a (n : Nat) :
    countWordsFrom false (List.replicate n 'a') = 0 := by
  induction n with
  | zero => rfl
  | succ n ih => simp [List.replicate_succ, countWordsFrom, isJsWhitespace_a, ih]

theorem countWords_replicate_a (n : Nat) : countWords (List.replicate (n + 1) 'a') = 1 := by
  simp [countWords, List.replicate_succ, countWordsFrom, isJsWhitespace_a,
    countWordsFrom_false_replicate_a]

/-! ## C1: short transcripts -/

/-- C1 (as stated, refuted): a transcript of fewer than ten words is not
always rejected as too short.  The single word made of 50,001 letters has
word count one, and `validateTranscript` rejects it as too long: the length
check comes first. -/
theorem C1_counterexample_long_single_word :
    countWords (List.replicate 50001 'a') < 10 ∧
    validateTranscript (List.replicate 50001 'a') = .error .tooLong ∧
    validateTranscript (List.replicate 50001 'a') ≠ .error .tooShort := by
  have hl : jsLength (List.replicate 50001 'a') = 50001 :=
    jsLength_replicate_bmp 'a' (by decide) 50001
  have hv : validateTranscript (List.replicate 50001 'a') = .error .tooLong := by
    unfold validateTranscript
    simp only [hl]
    rfl
  refine ⟨?_, hv, ?_⟩
  · rw [countWords_replicate_a 50000]
    decide
  · rw [hv]
    decide

/-- C1 (amended): for every transcript of fewer than ten words (maximal runs
of non-whitespace) that neither starts nor ends with whitespace,
`validateTranscript` rejects it, as too long when it has more than 50,000
characters and as too short otherwise, and the create handler answers 400
without calling the AI client, without any provider request and without
changing the store. -/
theorem C1_short_trimmed_transcript_rejected (env : Env) (store : Store)
    (req : CreateRequest) (t : JsString) (ht : req.transcript = some t)
    (hw : countWords t < 10) (hs : startsWithWs t = false) (he : endsWithWs t = false) :
    validateTranscript t = .error (if 50000 < jsLength t then .tooLong else .tooShort) ∧
    (generateSummary env store req).response.status = 400 ∧
    (generateSummary env store req).aiCalls = [] ∧
    (generateSummary env store req).providerRequests = [] ∧
    (generateSummary env store req).store = store := by
  have hc : splitCount t < 10 := by
    rw [splitCount_of_trimmed t hs he]
    split
    · decide
    · exact hw
  have hv : validateTranscript t =
      .error (if 50000 < jsLength t then .tooLong else .tooShort) := by
    unfold validateTranscript
    by_cases hl : 50000 < jsLength t
    · simp [hl]
    · simp [hl, hc]
  have h400 : (generateSummary env store req).response.status = 400 := by
    rcases passesValidation_cases req with hm | ⟨h1, h2, e, he'⟩ | hp
    · rw [generateSummary_missing env store req hm]
    · rw [generateSummary_invalid env store req h1 h2 e he']
    · exfalso
      unfold passesValidation at hp
      simp only [ht, Option.getD_some, hv, Bool.and_eq_true] at hp
      exact absurd hp.2 (by decide)
  exact ⟨hv, h400, generateSummary_400_no_effect env store req h400⟩

/-- Witness of C1 (amended): the two-word transcript `hello world`. -/
theorem C1_short_trimmed_transcript_rejected_witness :
    validateTranscript "hello world".toList = .error .tooShort ∧
    (generateSummary offlineEnv []
      (plainRequest "hello world".toList "Summarize".toList)).response.status = 400 := by
  have h := C1_short_trimmed_transcript_rejected offlineEnv []
    (plainRequest "hello world".toList "Summarize".toList) "hello world".toList rfl
    (by decide) (by decide) (by decide)
  exact ⟨by decide, h.2.1⟩

/-! ## C2: the stored word count -/

/-- Ten words followed by a line break, as in a pasted or uploaded text. -/
def tenWordsNewline : JsString :=
  "one two three four five six seven eight nine ten\n".toList

/-- C2 (code defect): for the transcript of ten words followed by a line
break the create handler stores `metadata.wordCount = 11`, while the
transcript has ten maximal runs of non-whitespace characters: the pre-save
middleware counts the empty piece after the trailing whitespace. -/
theorem C2_wordCount_counts_trailing_whitespace :
    (generateSummary (groqEnv "Summary.".toList) []
        (plainRequest tenWordsNewline "Summarize".toList)).store.map
      (fun doc => (doc.transcript, doc.metadata.wordCount)) = [(tenWordsNewline, some 11)] ∧
    countWords tenWordsNewline = 10 := by
  decide

/-! ## C3: over-long transcripts -/

/-- C3: a transcript of more than 50,000 characters makes `validateTranscript`
throw the too-long error, whatever its word count, and the create handler
answers 400 without calling the AI client, without provider request and
without changing the store; a transcript of at most 50,000 characters never
raises the too-long error, neither in `validateTranscript` nor as the body of
the create response. -/
theorem C3_too_long_transcript (env : Env) (store : Store) (req : CreateRequest)
    (t : JsString) (ht : req.transcript = some t) :
    (50000 < jsLength t →
      validateTranscript t = .error .tooLong ∧
      (generateSummary env store req).response.status = 400 ∧
      (generateSummary env store req).aiCalls = [] ∧
      (generateSummary env store req).providerRequests = [] ∧
      (generateSummary env store req).store = store) ∧
    (jsLength t ≤ 50000 →
      validateTranscript t ≠ .error .tooLong ∧
      (generateSummary env store req).response.body ≠
        .error "Invalid transcript".toList TranscriptError.tooLong.message) := by
  constructor
  · intro hl
    have hv : validateTranscript t = .error .tooLong := by
      unfold validateTranscript
      simp [hl]
    have h400 : (generateSummary env store req).response.status = 400 := by
      rcases passesValidation_cases req with hm | ⟨h1, h2, e, he⟩ | hp
      · rw [generateSummary_missing env store req hm]
      · rw [generateSummary_invalid env store req h1 h2 e he]
      · exfalso
        unfold passesValidation at hp
        simp only [ht, Option.getD_some, hv, Bool.and_eq_true] at hp
        exact absurd hp.2 (by decide)
    exact ⟨hv, h400, generateSummary_400_no_effect env store req h400⟩
  · intro hl
    have hv : validateTranscript t ≠ .error .tooLong := by
      unfold validateTranscript
      have : ¬ 50000 < jsLength t := by omega
      simp only [gt_iff_lt, this, if_false]
      split <;> simp
    refine ⟨hv, ?_⟩
    rcases passesValidation_cases req with hm | ⟨h1, h2, e, he⟩ | hp
    · rw [generateSummary_missing env store req hm]
      show Body.error "Missing required fields".toList
        "Transcript and prompt are required".toList ≠ _
      decide
    · rw [generateSummary_invalid env store req h1 h2 e he]
      simp only [ht, Option.getD_some] at he
      cases e with
      | tooLong => exact absurd he hv
      | tooShort =>
        show Body.error "Invalid transcript".toList TranscriptError.tooShort.message ≠ _
        decide
    · rw [generateSummary_valid env store req hp]
      have hc : ∀ m, (generateSummaryCatch m).body ≠
          .error "Invalid transcript".toList TranscriptError.tooLong.message := by
        intro m
        unfold generateSummaryCatch
        split
        · intro h
          injection h with h1 _
          exact absurd h1 (by decide)
        · decide
      cases hr : ((aiCallOf req).run env).result with
      | error m => exact hc m
      | ok aiResult =>
        simp only []
        cases hsv : saveNew env store (newDocument env store req aiResult) with
        | error m => exact hc m
        | ok r => simp

/-- Witness of C3: the transcript of 50,001 letters is rejected as too long
with a 400 response, and the ten-word transcript is not. -/
theorem C3_too_long_transcript_witness :
    (validateTranscript (List.replicate 50001 'a') = .error .tooLong ∧
      (generateSummary offlineEnv []
        (plainRequest (List.replicate 50001 'a') "Summarize".toList)).response.status = 400) ∧
    validateTranscript tenWords ≠ .error .tooLong := by
  have hl : jsLength (List.replicate 50001 'a') = 50001 :=
    jsLength_replicate_bmp 'a' (by decide) 50001
  have h1 := (C3_too_long_transcript offlineEnv []
    (plainRequest (List.replicate 50001 'a') "Summarize".toList)
    (List.replicate 50001 'a') rfl).1 (by rw [hl]; decide)
  have h2 := (C3_too_long_transcript offlineEnv []
    (plainRequest tenWords "Summarize".toList) tenWords rfl).2 (by decide)
  exact ⟨⟨h1.1, h1.2.1⟩, h2.1⟩

/-! ## C4: failure of the AI client -/

/-- C4: when a create request passes the controller validation and the call
of the AI client throws, the store after the request is the store before
it, and the response is not a success. -/
theorem C4_ai_failure_persists_nothing (env : Env) (store : Store) (req : CreateRequest)
    (m : JsString) (hv : passesValidation req = true)
    (hf : ((aiCallOf req).run env).result = .error m) :
    (generateSummary env store req).store = store ∧
    (generateSummary env store req).response = generateSummaryCatch m ∧
    (generateSummary env store req).response.status ≠ 200 := by
  have key : generateSummary env store req =
      { response := generateSummaryCatch m
        store := store, aiCalls := [aiCallOf req],
        providerRequests := ((aiCallOf req).run env).requests } := by
    rw [generateSummary_valid env store req hv]
    simp only [hf]
  rw [key]
  refine ⟨rfl, rfl, ?_⟩
  rcases generateSummaryCatch_status m with hs | hs <;> simp [hs]

/-- Witness of C4: without any API key the AI client throws and the store
stays empty. -/
theorem C4_ai_failure_persists_nothing_witness :
    (generateSummary offlineEnv [] (plainRequest tenWords "Summarize".toList)).store = [] :=
  (C4_ai_failure_persists_nothing offlineEnv [] (plainRequest tenWords "Summarize".toList)
    "No AI API key configured".toList (by decide) (by decide)).1

/-! ## C5: validation errors have no effect -/

/-- C5: whenever the create handler answers 400, the AI client has not been
called, no provider request was sent and the store is unchanged; and every
request whose transcript or prompt is missing or empty is answered 400 with
the missing-fields error. -/
theorem C5_validation_error_has_no_effect (env : Env) (store : Store) (req : CreateRequest) :
    ((generateSummary env store req).response.status = 400 →
      (generateSummary env store req).aiCalls = [] ∧
      (generateSummary env store req).providerRequests = [] ∧
      (generateSummary env store req).store = store) ∧
    (truthy req.transcript = false ∨ truthy req.prompt = false →
      (generateSummary env store req).response =
        { status := 400,
          body := .error "Missing required fields".toList
                    "Transcript and prompt are required".toList }) := by
  constructor
  · exact generateSummary_400_no_effect env store req
  · intro h
    rw [generateSummary_missing env store req h]

/-- Witness of C5: a request with an empty prompt while a Groq key is
configured. -/
theorem C5_validation_error_has_no_effect_witness :
    (generateSummary (groqEnv "Summary.".toList) [] (plainRequest tenWords [])).aiCalls = [] ∧
    (generateSummary (groqEnv "Summary.".toList) []
      (plainRequest tenWords [])).response.status = 400 := by
  have h := C5_validation_error_has_no_effect (groqEnv "Summary.".toList) []
    (plainRequest tenWords [])
  have h2 := h.2 (Or.inr (by decide))
  exact ⟨(h.1 (by rw [h2])).1, by rw [h2]⟩

/-! ## Lemmas about the AI service, the schema and the store -/

theorem AIService.callProvider_ok_provider (env : Env) (t p sel : JsString) (r : AiResult)
    (h : (AIService.callProvider env t p sel).result = .ok r) : r.provider ∈ aiProviders := by
  unfold AIService.callProvider at h
  split at h
  · rename_i hsel
    split at h
    · simp at h
    · simp only at h
      split at h
      · simp at h
      · simp only [Except.ok.injEq] at h
        rw [← h, hsel]
        show "groq".toList ∈ aiProviders
        decide
  · split at h
    · rename_i hsel
      split at h
      · simp at h
      · simp only at h
        split at h
        · simp at h
        · simp only [Except.ok.injEq] at h
          rw [← h, hsel]
          show "openai".toList ∈ aiProviders
          decide
    · simp at h

/-- A successful call of `AIService.generateSummary` reports one of the two
supported providers. -/
theorem AIService.generateSummary_ok_provider (env : Env) (t p : JsString)
    (prov : Option JsString) (r : AiResult)
    (h : (AIService.generateSummary env t p prov).result = .ok r) :
    r.provider ∈ aiProviders := by
  unfold AIService.generateSummary at h
  split at h
  · simp at h
  · split at h
    · simp at h
    · split at h
      · simp at h
      · exact AIService.callProvider_ok_provider env t p _ r h

/-- A successful call of the AI client reports one of the two supported
providers. -/
theorem AiCall.run_ok_provider (env : Env) (call : AiCall) (r : AiResult)
    (h : (call.run env).result = .ok r) : r.provider ∈ aiProviders := by
  cases call with
  | generateSummary t p prov => exact AIService.generateSummary_ok_provider env t p prov r h
  | generateSummaryWithStyle t style cp =>
    simp only [AiCall.run, AIService.generateSummaryWithStyle] at h
    split at h
    · split at h <;> simp at h
    · exact AIService.generateSummary_ok_provider env t _ none r h

theorem userIdOf_ne_nil (env : Env) (req : CreateRequest) : userIdOf env req ≠ [] := by
  unfold userIdOf
  split
  · rename_i h
    cases hu : req.userId with
    | none => simp [hu, truthy] at h
    | some u =>
      cases u with
      | nil => simp [hu, truthy] at h
      | cons c u => simp
  · exact env.uuid_ne

theorem invalidPaths_eq_nil_iff (doc : Summary) (paths : List SchemaPath) :
    invalidPaths doc paths = [] ↔ ∀ p ∈ paths, pathValid doc p = true := by
  simp [invalidPaths, List.filter_eq_nil_iff]

theorem Store.le_foldr_max (store : Store) (r : Summary) (h : r ∈ store) :
    r.id ≤ (store.map (fun r => r.id)).foldr max 0 := by
  induction store with
  | nil => simp at h
  | cons a rest ih =>
    simp only [List.map_cons, List.foldr_cons]
    rcases List.mem_cons.mp h with h | h
    · rw [h]
      exact Nat.le_max_left _ _
    · exact Nat.le_trans (ih h) (Nat.le_max_right _ _)

/-- No stored document carries the fresh object id. -/
theorem Store.lookup_freshId (store : Store) : store.lookup store.freshId = none := by
  unfold Store.lookup
  rw [List.find?_eq_none]
  intro r hr
  have := Store.le_foldr_max store r hr
  unfold Store.freshId
  simp only [beq_iff_eq]
  omega

theorem Store.lookup_id (store : Store) (oid : Nat) (r : Summary)
    (h : store.lookup oid = some r) : r.id = oid := by
  unfold Store.lookup at h
  have := List.find?_some h
  simpa using this

theorem Store.lookup_update_self (store : Store) (doc old : Summary)
    (h : store.lookup doc.id = some old) : (store.update doc).lookup doc.id = some doc := by
  induction store with
  | nil => simp [Store.lookup] at h
  | cons a rest ih =>
    unfold Store.update
    by_cases ha : a.id = doc.id
    · simp [ha, Store.lookup]
    · simp only [ha, if_false]
      have hb : (a.id == doc.id) = false := by simpa using ha
      unfold Store.lookup at h ih ⊢
      simp only [List.find?_cons, hb] at h ⊢
      exact ih h

theorem Store.lookup_update_other (store : Store) (doc : Summary) (oid : Nat)
    (h : oid ≠ doc.id) : (store.update doc).lookup oid = store.lookup oid := by
  induction store with
  | nil => rfl
  | cons a rest ih =>
    unfold Store.update
    by_cases ha : a.id = doc.id
    · have h1 : ¬ a.id = oid := fun e => h (e.symm.trans ha)
      have h2 : ¬ doc.id = oid := fun e => h e.symm
      simp [ha, Store.lookup, List.find?_cons, h1, h2]
    · simp only [ha, if_false]
      unfold Store.lookup at ih ⊢
      simp only [List.find?_cons]
      rw [ih]

theorem Store.length_update (store : Store) (doc : Summary) :
    (store.update doc).length = store.length := by
  induction store with
  | nil => rfl
  | cons a rest ih =>
    unfold Store.update
    split <;> simp [ih]

/-! ## C6: a successful create -/

/-- A new document passes the schema validation when the request passed the
controller validation, the AI call succeeded, and the prompt, the style and
the generated summary satisfy the constraints of the schema. -/
theorem newDocument_valid (env : Env) (store : Store) (req : CreateRequest)
    (aiResult : AiResult) (hv : passesValidation req = true)
    (hai : ((aiCallOf req).run env).result = .ok aiResult)
    (hp : jsLength (req.prompt.getD []) ≤ 1000) (hst : styleOf req ∈ summaryStyles)
    (hs1 : aiResult.summary ≠ []) (hs2 : jsLength aiResult.summary ≤ 10000) :
    invalidPaths (newDocument env store req aiResult) allPaths = [] := by
  rw [invalidPaths_eq_nil_iff]
  unfold passesValidation at hv
  simp only [Bool.and_eq_true] at hv
  obtain ⟨⟨h1, h2⟩, h3⟩ := hv
  have ht : req.transcript.getD [] ≠ [] := by
    intro h
    rw [truthy_some_getD _ h1, Option.getD_some] at h
    rw [truthy_some_getD _ h1, h] at h1
    simp [truthy] at h1
  have hpn : req.prompt.getD [] ≠ [] := by
    intro h
    rw [truthy_some_getD _ h2, Option.getD_some] at h
    rw [truthy_some_getD _ h2, h] at h2
    simp [truthy] at h2
  have htl : jsLength (req.transcript.getD []) ≤ 50000 := by
    unfold validateTranscript at h3
    by_cases hl : 50000 < jsLength (req.transcript.getD [])
    · simp [hl] at h3
    · omega
  have hprov := AiCall.run_ok_provider env (aiCallOf req) aiResult hai
  have hu := userIdOf_ne_nil env req
  intro p _
  cases p <;> simp [pathValid, newDocument, ht, hpn, htl, hp, hst, hs1, hs2, hprov, hu]

/-- C6 (as stated, refuted): the request is valid and the AI client returns
a result, yet no record is added.  The provider answers with a summary of
10,001 characters; the document then violates `maxlength: 10000` of
`generatedSummary`, `save()` throws, and the handler answers 500 with the
store still empty. -/
theorem C6_counterexample_overlong_summary :
    passesValidation (plainRequest tenWords "Summarize".toList) = true ∧
    ((aiCallOf (plainRequest tenWords "Summarize".toList)).run
        (groqEnv (List.replicate 10001 'a'))).result =
      .ok { summary := List.replicate 10001 'a', processingTime := 850,
            provider := "groq".toList } ∧
    (generateSummary (groqEnv (List.replicate 10001 'a')) []
      (plainRequest tenWords "Summarize".toList)).store = [] ∧
    (generateSummary (groqEnv (List.replicate 10001 'a')) []
      (plainRequest tenWords "Summarize".toList)).response.status = 500 := by
  have hv : passesValidation (plainRequest tenWords "Summarize".toList) = true := by decide
  have hai : ((aiCallOf (plainRequest tenWords "Summarize".toList)).run
        (groqEnv (List.replicate 10001 'a'))).result =
      .ok { summary := List.replicate 10001 'a', processingTime := 850,
            provider := "groq".toList } := by
    rfl
  have hl : jsLength (List.replicate 10001 'a') = 10001 :=
    jsLength_replicate_bmp 'a' (by decide) 10001
  have hsave : saveNew (groqEnv (List.replicate 10001 'a')) []
      (newDocument (groqEnv (List.replicate 10001 'a')) []
        (plainRequest tenWords "Summarize".toList)
        { summary := List.replicate 10001 'a', processingTime := 850,
          provider := "groq".toList }) =
      .error "Summary validation failed: generatedSummary".toList := by
    have h1 : invalidPaths
        (newDocument (groqEnv (List.replicate 10001 'a')) []
          (plainRequest tenWords "Summarize".toList)
          { summary := List.replicate 10001 'a', processingTime := 850,
            provider := "groq".toList }) allPaths = [.generatedSummary] := by
      have hg : pathValid (newDocument (groqEnv (List.replicate 10001 'a')) []
          (plainRequest tenWords "Summarize".toList)
          { summary := List.replicate 10001 'a', processingTime := 850,
            provider := "groq".toList }) .generatedSummary = false := by
        show (!(List.replicate 10001 'a').isEmpty &&
          decide (jsLength (List.replicate 10001 'a') ≤ 10000)) = false
        rw [hl]
        rfl
      unfold invalidPaths allPaths
      rw [List.filter_cons_of_neg (by decide), List.filter_cons_of_neg (by decide),
        List.filter_cons_of_neg (by decide), List.filter_cons_of_pos (by rw [hg]; rfl),
        List.filter_cons_of_neg (by decide), List.filter_cons_of_neg (by decide),
        List.filter_cons_of_neg (by decide)]
      rfl
    unfold saveNew
    rw [h1]
    rfl
  rw [generateSummary_of_save_error _ _ _ _ _ hv hai hsave]
  exact ⟨hv, rfl, rfl, by decide⟩

/-- C6 (amended): for every create request that passes the controller
validation, for which the AI client returns a result, and whose new document
satisfies the schema (prompt of at most 1,000 characters, style in the
enumeration, generated summary non-empty and of at most 10,000 characters),
exactly one document is appended to the store and the existing ones are
untouched; the new document has a fresh id, the user id of the request (a
generated one when the request has none), its transcript and prompt, the
style and language with their defaults, the generated summary, no edited
summary, no email logs, the processing time and provider of the AI result
and the word count of the pre-save middleware; and the 200 response carries
its id with summary, processing time, provider and user id. -/
theorem C6_create_success (env : Env) (store : Store) (req : CreateRequest)
    (aiResult : AiResult) (hv : passesValidation req = true)
    (hai : ((aiCallOf req).run env).result = .ok aiResult)
    (hp : jsLength (req.prompt.getD []) ≤ 1000) (hst : styleOf req ∈ summaryStyles)
    (hs1 : aiResult.summary ≠ []) (hs2 : jsLength aiResult.summary ≤ 10000) :
    ∃ doc : Summary,
      (generateSummary env store req).store = store ++ [doc] ∧
      store.lookup doc.id = none ∧
      doc.userId = userIdOf env req ∧
      (truthy req.userId = true → some doc.userId = req.userId) ∧
      some doc.transcript = req.transcript ∧
      some doc.prompt = req.prompt ∧
      doc.summaryStyle = req.style.getD "custom".toList ∧
      doc.language = req.language.getD "en".toList ∧
      doc.generatedSummary = aiResult.summary ∧
      doc.editedSummary = none ∧
      doc.emailLogs = [] ∧
      doc.metadata.processingTime = some aiResult.processingTime ∧
      doc.metadata.aiProvider = aiResult.provider ∧
      doc.metadata.wordCount = some (splitCount doc.transcript) ∧
      (generateSummary env store req).response =
        { status := 200,
          body := .created
            { id := doc.id, summary := aiResult.summary,
              processingTime := aiResult.processingTime, provider := aiResult.provider,
              userId := doc.userId, createdAt := doc.createdAt } } := by
  have hvalid := newDocument_valid env store req aiResult hv hai hp hst hs1 hs2
  have key := generateSummary_valid env store req hv
  unfold passesValidation at hv
  simp only [Bool.and_eq_true] at hv
  obtain ⟨⟨h1, h2⟩, _⟩ := hv
  have ht : (newDocument env store req aiResult).transcript ≠ [] := by
    show req.transcript.getD [] ≠ []
    intro h
    rw [truthy_some_getD _ h1, Option.getD_some] at h
    rw [truthy_some_getD _ h1, h] at h1
    simp [truthy] at h1
  simp only [hai, saveNew, hvalid, preSave_of_ne_nil _ ht] at key
  rw [key]
  refine ⟨_, rfl, Store.lookup_freshId store, rfl, ?_, ?_, ?_, rfl, rfl, rfl, rfl, rfl, rfl, rfl,
    rfl, rfl⟩
  · intro hu
    show some (userIdOf env req) = req.userId
    rw [userIdOf, if_pos hu]
    exact (truthy_some_getD _ hu).symm
  · exact (truthy_some_getD _ h1).symm
  · exact (truthy_some_getD _ h2).symm

/-- Witness of C6 (amended): a plain request answered by Groq. -/
theorem C6_create_success_witness :
    ∃ doc : Summary,
      (generateSummary (groqEnv "Summary.".toList) []
        (plainRequest tenWords "Summarize".toList)).store = [doc] ∧
      doc.generatedSummary = "Summary.".toList ∧
      doc.summaryStyle = "custom".toList ∧
      doc.language = "en".toList := by
  obtain ⟨doc, h⟩ := C6_create_success (groqEnv "Summary.".toList) []
    (plainRequest tenWords "Summarize".toList)
    { summary := "Summary.".toList, processingTime := 850, provider := "groq".toList }
    (by decide) (by decide) (by decide) (by decide) (by decide) (by decide)
  exact ⟨doc, h.1, h.2.2.2.2.2.2.2.2.1, h.2.2.2.2.2.2.1, h.2.2.2.2.2.2.2.1⟩

/-! ## C7: no provider configured -/

theorem AIService.callProvider_no_keys (env : Env) (t p sel : JsString)
    (hg : truthy env.groqApiKey = false) (ho : truthy env.openaiApiKey = false) :
    (AIService.callProvider env t p sel).requests = [] ∧
    ∃ m, (AIService.callProvider env t p sel).result = .error m ∧
      (sel = "groq".toList ∨ sel = "openai".toList →
        includes m "API Error".toList = false) := by
  unfold AIService.callProvider
  by_cases h1 : sel = "groq".toList
  · rw [if_pos h1, if_pos (by rw [hg]; rfl)]
    exact ⟨rfl, _, rfl, fun _ => by decide⟩
  · rw [if_neg h1]
    by_cases h2 : sel = "openai".toList
    · rw [if_pos h2, if_pos (by rw [ho]; rfl)]
      exact ⟨rfl, _, rfl, fun _ => by decide⟩
    · rw [if_neg h2]
      exact ⟨rfl, _, rfl, fun h => (h.elim (fun a => h1 a) (fun a => h2 a)).elim⟩

theorem AIService.generateSummary_no_keys (env : Env) (t p : JsString)
    (prov : Option JsString)
    (hg : truthy env.groqApiKey = false) (ho : truthy env.openaiApiKey = false) :
    (AIService.generateSummary env t p prov).requests = [] ∧
    ∃ m, (AIService.generateSummary env t p prov).result = .error m ∧
      (truthy prov = false ∨ prov = some "groq".toList ∨ prov = some "openai".toList →
        includes m "API Error".toList = false) := by
  unfold AIService.generateSummary
  split
  · exact ⟨rfl, _, rfl, fun _ => by decide⟩
  · split
    · exact ⟨rfl, _, rfl, fun _ => by decide⟩
    · by_cases hp : truthy prov = true
      · have hsel : AIService.selectProvider env prov = .ok (prov.getD []) := by
          unfold AIService.selectProvider
          rw [if_pos hp]
        rw [hsel]
        obtain ⟨h1, m, h2, h3⟩ := AIService.callProvider_no_keys env t p (prov.getD []) hg ho
        refine ⟨h1, m, h2, fun h => h3 ?_⟩
        rcases h with h | h | h
        · rw [hp] at h
          exact absurd h (by decide)
        · left
          rw [h]
          rfl
        · right
          rw [h]
          rfl
      · have hsel : AIService.selectProvider env prov =
            .error "No AI API key configured".toList := by
          unfold AIService.selectProvider AIService.getPreferredProvider
          rw [if_neg hp, if_neg (by rw [hg]; decide), if_neg (by rw [ho]; decide)]
        rw [hsel]
        exact ⟨rfl, _, rfl, fun _ => by decide⟩

theorem AiCall.run_no_keys (env : Env) (req : CreateRequest)
    (hg : truthy env.groqApiKey = false) (ho : truthy env.openaiApiKey = false) :
    ((aiCallOf req).run env).requests = [] ∧
    ∃ m, ((aiCallOf req).run env).result = .error m ∧
      (styleOf req ≠ "custom".toList ∨ truthy req.provider = false ∨
          req.provider = some "groq".toList ∨ req.provider = some "openai".toList →
        includes m "API Error".toList = false) := by
  unfold aiCallOf
  by_cases hs : styleOf req ≠ "custom".toList
  · rw [if_pos hs]
    show (AIService.generateSummaryWithStyle env _ _ _).requests = [] ∧
      ∃ m, (AIService.generateSummaryWithStyle env _ _ _).result = .error m ∧ _
    unfold AIService.generateSummaryWithStyle
    split
    · split
      · exact ⟨rfl, _, rfl, fun _ => by decide⟩
      · exact ⟨rfl, _, rfl, fun _ => by decide⟩
    · obtain ⟨h1, m, h2, h3⟩ := AIService.generateSummary_no_keys env
        (req.transcript.getD []) (AIService.stylePrompt (styleOf req) (req.prompt.getD []))
        none hg ho
      exact ⟨h1, m, h2, fun _ => h3 (Or.inl rfl)⟩
  · rw [if_neg hs]
    show (AIService.generateSummary env _ _ _).requests = [] ∧
      ∃ m, (AIService.generateSummary env _ _ _).result = .error m ∧ _
    obtain ⟨h1, m, h2, h3⟩ := AIService.generateSummary_no_keys env
      (req.transcript.getD []) (req.prompt.getD []) req.provider hg ho
    refine ⟨h1, m, h2, fun h => h3 ?_⟩
    rcases h with h | h
    · exact absurd h hs
    · exact h

/-- C7 (as stated, refuted): without any API key a valid create request is
answered 500, not 503.  `getPreferredProvider` throws `No AI API key
configured`, a message without `API Error`, so the `catch` block takes the
generic branch. -/
theorem C7_counterexample_no_key_is_500 :
    truthy offlineEnv.groqApiKey = false ∧ truthy offlineEnv.openaiApiKey = false ∧
    passesValidation (plainRequest tenWords "Summarize".toList) = true ∧
    ((aiCallOf (plainRequest tenWords "Summarize".toList)).run offlineEnv).result =
      .error "No AI API key configured".toList ∧
    (generateSummary offlineEnv [] (plainRequest tenWords "Summarize".toList)).response =
      { status := 500,
        body := .error "Internal Server Error".toList "Failed to generate summary".toList } := by
  decide

/-- C7 (amended): for every create request that passes the controller
validation, when neither the Groq nor the OpenAI key is set, the handler
sends no provider request, leaves the store unchanged and answers with a
server error: the generic 500 whenever the request uses a preset style,
names no provider, or names `groq` or `openai`; the status is 500 or 503 in
every case. -/
theorem C7_no_provider_configured (env : Env) (store : Store) (req : CreateRequest)
    (hg : truthy env.groqApiKey = false) (ho : truthy env.openaiApiKey = false)
    (hv : passesValidation req = true) :
    (generateSummary env store req).store = store ∧
    (generateSummary env store req).providerRequests = [] ∧
    ((generateSummary env store req).response.status = 500 ∨
      (generateSummary env store req).response.status = 503) ∧
    (styleOf req ≠ "custom".toList ∨ truthy req.provider = false ∨
        req.provider = some "groq".toList ∨ req.provider = some "openai".toList →
      (generateSummary env store req).response =
        { status := 500,
          body := .error "Internal Server Error".toList
                    "Failed to generate summary".toList }) := by
  obtain ⟨h1, m, h2, h3⟩ := AiCall.run_no_keys env req hg ho
  have key : generateSummary env store req =
      { response := generateSummaryCatch m
        store := store, aiCalls := [aiCallOf req],
        providerRequests := ((aiCallOf req).run env).requests } := by
    rw [generateSummary_valid env store req hv]
    simp only [h2]
  rw [key]
  refine ⟨rfl, h1, generateSummaryCatch_status m, fun h => ?_⟩
  exact generateSummaryCatch_status_of_not_includes m (h3 h)

/-- Witness of C7 (amended): the plain request without any API key. -/
theorem C7_no_provider_configured_witness :
    (generateSummary offlineEnv [] (plainRequest tenWords "Summarize".toList)).store = [] ∧
    (generateSummary offlineEnv []
      (plainRequest tenWords "Summarize".toList)).providerRequests = [] := by
  have h := C7_no_provider_configured offlineEnv [] (plainRequest tenWords "Summarize".toList)
    (by decide) (by decide) (by decide)
  exact ⟨h.1, h.2.1⟩

/-! ## C8: a prompt that is blank after trimming -/

/-- A valid request of style `custom` whose prompt is blank after trimming is
answered with the generic 500: the AI service throws `Prompt is required`
before any provider request, and the `catch` block of the controller maps
that error to 500. -/
theorem generateSummary_blank_prompt (env : Env) (store : Store) (req : CreateRequest)
    (hv : passesValidation req = true) (hs : styleOf req = "custom".toList)
    (hb : trim (req.prompt.getD []) = []) :
    (generateSummary env store req).response =
      { status := 500,
        body := .error "Internal Server Error".toList "Failed to generate summary".toList } ∧
    (generateSummary env store req).providerRequests = [] ∧
    (generateSummary env store req).store = store := by
  have hcall : aiCallOf req =
      .generateSummary (req.transcript.getD []) (req.prompt.getD []) req.provider := by
    unfold aiCallOf
    rw [if_neg (by rw [hs]; simp)]
  have hrun : ((aiCallOf req).run env).requests = [] ∧
      ∃ m, ((aiCallOf req).run env).result = .error m ∧
        includes m "API Error".toList = false := by
    rw [hcall]
    show (AIService.generateSummary env _ _ _).requests = [] ∧
      ∃ m, (AIService.generateSummary env _ _ _).result = .error m ∧ _
    unfold AIService.generateSummary
    split
    · exact ⟨rfl, _, rfl, by decide⟩
    · rw [if_pos (by rw [hb]; simp [jsLength])]
      exact ⟨rfl, _, rfl, by decide⟩
  obtain ⟨h1, m, h2, h3⟩ := hrun
  have key : generateSummary env store req =
      { response := generateSummaryCatch m
        store := store, aiCalls := [aiCallOf req],
        providerRequests := ((aiCallOf req).run env).requests } := by
    rw [generateSummary_valid env store req hv]
    simp only [h2]
  rw [key]
  exact ⟨generateSummaryCatch_status_of_not_includes m h3, h1, rfl⟩

/-- C8 (code defect): for the ten-word transcript, style `custom` and the
prompt of three spaces, with a Groq key configured, the create handler
answers 500 `Internal Server Error`, not 400; no provider request is sent
and nothing is stored. -/
theorem C8_blank_prompt_is_answered_500 :
    trim "   ".toList = [] ∧
    passesValidation (plainRequest tenWords "   ".toList) = true ∧
    ((aiCallOf (plainRequest tenWords "   ".toList)).run (groqEnv "Summary.".toList)).result =
      .error "Prompt is required".toList ∧
    (generateSummary (groqEnv "Summary.".toList) []
        (plainRequest tenWords "   ".toList)).response =
      { status := 500,
        body := .error "Internal Server Error".toList "Failed to generate summary".toList } ∧
    (generateSummary (groqEnv "Summary.".toList) []
        (plainRequest tenWords "   ".toList)).providerRequests = [] ∧
    (generateSummary (groqEnv "Summary.".toList) []
        (plainRequest tenWords "   ".toList)).store = [] := by
  decide

/-! ## C9: over-long prompts -/

theorem saveNew_error_of_invalid (env : Env) (store : Store) (doc : Summary) (p : SchemaPath)
    (hp : p ∈ allPaths) (h : pathValid doc p = false) :
    ∃ m, saveNew env store doc = .error m := by
  unfold saveNew
  cases hf : invalidPaths doc allPaths with
  | cons q qs => exact ⟨_, rfl⟩
  | nil =>
    rw [invalidPaths_eq_nil_iff] at hf
    rw [hf p hp] at h
    exact absurd h (by decide)

set_option maxRecDepth 100000 in
/-- C9 (as stated, refuted): with a Groq key configured, the ten-word
transcript and a prompt of 1,001 characters, the AI client is called and a
provider request is sent; only `save()` rejects the document, and the
response is 500, not a 400 validation error. -/
theorem C9_counterexample_long_prompt_reaches_provider :
    jsLength (List.replicate 1001 'x') = 1001 ∧
    (generateSummary (groqEnv "Summary.".toList) []
      (plainRequest tenWords (List.replicate 1001 'x'))).aiCalls =
        [.generateSummary tenWords (List.replicate 1001 'x') none] ∧
    (generateSummary (groqEnv "Summary.".toList) []
      (plainRequest tenWords (List.replicate 1001 'x'))).providerRequests =
        [{ provider := "groq".toList, transcript := tenWords,
           prompt := List.replicate 1001 'x' }] ∧
    (generateSummary (groqEnv "Summary.".toList) []
      (plainRequest tenWords (List.replicate 1001 'x'))).response.status = 500 := by
  decide

/-- C9 (amended): for every create request whose prompt is longer than 1,000
characters nothing is persisted and the request never succeeds: the store is
unchanged and the status is 400 (controller validation), or 500 or 503 (the
`catch` block, reached when the AI client fails or when `save()` rejects the
document for its prompt length after the AI client has been called). -/
theorem C9_long_prompt_never_persisted (env : Env) (store : Store) (req : CreateRequest)
    (p : JsString) (hp : req.prompt = some p) (hl : 1000 < jsLength p) :
    (generateSummary env store req).store = store ∧
    ((generateSummary env store req).response.status = 400 ∨
      (generateSummary env store req).response.status = 500 ∨
      (generateSummary env store req).response.status = 503) := by
  have hst : (generateSummary env store req).response.status = 400 ∨
      (generateSummary env store req).response.status = 500 ∨
      (generateSummary env store req).response.status = 503 := by
    rcases passesValidation_cases req with hm | ⟨h1, h2, e, he⟩ | hv
    · rw [generateSummary_missing env store req hm]
      exact Or.inl rfl
    · rw [generateSummary_invalid env store req h1 h2 e he]
      exact Or.inl rfl
    · right
      cases hr : ((aiCallOf req).run env).result with
      | error m =>
        rw [(generateSummary_of_ai_error env store req m hv hr)]
        exact generateSummaryCatch_status m
      | ok aiResult =>
        have hbad : pathValid (newDocument env store req aiResult) .prompt = false := by
          show (!(req.prompt.getD []).isEmpty &&
            decide (jsLength (req.prompt.getD []) ≤ 1000)) = false
          rw [hp, Option.getD_some]
          have : ¬ jsLength p ≤ 1000 := by omega
          simp [this]
        obtain ⟨m, hm⟩ := saveNew_error_of_invalid env store
          (newDocument env store req aiResult) .prompt (by decide) hbad
        rw [generateSummary_of_save_error env store req aiResult m hv hr hm]
        exact generateSummaryCatch_status m
  refine ⟨generateSummary_store_of_not_200 env store req ?_, hst⟩
  rcases hst with h | h | h <;> rw [h] <;> decide

/-- Witness of C9 (amended): the prompt of 1,001 characters. -/
theorem C9_long_prompt_never_persisted_witness :
    (generateSummary (groqEnv "Summary.".toList) []
      (plainRequest tenWords (List.replicate 1001 'x'))).store = [] :=
  (C9_long_prompt_never_persisted (groqEnv "Summary.".toList) []
    (plainRequest tenWords (List.replicate 1001 'x')) (List.replicate 1001 'x') rfl
    (by rw [jsLength_replicate_bmp 'x' (by decide) 1001]; decide)).1

/-! ## C10: edit, then get -/

/-- What the save of an edited document writes: the document with the new
`editedSummary`, the recomputed word count and the moved `updatedAt`. -/
def editedDocument (env : Env) (old : Summary) (edited : Option JsString) : Summary :=
  touch env old (preSave { old with editedSummary := edited })

theorem editedDocument_fields (env : Env) (old : Summary) (edited : Option JsString) :
    (editedDocument env old edited).id = old.id ∧
    (editedDocument env old edited).editedSummary = edited ∧
    (editedDocument env old edited).generatedSummary = old.generatedSummary ∧
    (editedDocument env old edited).transcript = old.transcript ∧
    (editedDocument env old edited).prompt = old.prompt ∧
    (editedDocument env old edited).userId = old.userId ∧
    (editedDocument env old edited).emailLogs = old.emailLogs ∧
    (editedDocument env old edited).summaryStyle = old.summaryStyle ∧
    (editedDocument env old edited).language = old.language ∧
    (editedDocument env old edited).createdAt = old.createdAt := by
  unfold editedDocument touch preSave
  split <;> split <;> simp

/-- A 200 response of the edit handler determines the whole run: the id
casts to a stored object id and the store afterwards is the store with the
edited document written back. -/
theorem updateSummary_200 (env : Env) (store : Store) (id : JsString)
    (edited : Option JsString)
    (h : (updateSummary env store id edited).response.status = 200) :
    ∃ oid old,
      truthy edited = true ∧
      env.castObjectId id = some oid ∧ store.lookup oid = some old ∧
      updateSummary env store id edited =
        { response :=
            { status := 200,
              body := .updated (editedDocument env old edited).id
                        (editedDocument env old edited).editedSummary
                        (editedDocument env old edited).updatedAt }
          store := store.update (editedDocument env old edited)
          aiCalls := [], providerRequests := [] } := by
  have ht : truthy edited = true := by
    cases hn : truthy edited with
    | true => rfl
    | false =>
      unfold updateSummary at h
      simp only [hn, Bool.not_false, if_true] at h
      exact absurd h (by decide)
  cases hc : env.castObjectId id with
  | none =>
    unfold updateSummary findById at h
    simp only [ht, hc, Bool.not_true, Bool.false_eq_true, if_false] at h
    exact absurd h (by decide)
  | some oid =>
    cases hl : store.lookup oid with
    | none =>
      unfold updateSummary findById at h
      simp only [ht, hc, hl, Bool.not_true, Bool.false_eq_true, if_false] at h
      exact absurd h (by decide)
    | some old =>
      cases hf : invalidPaths { old with editedSummary := edited }
          (if edited = old.editedSummary then [] else [.editedSummary]) with
      | cons q qs =>
        unfold updateSummary findById saveExisting at h
        simp only [ht, hc, hl, hf, Bool.not_true, Bool.false_eq_true, if_false] at h
        exact absurd h (by decide)
      | nil =>
        refine ⟨oid, old, ht, rfl, hl, ?_⟩
        unfold updateSummary findById saveExisting
        simp only [ht, hc, hl, hf, Bool.not_true, Bool.false_eq_true, if_false]
        rfl

/-- C10: after a successful edit `edit(id, X)` of the summarize controller,
`get(id)` answers 200 with a document whose `editedSummary` is `X` and whose
`generatedSummary`, `transcript`, `prompt`, `userId` and `emailLogs` are
those of the document stored before the edit; every other document of the
store is unchanged and the store keeps its size. -/
theorem C10_edit_then_get (env : Env) (store : Store) (id x : JsString)
    (h : (updateSummary env store id (some x)).response.status = 200) :
    ∃ oid old new,
      env.castObjectId id = some oid ∧
      store.lookup oid = some old ∧
      (getSummary env (updateSummary env store id (some x)).store id).response =
        { status := 200, body := .document new } ∧
      new.editedSummary = some x ∧
      new.generatedSummary = old.generatedSummary ∧
      new.transcript = old.transcript ∧
      new.prompt = old.prompt ∧
      new.userId = old.userId ∧
      new.emailLogs = old.emailLogs ∧
      (∀ other, other ≠ oid →
        (updateSummary env store id (some x)).store.lookup other = store.lookup other) ∧
      (updateSummary env store id (some x)).store.length = store.length := by
  obtain ⟨oid, old, _, hc, hl, key⟩ := updateSummary_200 env store id (some x) h
  have hf := editedDocument_fields env old (some x)
  have hid : (editedDocument env old (some x)).id = oid := by
    rw [hf.1]
    exact Store.lookup_id store oid old hl
  refine ⟨oid, old, editedDocument env old (some x), hc, hl, ?_, hf.2.1, hf.2.2.1, hf.2.2.2.1,
    hf.2.2.2.2.1, hf.2.2.2.2.2.1, hf.2.2.2.2.2.2.1, ?_, ?_⟩
  · rw [key]
    unfold getSummary findById
    simp only [hc]
    have hl' : (store.update (editedDocument env old (some x))).lookup oid =
        some (editedDocument env old (some x)) := by
      have := Store.lookup_update_self store (editedDocument env old (some x)) old
        (by rw [hid]; exact hl)
      rw [hid] at this
      exact this
    simp only [hl']
  · intro other ho
    rw [key]
    exact Store.lookup_update_other store _ other (by rw [hid]; exact ho)
  · rw [key]
    exact Store.length_update store _

/-- A stored summary for the witnesses. -/
def storedSummary : Summary :=
  { id := 7
    userId := "user-1".toList
    transcript := tenWords
    prompt := "Summarize".toList
    generatedSummary := "Generated.".toList
    editedSummary := none
    summaryStyle := "custom".toList
    language := "en".toList
    emailLogs := []
    metadata := { wordCount := some 10, processingTime := some 850, aiProvider := "groq".toList }
    createdAt := 1600000000000
    updatedAt := 1600000000000 }

/-- Witness of C10: editing the stored summary 7. -/
theorem C10_edit_then_get_witness :
    ∃ oid old new,
      offlineEnv.castObjectId "7".toList = some oid ∧
      Store.lookup [storedSummary] oid = some old ∧
      (getSummary offlineEnv
        (updateSummary offlineEnv [storedSummary] "7".toList (some "Edited.".toList)).store
        "7".toList).response = { status := 200, body := .document new } ∧
      new.editedSummary = some "Edited.".toList ∧
      new.generatedSummary = old.generatedSummary := by
  obtain ⟨oid, old, new, h1, h2, h3, h4, h5, _⟩ :=
    C10_edit_then_get offlineEnv [storedSummary] "7".toList "Edited.".toList (by decide)
  exact ⟨oid, old, new, h1, h2, h3, h4, h5⟩

/-! ## Deleting and reading summaries (both controllers) -/

/-- `findByIdAndDelete` on the collection: the document with the given object
id is removed. -/
def Store.delete : Store → Nat → Store
  | [], _ => []
  | r :: rest, oid => if r.id = oid then rest else r :: Store.delete rest oid

/-- Object ids are unique in a collection. -/
def Store.WellFormed (store : Store) : Prop :=
  (store.map (fun r => r.id)).Nodup

instance Store.decidableWellFormed (store : Store) : Decidable store.WellFormed :=
  show Decidable ((store.map (fun r => r.id)).Nodup) from inferInstance

/-- `deleteSummary` of the summarize controller (`DELETE /:id`). -/
def SummarizeController.deleteSummary (env : Env) (store : Store) (id : JsString) : Outcome :=
  match SummarizeController.findById env store id with
  | .error _ =>
    { response := SummarizeController.internalError "Failed to delete summary".toList
      store := store, aiCalls := [], providerRequests := [] }
  | .ok none =>
    { response := SummarizeController.notFound
      store := store, aiCalls := [], providerRequests := [] }
  | .ok (some summary) =>
    { response := { status := 200, body := .deleted "Summary deleted successfully".toList }
      store := store.delete summary.id, aiCalls := [], providerRequests := [] }

namespace HistoryController

/-- `getSummaryById` of the history controller (`GET /summary/:id`). -/
def getSummaryById (env : Env) (store : Store) (id : JsString) : Outcome :=
  match SummarizeController.findById env store id with
  | .error _ =>
    { response :=
        { status := 500,
          body := .error "Internal Server Error".toList "Failed to retrieve summary".toList }
      store := store, aiCalls := [], providerRequests := [] }
  | .ok none =>
    { response :=
        { status := 404,
          body := .error "Summary not found".toList
                    "Summary with the provided ID does not exist".toList }
      store := store, aiCalls := [], providerRequests := [] }
  | .ok (some summary) =>
    { response := { status := 200, body := .document summary }
      store := store, aiCalls := [], providerRequests := [] }

/-- `deleteSummary` of the history controller (`DELETE /summary/:id`). -/
def deleteSummary (env : Env) (store : Store) (id : JsString) : Outcome :=
  match SummarizeController.findById env store id with
  | .error _ =>
    { response :=
        { status := 500,
          body := .error "Internal Server Error".toList "Failed to delete summary".toList }
      store := store, aiCalls := [], providerRequests := [] }
  | .ok none =>
    { response :=
        { status := 404,
          body := .error "Summary not found".toList
                    "Summary with the provided ID does not exist".toList }
      store := store, aiCalls := [], providerRequests := [] }
  | .ok (some summary) =>
    { response := { status := 200, body := .deleted "Summary deleted successfully".toList }
      store := store.delete summary.id, aiCalls := [], providerRequests := [] }

end HistoryController

/-! ## C11: rejected edits -/

/-- C11 (as stated, refuted): an edit whose id is not the id of any stored
document is not always answered 404.  The id `not-an-id` cannot be cast to an
object id, `findById` throws, and the `catch` block answers 500. -/
theorem C11_counterexample_malformed_id :
    offlineEnv.castObjectId "not-an-id".toList = none ∧
    (updateSummary offlineEnv [storedSummary] "not-an-id".toList
      (some "Edited.".toList)).response =
      { status := 500,
        body := .error "Internal Server Error".toList "Failed to update summary".toList } ∧
    (updateSummary offlineEnv [storedSummary] "not-an-id".toList
      (some "Edited.".toList)).response.status ≠ 404 := by
  decide

/-- C11 (amended): for every edit request of the summarize controller, a
missing or empty `editedSummary` is answered 400; otherwise an id that casts
to an object id absent from the store is answered 404, and an id that cannot
be cast is answered 500; in all three cases the store is unchanged. -/
theorem C11_rejected_edit_mutates_nothing (env : Env) (store : Store) (id : JsString)
    (edited : Option JsString) :
    (truthy edited = false →
      updateSummary env store id edited =
        { response :=
            { status := 400,
              body := .error "Missing edited summary".toList
                        "Edited summary is required".toList }
          store := store, aiCalls := [], providerRequests := [] }) ∧
    (truthy edited = true → ∀ oid, env.castObjectId id = some oid → store.lookup oid = none →
      updateSummary env store id edited =
        { response := notFound, store := store, aiCalls := [], providerRequests := [] } ∧
      notFound.status = 404) ∧
    (truthy edited = true → env.castObjectId id = none →
      updateSummary env store id edited =
        { response := internalError "Failed to update summary".toList
          store := store, aiCalls := [], providerRequests := [] }) := by
  refine ⟨fun h => ?_, fun h oid hc hl => ⟨?_, rfl⟩, fun h hc => ?_⟩
  · unfold updateSummary
    simp only [h, Bool.not_false, if_true]
  · unfold updateSummary findById
    simp only [h, hc, hl, Bool.not_true, Bool.false_eq_true, if_false]
  · unfold updateSummary findById
    simp only [h, hc, Bool.not_true, Bool.false_eq_true, if_false]

/-- Witness of C11 (amended): an empty edit, and an edit of the absent id 8. -/
theorem C11_rejected_edit_mutates_nothing_witness :
    (updateSummary offlineEnv [storedSummary] "7".toList (some [])).store = [storedSummary] ∧
    (updateSummary offlineEnv [storedSummary] "8".toList
      (some "Edited.".toList)).response.status = 404 ∧
    (updateSummary offlineEnv [storedSummary] "8".toList
      (some "Edited.".toList)).store = [storedSummary] := by
  have h := C11_rejected_edit_mutates_nothing offlineEnv [storedSummary]
  have h1 := (h "7".toList (some [])).1 (by decide)
  have h2 := ((h "8".toList (some "Edited.".toList)).2.1 (by decide) 8 (by decide)
    (by decide)).1
  exact ⟨by rw [h1], by rw [h2]; rfl, by rw [h2]⟩

/-! ## C12: delete, then get -/

theorem Store.delete_of_not_mem (store : Store) (oid : Nat)
    (h : oid ∉ store.map (fun r => r.id)) : store.delete oid = store := by
  induction store with
  | nil => rfl
  | cons a rest ih =>
    simp only [List.map_cons, List.mem_cons, not_or] at h
    unfold Store.delete
    rw [if_neg (fun e => h.1 e.symm), ih h.2]

theorem Store.lookup_eq_none_iff (store : Store) (oid : Nat) :
    store.lookup oid = none ↔ oid ∉ store.map (fun r => r.id) := by
  unfold Store.lookup
  rw [List.find?_eq_none]
  simp only [beq_iff_eq, List.mem_map, not_exists, not_and]

/-- In a collection with unique ids, deleting an id keeps exactly the
documents with another id, in their order. -/
theorem Store.delete_eq_filter (store : Store) (oid : Nat) (hw : store.WellFormed) :
    store.delete oid = store.filter (fun r => decide (r.id ≠ oid)) := by
  induction store with
  | nil => rfl
  | cons a rest ih =>
    unfold Store.WellFormed at hw ih
    simp only [List.map_cons, List.nodup_cons] at hw
    unfold Store.delete
    by_cases ha : a.id = oid
    · rw [if_pos ha, List.filter_cons_of_neg (by simp [ha])]
      have hn : oid ∉ rest.map (fun r => r.id) := by
        rw [← ha]
        exact hw.1
      rw [← ih hw.2, Store.delete_of_not_mem rest oid hn]
    · rw [if_neg ha, List.filter_cons_of_pos (by simp [ha]), ih hw.2]

theorem Store.lookup_delete_self (store : Store) (oid : Nat) (hw : store.WellFormed) :
    (store.delete oid).lookup oid = none := by
  rw [Store.delete_eq_filter store oid hw, Store.lookup_eq_none_iff]
  simp [List.mem_filter]

theorem Store.lookup_delete_other (store : Store) (oid other : Nat) (h : other ≠ oid) :
    (store.delete oid).lookup other = store.lookup other := by
  induction store with
  | nil => rfl
  | cons a rest ih =>
    unfold Store.delete
    by_cases ha : a.id = oid
    · rw [if_pos ha]
      have hb : (a.id == other) = false := by
        simp only [beq_eq_false_iff_ne, ne_eq]
        intro e
        exact h (e.symm.trans ha)
      unfold Store.lookup
      simp only [List.find?_cons, hb]
    · rw [if_neg ha]
      unfold Store.lookup at ih ⊢
      simp only [List.find?_cons]
      rw [ih]

theorem Store.length_delete (store : Store) (oid : Nat) (doc : Summary)
    (h : store.lookup oid = some doc) : (store.delete oid).length + 1 = store.length := by
  induction store with
  | nil => simp [Store.lookup] at h
  | cons a rest ih =>
    unfold Store.delete
    by_cases ha : a.id = oid
    · rw [if_pos ha]
      rfl
    · rw [if_neg ha]
      have hb : (a.id == oid) = false := by simpa using ha
      unfold Store.lookup at h ih
      simp only [List.find?_cons, hb] at h
      simp only [List.length_cons]
      rw [ih h]

theorem Store.wellFormed_delete (store : Store) (oid : Nat) (hw : store.WellFormed) :
    (store.delete oid).WellFormed := by
  rw [Store.delete_eq_filter store oid hw]
  unfold Store.WellFormed at hw ⊢
  exact (List.filter_sublist store).map _ |>.nodup hw

/-- The delete handler of the history controller is the delete handler of the
summarize controller, and likewise for reading a summary by id. -/
theorem HistoryController.handlers_eq (env : Env) (store : Store) (id : JsString) :
    HistoryController.deleteSummary env store id =
      SummarizeController.deleteSummary env store id ∧
    HistoryController.getSummaryById env store id = getSummary env store id :=
  ⟨rfl, rfl⟩

/-- On a store without the id, the delete handler answers 404 and leaves the
store as it is. -/
theorem deleteSummary_absent (env : Env) (store : Store) (id : JsString) (oid : Nat)
    (hc : env.castObjectId id = some oid) (hl : store.lookup oid = none) :
    SummarizeController.deleteSummary env store id =
      { response := notFound, store := store, aiCalls := [], providerRequests := [] } := by
  unfold SummarizeController.deleteSummary findById
  simp only [hc, hl]

/-- C12: in a store with unique ids, `delete(id)` on a stored id answers 200
and removes exactly the document with that id: the others stay, in their
order.  Afterwards `get(id)` answers 404, a further `delete(id)` answers 404
and leaves the store unchanged, and so does any number of further deletes.
The handlers of the history controller behave in the same way. -/
theorem C12_delete_then_get (env : Env) (store : Store) (id : JsString) (oid : Nat)
    (doc : Summary) (hw : store.WellFormed) (hc : env.castObjectId id = some oid)
    (hl : store.lookup oid = some doc) :
    (SummarizeController.deleteSummary env store id).response.status = 200 ∧
    (SummarizeController.deleteSummary env store id).store =
      store.filter (fun r => decide (r.id ≠ oid)) ∧
    (∀ other, other ≠ oid →
      (SummarizeController.deleteSummary env store id).store.lookup other =
        store.lookup other) ∧
    (SummarizeController.deleteSummary env store id).store.length + 1 = store.length ∧
    (getSummary env (SummarizeController.deleteSummary env store id).store id).response =
      notFound ∧
    SummarizeController.deleteSummary env
        (SummarizeController.deleteSummary env store id).store id =
      { response := notFound, store := (SummarizeController.deleteSummary env store id).store,
        aiCalls := [], providerRequests := [] } ∧
    (∀ n : Nat,
      (fun s => (SummarizeController.deleteSummary env s id).store)^[n]
          (SummarizeController.deleteSummary env store id).store =
        (SummarizeController.deleteSummary env store id).store) ∧
    HistoryController.deleteSummary env store id =
      SummarizeController.deleteSummary env store id ∧
    (HistoryController.getSummaryById env
      (HistoryController.deleteSummary env store id).store id).response = notFound ∧
    HistoryController.deleteSummary env (HistoryController.deleteSummary env store id).store id =
      { response := notFound, store := (HistoryController.deleteSummary env store id).store,
        aiCalls := [], providerRequests := [] } := by
  have hid : doc.id = oid := Store.lookup_id store oid doc hl
  have key : SummarizeController.deleteSummary env store id =
      { response := { status := 200, body := .deleted "Summary deleted successfully".toList }
        store := store.delete oid, aiCalls := [], providerRequests := [] } := by
    unfold SummarizeController.deleteSummary findById
    simp only [hc, hl, hid]
  have hnone : (store.delete oid).lookup oid = none := Store.lookup_delete_self store oid hw
  have habs := deleteSummary_absent env (store.delete oid) id oid hc hnone
  have hget : (getSummary env (store.delete oid) id).response = notFound := by
    unfold getSummary findById
    simp only [hc, hnone]
  have hiter : ∀ n : Nat,
      (fun s => (SummarizeController.deleteSummary env s id).store)^[n] (store.delete oid) =
        store.delete oid := by
    intro n
    induction n with
    | zero => rfl
    | succ n ih =>
      rw [Function.iterate_succ_apply]
      simp only [habs]
      exact ih
  have hh : HistoryController.deleteSummary env store id =
      SummarizeController.deleteSummary env store id := rfl
  rw [hh, key]
  refine ⟨rfl, Store.delete_eq_filter store oid hw, ?_, Store.length_delete store oid doc hl,
    hget, habs, hiter, rfl, hget, habs⟩
  intro other ho
  exact Store.lookup_delete_other store oid other ho

/-- Witness of C12: deleting the stored summary 7 from a store of two. -/
theorem C12_delete_then_get_witness :
    (SummarizeController.deleteSummary offlineEnv
      [storedSummary, { storedSummary with id := 9 }] "7".toList).store =
      [{ storedSummary with id := 9 }] ∧
    (getSummary offlineEnv
      (SummarizeController.deleteSummary offlineEnv
        [storedSummary, { storedSummary with id := 9 }] "7".toList).store
      "7".toList).response.status = 404 := by
  have h := C12_delete_then_get offlineEnv [storedSummary, { storedSummary with id := 9 }]
    "7".toList 7 storedSummary (by decide) (by decide) (by decide)
  refine ⟨?_, ?_⟩
  · rw [h.2.1]
    decide
  · rw [h.2.2.2.2.1]
    rfl

/-! ## The email controller (`backend/controllers/emailController.js`) -/

/-- The object returned by `emailService.sendSummaryEmail`. -/
structure EmailResult where
  messageId : JsString
  recipients : List JsString
  deriving DecidableEq, Repr

/-- One per-recipient result of `emailService.sendBulkEmails`. -/
structure BulkResult where
  email : JsString
  success : Bool
  deriving DecidableEq, Repr

/-- What the email controller calls but does not define: the two sending
functions of the email service (`error m` standing for a thrown `Error` with
message `m`) and the message of the error thrown by `findById` for an id that
cannot be cast. -/
structure Collaborators where
  /-- `emailService.sendSummaryEmail(recipients, summaryText, subject)`. -/
  sendSummaryEmail : List JsString → JsString → JsString → Except JsString EmailResult
  /-- `emailService.sendBulkEmails(recipients, summaryText, subject)`. -/
  sendBulkEmails : List JsString → JsString → JsString → Except JsString (List BulkResult)
  /-- Message of the cast error of `findById` for a given id. -/
  castErrorMessage : JsString → JsString

/-- A body field expected to hold an array of strings. -/
inductive ArrayField where
  | missing
  | notArray
  | array (items : List JsString)
  deriving DecidableEq, Repr

/-- The body of a send request (`POST /send` and `POST /send-bulk`). -/
structure EmailRequest where
  summaryId : Option JsString
  recipients : ArrayField
  subject : Option JsString
  summary : Option JsString
  deriving DecidableEq, Repr

/-- A call of the email service made by the controller. -/
inductive EmailCall where
  | sendSummaryEmail (recipients : List JsString) (summaryText subject : JsString)
  | sendBulkEmails (recipients : List JsString) (summaryText subject : JsString)
  deriving DecidableEq, Repr

/-- The JSON bodies sent by the email controller. -/
inductive EmailBody where
  | error (error message : JsString)
  | sent (messageId : JsString) (recipients : List JsString) (subject : JsString)
      (sentAt : Nat)
  | bulk (total successful failed : Nat) (results : List BulkResult) (sentAt : Nat)
  | validation (total valid invalid : Nat) (validEmails invalidEmails : List JsString)
      (validationResults : List (JsString × Bool))
  deriving DecidableEq, Repr

/-- An HTTP response of the email controller. -/
structure EmailResponse where
  status : Nat
  body : EmailBody
  deriving DecidableEq, Repr

/-- The effect of handling one request of the email controller. -/
structure EmailOutcome where
  response : EmailResponse
  store : Store
  emailCalls : List EmailCall
  deriving DecidableEq, Repr

/-- The `enum` of the `status` of an email log entry. -/
def emailStatuses : List JsString :=
  ["sent".toList, "failed".toList]

/-- The method `addEmailLog(recipients, subject, status)` of a summary
document: push an entry dated now, then `save()`.  The only validator on the
pushed entry is the `enum` of its status. -/
def addEmailLog (env : Env) (store : Store) (doc : Summary) (recipients : List JsString)
    (subject status : JsString) : Except JsString (Store × Summary) :=
  if status ∈ emailStatuses then
    saveExisting env store doc
      { doc with
        emailLogs := doc.emailLogs ++
          [{ recipients := recipients, subject := subject, sentAt := env.now,
             status := status }] }
      []
  else
    .error (env.validationMessage
      [("emailLogs.".toList ++ Nat.toDigits 10 doc.emailLogs.length ++ ".status".toList,
        status)])

namespace EmailController

/-- The text `summaryDoc.editedSummary || summaryDoc.generatedSummary`. -/
def effectiveText (doc : Summary) : JsString :=
  if truthy doc.editedSummary then doc.editedSummary.getD [] else doc.generatedSummary

/-- The effective subject (`subject = 'Meeting Summary'` by default). -/
def subjectOf (req : EmailRequest) : JsString :=
  req.subject.getD "Meeting Summary".toList

/-- The 400 response for a missing, non-array or empty `recipients`. -/
def invalidRecipients : EmailResponse :=
  { status := 400,
    body := .error "Invalid recipients".toList
              "At least one recipient email is required".toList }

/-- The 400 response when neither `summary` nor `summaryId` is given. -/
def missingSummary : EmailResponse :=
  { status := 400,
    body := .error "Missing summary".toList
              "Either summary text or summaryId is required".toList }

/-- The 404 response of the email controller. -/
def notFound : EmailResponse :=
  { status := 404,
    body := .error "Summary not found".toList
              "Summary with the provided ID does not exist".toList }

/-- The `catch` block of `sendEmail`. -/
def sendEmailCatch (message : JsString) : EmailResponse :=
  if includes message "Email configuration missing".toList then
    { status := 503,
      body := .error "Email Service Unavailable".toList
                "Email service is not configured properly".toList }
  else if includes message "Invalid email addresses".toList then
    { status := 400, body := .error "Invalid Email Addresses".toList message }
  else
    { status := 500,
      body := .error "Internal Server Error".toList "Failed to send email".toList }

/-- The `catch` block of `sendBulkEmails`. -/
def sendBulkCatch : EmailResponse :=
  { status := 500,
    body := .error "Internal Server Error".toList "Failed to send bulk emails".toList }

/-- The second half of `sendEmail`: the call of the email service, then the
log entry on the resolved document, then the 200 response. -/
def sendEmailDispatch (env : Env) (svc : Collaborators) (store : Store)
    (recipients : List JsString) (subject : JsString) (summaryDoc : Option Summary)
    (summaryText : JsString) : EmailOutcome :=
  match svc.sendSummaryEmail recipients summaryText subject with
  | .error m =>
    { response := sendEmailCatch m, store := store,
      emailCalls := [.sendSummaryEmail recipients summaryText subject] }
  | .ok emailResult =>
    match summaryDoc with
    | none =>
      { response :=
          { status := 200,
            body := .sent emailResult.messageId emailResult.recipients subject env.now }
        store := store
        emailCalls := [.sendSummaryEmail recipients summaryText subject] }
    | some doc =>
      match addEmailLog env store doc recipients subject "sent".toList with
      | .error m =>
        { response := sendEmailCatch m, store := store,
          emailCalls := [.sendSummaryEmail recipients summaryText subject] }
      | .ok (store', _) =>
        { response :=
            { status := 200,
              body := .sent emailResult.messageId emailResult.recipients subject env.now }
          store := store'
          emailCalls := [.sendSummaryEmail recipients summaryText subject] }

/-- `sendEmail` (`POST /send`). -/
def sendEmail (env : Env) (svc : Collaborators) (store : Store) (req : EmailRequest) :
    EmailOutcome :=
  match req.recipients with
  | .array (r :: rs) =>
    if !truthy req.summary && !truthy req.summaryId then
      { response := missingSummary, store := store, emailCalls := [] }
    else if truthy req.summaryId then
      match env.castObjectId (req.summaryId.getD []) with
      | none =>
        { response := sendEmailCatch (svc.castErrorMessage (req.summaryId.getD []))
          store := store, emailCalls := [] }
      | some oid =>
        match store.lookup oid with
        | none => { response := notFound, store := store, emailCalls := [] }
        | some doc =>
          sendEmailDispatch env svc store (r :: rs) (subjectOf req) (some doc)
            (effectiveText doc)
    else
      sendEmailDispatch env svc store (r :: rs) (subjectOf req) none (req.summary.getD [])
  | _ => { response := invalidRecipients, store := store, emailCalls := [] }

/-- The loop of `sendBulkEmails` over the successful results: one log entry
and one `save()` per result.  An error carries the store reached so far. -/
def addBulkLogs (env : Env) (subject : JsString) :
    Store → Summary → List BulkResult → Except (Store × JsString) Store
  | store, _, [] => .ok store
  | store, doc, result :: rest =>
    match addEmailLog env store doc [result.email] subject "sent".toList with
    | .error m => .error (store, m)
    | .ok (store', doc') => addBulkLogs env subject store' doc' rest

/-- The 200 response of `sendBulkEmails` for the results of the service. -/
def bulkReport (env : Env) (emailResults : List BulkResult) : EmailResponse :=
  { status := 200,
    body := .bulk emailResults.length
              (emailResults.filter (fun result => result.success)).length
              (emailResults.filter (fun result => !result.success)).length
              emailResults env.now }

/-- The second half of `sendBulkEmails`: the call of the email service, the
log entries for the successful results, the statistics. -/
def sendBulkDispatch (env : Env) (svc : Collaborators) (store : Store)
    (recipients : List JsString) (subject : JsString) (summaryDoc : Option Summary)
    (summaryText : JsString) : EmailOutcome :=
  match svc.sendBulkEmails recipients summaryText subject with
  | .error _ =>
    { response := sendBulkCatch, store := store,
      emailCalls := [.sendBulkEmails recipients summaryText subject] }
  | .ok emailResults =>
    match summaryDoc with
    | none =>
      { response := bulkReport env emailResults, store := store,
        emailCalls := [.sendBulkEmails recipients summaryText subject] }
    | some doc =>
      match addBulkLogs env subject store doc
              (emailResults.filter (fun result => result.success)) with
      | .error (store', _) =>
        { response := sendBulkCatch, store := store',
          emailCalls := [.sendBulkEmails recipients summaryText subject] }
      | .ok store' =>
        { response := bulkReport env emailResults, store := store',
          emailCalls := [.sendBulkEmails recipients summaryText subject] }

/-- `sendBulkEmails` (`POST /send-bulk`). -/
def sendBulkEmails (env : Env) (svc : Collaborators) (store : Store) (req : EmailRequest) :
    EmailOutcome :=
  match req.recipients with
  | .array (r :: rs) =>
    if !truthy req.summary && !truthy req.summaryId then
      { response := missingSummary, store := store, emailCalls := [] }
    else if truthy req.summaryId then
      match env.castObjectId (req.summaryId.getD []) with
      | none => { response := sendBulkCatch, store := store, emailCalls := [] }
      | some oid =>
        match store.lookup oid with
        | none => { response := notFound, store := store, emailCalls := [] }
        | some doc =>
          sendBulkDispatch env svc store (r :: rs) (subjectOf req) (some doc)
            (effectiveText doc)
    else
      sendBulkDispatch env svc store (r :: rs) (subjectOf req) none (req.summary.getD [])
  | _ => { response := invalidRecipients, store := store, emailCalls := [] }

/-- A piece of an anchored regular expression: a character class repeated
one or more times, or a literal character. -/
inductive RegexPiece where
  | plus (cls : Char → Bool)
  | lit (c : Char)

/-- Whether the whole string matches the pieces in sequence (`^...$`). -/
def matchPieces : List RegexPiece → List Char → Bool
  | [], [] => true
  | [], _ :: _ => false
  | _ :: _, [] => false
  | .lit c :: ps, d :: s => d == c && matchPieces ps s
  | .plus cls :: ps, d :: s => cls d && (matchPieces (.plus cls :: ps) s || matchPieces ps s)

/-- The class `[^\s@]`. -/
def notSpaceNorAt (c : Char) : Bool :=
  !(isJsWhitespace c || c == '@')

/-- The pattern `/^[^\s@]+@[^\s@]+\.[^\s@]+$/`. -/
def emailRegex : List RegexPiece :=
  [.plus notSpaceNorAt, .lit '@', .plus notSpaceNorAt, .lit '.', .plus notSpaceNorAt]

/-- `validateEmails` (`POST /validate`). -/
def validateEmails (store : Store) (emails : ArrayField) : EmailOutcome :=
  match emails with
  | .array items =>
    let validationResults := items.map (fun email => (email, matchPieces emailRegex email))
    let validEmails := (validationResults.filter (fun result => result.2)).map (fun result => result.1)
    let invalidEmails :=
      (validationResults.filter (fun result => !result.2)).map (fun result => result.1)
    { response :=
        { status := 200,
          body := .validation items.length validEmails.length invalidEmails.length validEmails
                    invalidEmails validationResults }
      store := store, emailCalls := [] }
  | _ =>
    { response :=
        { status := 400,
          body := .error "Invalid input".toList "Emails array is required".toList }
      store := store, emailCalls := [] }

end EmailController

/-! ## Sample email services -/

/-- An email service that delivers everything, except that bulk sending
fails for the address `down@test.com`. -/
def workingMailer : Collaborators :=
  { sendSummaryEmail := fun recipients _ _ =>
      .ok { messageId := "<1@mail.test>".toList, recipients := recipients }
    sendBulkEmails := fun recipients _ _ =>
      .ok (recipients.map (fun email =>
        { email := email, success := decide (email ≠ "down@test.com".toList) }))
    castErrorMessage := fun id => "Cast to ObjectId failed for value ".toList ++ id }

/-- An email service whose transport is down. -/
def failingMailer : Collaborators :=
  { workingMailer with
    sendSummaryEmail := fun _ _ _ => .error "Failed to send email: ECONNREFUSED".toList
    sendBulkEmails := fun _ _ _ => .error "Failed to send bulk emails".toList }

/-- A send request for the stored summary with the given id. -/
def sendRequest (summaryId : JsString) (recipients : List JsString) : EmailRequest :=
  { summaryId := some summaryId, recipients := .array recipients, subject := none,
    summary := none }

/-! ## Lemmas about the email log -/

/-- The log entry written by `addEmailLog(recipients, subject, 'sent')`. -/
def sentEntry (env : Env) (recipients : List JsString) (subject : JsString) : EmailLog :=
  { recipients := recipients, subject := subject, sentAt := env.now, status := "sent".toList }

/-- What the save of `addEmailLog` writes: the document with the entry
pushed, the recomputed word count and the moved `updatedAt`. -/
def loggedDocument (env : Env) (doc : Summary) (recipients : List JsString)
    (subject : JsString) : Summary :=
  touch env doc (preSave { doc with emailLogs := doc.emailLogs ++ [sentEntry env recipients subject] })

theorem loggedDocument_fields (env : Env) (doc : Summary) (recipients : List JsString)
    (subject : JsString) :
    (loggedDocument env doc recipients subject).id = doc.id ∧
    (loggedDocument env doc recipients subject).emailLogs =
      doc.emailLogs ++ [sentEntry env recipients subject] ∧
    (loggedDocument env doc recipients subject).editedSummary = doc.editedSummary ∧
    (loggedDocument env doc recipients subject).generatedSummary = doc.generatedSummary ∧
    (loggedDocument env doc recipients subject).transcript = doc.transcript ∧
    (loggedDocument env doc recipients subject).prompt = doc.prompt ∧
    (loggedDocument env doc recipients subject).userId = doc.userId := by
  unfold loggedDocument touch preSave
  split <;> split <;> simp

theorem addEmailLog_sent (env : Env) (store : Store) (doc : Summary)
    (recipients : List JsString) (subject : JsString) :
    addEmailLog env store doc recipients subject "sent".toList =
      .ok (store.update (loggedDocument env doc recipients subject),
           loggedDocument env doc recipients subject) := by
  unfold addEmailLog
  rw [if_pos (by decide)]
  rfl

/-! ## C13: the text handed to the email client -/

/-- The text `editedSummary ?? generatedSummary` of the specification: the
edited summary whenever one is present on the record. -/
def nullishText (doc : Summary) : JsString :=
  match doc.editedSummary with
  | some edited => edited
  | none => doc.generatedSummary

/-- The stored summary after an update that set `editedSummary` to the empty
string. -/
def clearedSummary : Summary :=
  { storedSummary with editedSummary := some [] }

/-- C13 (as stated, refuted): on a record whose `editedSummary` is present
but empty, the text handed to the email client by `sendEmail` and by
`sendBulkEmails` is the generated summary, while `editedSummary ??
generatedSummary` is the empty edited summary. -/
theorem C13_counterexample_empty_edited_summary :
    clearedSummary.editedSummary = some [] ∧
    nullishText clearedSummary = [] ∧
    (EmailController.sendEmail offlineEnv workingMailer [clearedSummary]
      (sendRequest "7".toList ["a@test.com".toList])).emailCalls =
      [.sendSummaryEmail ["a@test.com".toList] "Generated.".toList "Meeting Summary".toList] ∧
    (EmailController.sendBulkEmails offlineEnv workingMailer [clearedSummary]
      (sendRequest "7".toList ["a@test.com".toList])).emailCalls =
      [.sendBulkEmails ["a@test.com".toList] "Generated.".toList "Meeting Summary".toList] := by
  decide

/-- C13 (amended): for every `sendEmail` or `sendBulkEmails` request with a
non-empty recipient list that names a stored record, the email client is
called exactly once, with the recipients and subject of the request and with
the text `editedSummary || generatedSummary` of the record: its edited
summary when that is present and non-empty, its generated summary otherwise. -/
theorem C13_email_text_is_edited_or_generated (env : Env) (svc : Collaborators)
    (store : Store) (req : EmailRequest) (r : JsString) (rs : List JsString) (oid : Nat)
    (doc : Summary) (hr : req.recipients = .array (r :: rs))
    (hi : truthy req.summaryId = true)
    (hc : env.castObjectId (req.summaryId.getD []) = some oid)
    (hl : store.lookup oid = some doc) :
    (EmailController.sendEmail env svc store req).emailCalls =
      [.sendSummaryEmail (r :: rs)
        (match doc.editedSummary with
         | some (c :: edited) => c :: edited
         | _ => doc.generatedSummary)
        (req.subject.getD "Meeting Summary".toList)] ∧
    (EmailController.sendBulkEmails env svc store req).emailCalls =
      [.sendBulkEmails (r :: rs)
        (match doc.editedSummary with
         | some (c :: edited) => c :: edited
         | _ => doc.generatedSummary)
        (req.subject.getD "Meeting Summary".toList)] := by
  have ht : EmailController.effectiveText doc =
      (match doc.editedSummary with
       | some (c :: edited) => c :: edited
       | _ => doc.generatedSummary) := by
    unfold EmailController.effectiveText
    cases he : doc.editedSummary with
    | none => rfl
    | some e =>
      cases e with
      | nil => rfl
      | cons c e => rfl
  constructor
  · unfold EmailController.sendEmail
    simp only [hr, hi, hc, hl, Bool.not_true, Bool.and_false, Bool.false_eq_true, if_false,
      if_true]
    rw [← ht]
    unfold EmailController.sendEmailDispatch EmailController.subjectOf
    split
    · rfl
    · split <;> rfl
  · unfold EmailController.sendBulkEmails
    simp only [hr, hi, hc, hl, Bool.not_true, Bool.and_false, Bool.false_eq_true, if_false,
      if_true]
    rw [← ht]
    unfold EmailController.sendBulkDispatch EmailController.subjectOf
    split
    · rfl
    · split
      · rfl
      · split <;> rfl

/-- Witness of C13 (amended): sending the stored summary 7, which has no
edited summary. -/
theorem C13_email_text_is_edited_or_generated_witness :
    (EmailController.sendEmail offlineEnv workingMailer [storedSummary]
      (sendRequest "7".toList ["a@test.com".toList])).emailCalls =
      [.sendSummaryEmail ["a@test.com".toList] "Generated.".toList
        "Meeting Summary".toList] :=
  (C13_email_text_is_edited_or_generated offlineEnv workingMailer [storedSummary]
    (sendRequest "7".toList ["a@test.com".toList]) "a@test.com".toList [] 7 storedSummary
    rfl (by decide) (by decide) (by decide)).1

/-! ## C14: rejected send requests -/

/-- C14 (as stated, refuted): a `sendEmail` request whose `summaryId` is not
the id of any stored record is not always answered 404.  The id `not-an-id`
cannot be cast to an object id, `findById` throws, and the `catch` block
answers 500. -/
theorem C14_counterexample_malformed_summary_id :
    offlineEnv.castObjectId "not-an-id".toList = none ∧
    (EmailController.sendEmail offlineEnv workingMailer [storedSummary]
      (sendRequest "not-an-id".toList ["a@test.com".toList])).response =
      { status := 500,
        body := .error "Internal Server Error".toList "Failed to send email".toList } ∧
    (EmailController.sendEmail offlineEnv workingMailer [storedSummary]
      (sendRequest "not-an-id".toList ["a@test.com".toList])).response.status ≠ 404 := by
  decide

/-- C14 (amended): for every `sendEmail` request, a `recipients` that is
missing, not a list or empty is answered 400; otherwise a request with neither
summary text nor `summaryId` is answered 400; otherwise a `summaryId` that
casts to an object id absent from the store is answered 404, and a
`summaryId` that cannot be cast is answered from the `catch` block with the
message of the cast error; in each of these cases the email client is not
called and the store is unchanged. -/
theorem C14_rejected_send_has_no_effect (env : Env) (svc : Collaborators) (store : Store)
    (req : EmailRequest) :
    ((∀ r rs, req.recipients ≠ .array (r :: rs)) →
      EmailController.sendEmail env svc store req =
        { response := EmailController.invalidRecipients, store := store, emailCalls := [] } ∧
      EmailController.invalidRecipients.status = 400) ∧
    (∀ r rs, req.recipients = .array (r :: rs) →
      (truthy req.summary = false → truthy req.summaryId = false →
        EmailController.sendEmail env svc store req =
          { response := EmailController.missingSummary, store := store, emailCalls := [] } ∧
        EmailController.missingSummary.status = 400) ∧
      (truthy req.summaryId = true →
        ∀ oid, env.castObjectId (req.summaryId.getD []) = some oid →
          store.lookup oid = none →
          EmailController.sendEmail env svc store req =
            { response := EmailController.notFound, store := store, emailCalls := [] } ∧
          EmailController.notFound.status = 404) ∧
      (truthy req.summaryId = true →
        env.castObjectId (req.summaryId.getD []) = none →
        EmailController.sendEmail env svc store req =
          { response :=
              EmailController.sendEmailCatch (svc.castErrorMessage (req.summaryId.getD []))
            store := store, emailCalls := [] })) := by
  constructor
  · intro h
    refine ⟨?_, rfl⟩
    unfold EmailController.sendEmail
    cases hrec : req.recipients with
    | missing => rfl
    | notArray => rfl
    | array items =>
      cases items with
      | nil => rfl
      | cons r rs => exact absurd hrec (h r rs)
  · intro r rs hr
    refine ⟨fun hs hi => ⟨?_, rfl⟩, fun hi oid hc hl => ⟨?_, rfl⟩, fun hi hc => ?_⟩
    · unfold EmailController.sendEmail
      simp only [hr, hs, hi, Bool.not_false, Bool.and_self, if_true]
    · unfold EmailController.sendEmail
      simp only [hr, hi, hc, hl, Bool.not_true, Bool.and_false, Bool.false_eq_true, if_false,
        if_true]
    · unfold EmailController.sendEmail
      simp only [hr, hi, hc, Bool.not_true, Bool.and_false, Bool.false_eq_true, if_false,
        if_true]

/-- Witness of C14 (amended): no recipients; neither text nor id; the absent
id 8. -/
theorem C14_rejected_send_has_no_effect_witness :
    (EmailController.sendEmail offlineEnv workingMailer [storedSummary]
      (sendRequest "7".toList [])).response.status = 400 ∧
    (EmailController.sendEmail offlineEnv workingMailer [storedSummary]
      { summaryId := none, recipients := .array ["a@test.com".toList], subject := none,
        summary := none }).emailCalls = [] ∧
    (EmailController.sendEmail offlineEnv workingMailer [storedSummary]
      (sendRequest "8".toList ["a@test.com".toList])).response.status = 404 := by
  have h1 := ((C14_rejected_send_has_no_effect offlineEnv workingMailer [storedSummary]
    (sendRequest "7".toList [])).1 (fun _ _ h => by cases h)).1
  have h2 := (((C14_rejected_send_has_no_effect offlineEnv workingMailer [storedSummary]
    { summaryId := none, recipients := .array ["a@test.com".toList], subject := none,
      summary := none }).2 "a@test.com".toList [] rfl).1 (by decide) (by decide)).1
  have h3 := (((C14_rejected_send_has_no_effect offlineEnv workingMailer [storedSummary]
    (sendRequest "8".toList ["a@test.com".toList])).2 "a@test.com".toList [] rfl).2.1
    (by decide) 8 (by decide) (by decide)).1
  exact ⟨by rw [h1]; rfl, by rw [h2], by rw [h3]; rfl⟩

/-! ## C15: the log entry of `sendEmail` -/

theorem EmailController.sendEmailCatch_status (m : JsString) :
    (EmailController.sendEmailCatch m).status = 503 ∨
    (EmailController.sendEmailCatch m).status = 400 ∨
    (EmailController.sendEmailCatch m).status = 500 := by
  unfold EmailController.sendEmailCatch
  split
  · exact Or.inl rfl
  · split
    · exact Or.inr (Or.inl rfl)
    · exact Or.inr (Or.inr rfl)

/-- A `sendEmail` request with recipients that names a stored record reaches
the second half of the handler. -/
theorem EmailController.sendEmail_stored (env : Env) (svc : Collaborators) (store : Store)
    (req : EmailRequest) (r : JsString) (rs : List JsString) (oid : Nat) (doc : Summary)
    (hr : req.recipients = .array (r :: rs)) (hi : truthy req.summaryId = true)
    (hc : env.castObjectId (req.summaryId.getD []) = some oid)
    (hl : store.lookup oid = some doc) :
    EmailController.sendEmail env svc store req =
      EmailController.sendEmailDispatch env svc store (r :: rs)
        (req.subject.getD "Meeting Summary".toList) (some doc)
        (EmailController.effectiveText doc) := by
  unfold EmailController.sendEmail
  simp only [hr, hi, hc, hl, Bool.not_true, Bool.and_false, Bool.false_eq_true, if_false,
    if_true]
  rfl

/-- C15: for every `sendEmail` request with recipients that names a stored
record: when the email client succeeds, the response is 200 and the record
stored under that id afterwards has the former `emailLogs` followed by
exactly one entry with the recipient list and subject of the request and
status `sent`, the other records being unchanged; when the email client
throws, the store is exactly as it was and the response is the error response
of the `catch` block (503, 400 or 500). -/
theorem C15_send_email_log (env : Env) (svc : Collaborators) (store : Store)
    (req : EmailRequest) (r : JsString) (rs : List JsString) (oid : Nat) (doc : Summary)
    (hr : req.recipients = .array (r :: rs)) (hi : truthy req.summaryId = true)
    (hc : env.castObjectId (req.summaryId.getD []) = some oid)
    (hl : store.lookup oid = some doc) :
    (∀ result,
      svc.sendSummaryEmail (r :: rs) (EmailController.effectiveText doc)
          (req.subject.getD "Meeting Summary".toList) = .ok result →
      (EmailController.sendEmail env svc store req).response.status = 200 ∧
      (∃ new,
        (EmailController.sendEmail env svc store req).store.lookup oid = some new ∧
        new.emailLogs = doc.emailLogs ++
          [{ recipients := r :: rs, subject := req.subject.getD "Meeting Summary".toList,
             sentAt := env.now, status := "sent".toList }]) ∧
      (∀ other, other ≠ oid →
        (EmailController.sendEmail env svc store req).store.lookup other =
          store.lookup other) ∧
      (EmailController.sendEmail env svc store req).store.length = store.length) ∧
    (∀ m,
      svc.sendSummaryEmail (r :: rs) (EmailController.effectiveText doc)
          (req.subject.getD "Meeting Summary".toList) = .error m →
      (EmailController.sendEmail env svc store req).store = store ∧
      (EmailController.sendEmail env svc store req).response =
        EmailController.sendEmailCatch m ∧
      (EmailController.sendEmail env svc store req).response.status ≠ 200) := by
  rw [EmailController.sendEmail_stored env svc store req r rs oid doc hr hi hc hl]
  have hid : doc.id = oid := Store.lookup_id store oid doc hl
  constructor
  · intro result hres
    have key : EmailController.sendEmailDispatch env svc store (r :: rs)
        (req.subject.getD "Meeting Summary".toList) (some doc)
        (EmailController.effectiveText doc) =
        { response :=
            { status := 200,
              body := .sent result.messageId result.recipients
                        (req.subject.getD "Meeting Summary".toList) env.now }
          store := store.update
            (loggedDocument env doc (r :: rs) (req.subject.getD "Meeting Summary".toList))
          emailCalls := [.sendSummaryEmail (r :: rs) (EmailController.effectiveText doc)
            (req.subject.getD "Meeting Summary".toList)] } := by
      unfold EmailController.sendEmailDispatch
      simp only [hres, addEmailLog_sent]
    rw [key]
    have hf := loggedDocument_fields env doc (r :: rs)
      (req.subject.getD "Meeting Summary".toList)
    have hlid : (loggedDocument env doc (r :: rs)
        (req.subject.getD "Meeting Summary".toList)).id = oid := by rw [hf.1, hid]
    refine ⟨rfl, ⟨_, ?_, hf.2.1⟩, ?_, Store.length_update store _⟩
    · have := Store.lookup_update_self store
        (loggedDocument env doc (r :: rs) (req.subject.getD "Meeting Summary".toList)) doc
        (by rw [hlid]; exact hl)
      rw [hlid] at this
      exact this
    · intro other ho
      exact Store.lookup_update_other store _ other (by rw [hlid]; exact ho)
  · intro m hres
    have key : EmailController.sendEmailDispatch env svc store (r :: rs)
        (req.subject.getD "Meeting Summary".toList) (some doc)
        (EmailController.effectiveText doc) =
        { response := EmailController.sendEmailCatch m, store := store,
          emailCalls := [.sendSummaryEmail (r :: rs) (EmailController.effectiveText doc)
            (req.subject.getD "Meeting Summary".toList)] } := by
      unfold EmailController.sendEmailDispatch
      simp only [hres]
    rw [key]
    refine ⟨rfl, rfl, ?_⟩
    rcases EmailController.sendEmailCatch_status m with h | h | h <;>
      simp only [h] <;> decide

/-- Witness of C15: sending the stored summary 7 with a working and with a
failing email service. -/
theorem C15_send_email_log_witness :
    (EmailController.sendEmail offlineEnv workingMailer [storedSummary]
      (sendRequest "7".toList ["a@test.com".toList])).response.status = 200 ∧
    (EmailController.sendEmail offlineEnv failingMailer [storedSummary]
      (sendRequest "7".toList ["a@test.com".toList])).store = [storedSummary] := by
  have h1 := (C15_send_email_log offlineEnv workingMailer [storedSummary]
    (sendRequest "7".toList ["a@test.com".toList]) "a@test.com".toList [] 7 storedSummary
    rfl (by decide) (by decide) (by decide)).1 _ rfl
  have h2 := (C15_send_email_log offlineEnv failingMailer [storedSummary]
    (sendRequest "7".toList ["a@test.com".toList]) "a@test.com".toList [] 7 storedSummary
    rfl (by decide) (by decide) (by decide)).2 _ rfl
  exact ⟨h1.1, h2.1⟩

/-! ## C16: bulk sending -/

/-- The loop over the successful results appends one `sent` entry per result
to the document, in order, and touches no other document. -/
theorem EmailController.addBulkLogs_ok (env : Env) (subject : JsString)
    (results : List BulkResult) (store : Store) (doc : Summary)
    (hl : store.lookup doc.id = some doc) :
    ∃ store' new,
      EmailController.addBulkLogs env subject store doc results = .ok store' ∧
      store'.lookup doc.id = some new ∧
      new.emailLogs =
        doc.emailLogs ++ results.map (fun result => sentEntry env [result.email] subject) ∧
      (∀ other, other ≠ doc.id → store'.lookup other = store.lookup other) ∧
      store'.length = store.length := by
  induction results generalizing store doc with
  | nil => exact ⟨store, doc, rfl, hl, by simp, fun _ _ => rfl, rfl⟩
  | cons result rest ih =>
    have hf := loggedDocument_fields env doc [result.email] subject
    have hl' : (store.update (loggedDocument env doc [result.email] subject)).lookup
        (loggedDocument env doc [result.email] subject).id =
        some (loggedDocument env doc [result.email] subject) :=
      Store.lookup_update_self store _ doc (by rw [hf.1]; exact hl)
    obtain ⟨store', new, h1, h2, h3, h4, h5⟩ := ih _ _ hl'
    refine ⟨store', new, ?_, ?_, ?_, ?_, ?_⟩
    · unfold EmailController.addBulkLogs
      simp only [addEmailLog_sent]
      exact h1
    · rw [hf.1] at h2
      exact h2
    · rw [h3, hf.2.1]
      simp
    · intro other ho
      rw [h4 other (by rw [hf.1]; exact ho)]
      exact Store.lookup_update_other store _ other (by rw [hf.1]; exact ho)
    · rw [h5]
      exact Store.length_update store _

/-- C16: for every list of per-recipient results returned by the bulk
dispatch, `sendBulkEmails` answers 200 with `total` the number of results,
`successful` the number with `success` true and `failed` the number with
`success` false, so that `successful + failed = total`; when the request
names a stored record, the record stored afterwards has the former
`emailLogs` followed by one entry per successful result, in order, with
recipients the one email of that result and status `sent`: exactly
`successful` new entries and none for a failed result; without an id the
store is unchanged. -/
theorem C16_bulk_report_and_logs (env : Env) (svc : Collaborators) (store : Store)
    (req : EmailRequest) (r : JsString) (rs : List JsString) (results : List BulkResult)
    (hr : req.recipients = .array (r :: rs)) :
    results.countP (fun result => result.success) +
        results.countP (fun result => !result.success) = results.length ∧
    (truthy req.summaryId = false → truthy req.summary = true →
      svc.sendBulkEmails (r :: rs) (req.summary.getD [])
          (req.subject.getD "Meeting Summary".toList) = .ok results →
      (EmailController.sendBulkEmails env svc store req).response =
        { status := 200,
          body := .bulk results.length (results.countP (fun result => result.success))
                    (results.countP (fun result => !result.success)) results env.now } ∧
      (EmailController.sendBulkEmails env svc store req).store = store) ∧
    (truthy req.summaryId = true →
      ∀ oid doc, env.castObjectId (req.summaryId.getD []) = some oid →
        store.lookup oid = some doc →
        svc.sendBulkEmails (r :: rs) (EmailController.effectiveText doc)
            (req.subject.getD "Meeting Summary".toList) = .ok results →
        (EmailController.sendBulkEmails env svc store req).response =
          { status := 200,
            body := .bulk results.length (results.countP (fun result => result.success))
                      (results.countP (fun result => !result.success)) results env.now } ∧
        ∃ new,
          (EmailController.sendBulkEmails env svc store req).store.lookup oid = some new ∧
          new.emailLogs = doc.emailLogs ++
            (results.filter (fun result => result.success)).map (fun result =>
              { recipients := [result.email],
                subject := req.subject.getD "Meeting Summary".toList,
                sentAt := env.now, status := "sent".toList }) ∧
          new.emailLogs.length =
            doc.emailLogs.length + results.countP (fun result => result.success)) := by
  have hcount : ∀ p : BulkResult → Bool, (results.filter p).length = results.countP p :=
    fun p => (List.countP_eq_length_filter p results).symm
  refine ⟨?_, ?_, ?_⟩
  · have := List.length_eq_countP_add_countP (fun result : BulkResult => result.success)
      (l := results)
    simp only [Bool.not_eq_true] at this
    rw [this]
    congr 1
    apply List.countP_congr
    intro x _
    simp
  · intro hi hs hres
    unfold EmailController.sendBulkEmails
    simp only [hr, hi, hs, Bool.not_true, Bool.not_false, Bool.false_and, Bool.false_eq_true,
      if_false]
    have key : EmailController.sendBulkDispatch env svc store (r :: rs)
        (EmailController.subjectOf req) none (req.summary.getD []) =
        { response := EmailController.bulkReport env results, store := store,
          emailCalls := [.sendBulkEmails (r :: rs) (req.summary.getD [])
            (EmailController.subjectOf req)] } := by
      unfold EmailController.sendBulkDispatch EmailController.subjectOf
      simp only [hres]
    rw [key]
    refine ⟨?_, rfl⟩
    simp only [EmailController.bulkReport, hcount]
  · intro hi oid doc hc hl hres
    have hid : doc.id = oid := Store.lookup_id store oid doc hl
    obtain ⟨store', new, h1, h2, h3, _, _⟩ := EmailController.addBulkLogs_ok env
      (req.subject.getD "Meeting Summary".toList)
      (results.filter (fun result => result.success)) store doc (by rw [hid]; exact hl)
    have key : EmailController.sendBulkEmails env svc store req =
        { response := EmailController.bulkReport env results, store := store',
          emailCalls := [.sendBulkEmails (r :: rs) (EmailController.effectiveText doc)
            (req.subject.getD "Meeting Summary".toList)] } := by
      unfold EmailController.sendBulkEmails
      simp only [hr, hi, hc, hl, Bool.not_true, Bool.and_false, Bool.false_eq_true, if_false,
        if_true]
      unfold EmailController.sendBulkDispatch EmailController.subjectOf
      simp only [hres, h1]
    rw [key]
    refine ⟨?_, new, ?_, h3, ?_⟩
    · simp only [EmailController.bulkReport, hcount]
    · rw [← hid]
      exact h2
    · rw [h3, List.length_append, List.length_map, hcount]

/-- Three recipients, the second of which the sample service cannot reach. -/
def threeRecipients : List JsString :=
  ["a@test.com".toList, "down@test.com".toList, "b@test.com".toList]

/-- Witness of C16: three recipients with exactly one failure give
`total 3, successful 2, failed 1` and two new log entries. -/
theorem C16_bulk_report_and_logs_witness :
    (EmailController.sendBulkEmails offlineEnv workingMailer [storedSummary]
      (sendRequest "7".toList threeRecipients)).response =
      { status := 200,
        body := .bulk 3 2 1
          [{ email := "a@test.com".toList, success := true },
           { email := "down@test.com".toList, success := false },
           { email := "b@test.com".toList, success := true }] offlineEnv.now } ∧
    ∃ new,
      (EmailController.sendBulkEmails offlineEnv workingMailer [storedSummary]
        (sendRequest "7".toList threeRecipients)).store.lookup 7 = some new ∧
      new.emailLogs.map (fun entry => (entry.recipients, entry.status)) =
        [(["a@test.com".toList], "sent".toList), (["b@test.com".toList], "sent".toList)] := by
  obtain ⟨h1, new, h2, h3, _⟩ := (C16_bulk_report_and_logs offlineEnv workingMailer
    [storedSummary] (sendRequest "7".toList threeRecipients) "a@test.com".toList
    ["down@test.com".toList, "b@test.com".toList]
    [{ email := "a@test.com".toList, success := true },
     { email := "down@test.com".toList, success := false },
     { email := "b@test.com".toList, success := true }] rfl).2.2 (by decide) 7 storedSummary
    (by decide) (by decide) (by decide)
  refine ⟨?_, new, h2, ?_⟩
  · rw [h1]
    decide
  · rw [h3]
    decide

/-! ## C17: validation of email addresses -/

/-- The shape `local@domain.tld` of the specification: a non-empty local
part, one `@`, and a domain made of a non-empty part, a dot and a non-empty
part, no part containing whitespace or `@`. -/
def IsEmailShape (s : JsString) : Prop :=
  ∃ loc dom tld : JsString,
    s = loc ++ '@' :: (dom ++ '.' :: tld) ∧
    loc ≠ [] ∧ dom ≠ [] ∧ tld ≠ [] ∧
    (∀ c ∈ loc, isJsWhitespace c = false ∧ c ≠ '@') ∧
    (∀ c ∈ dom, isJsWhitespace c = false ∧ c ≠ '@') ∧
    (∀ c ∈ tld, isJsWhitespace c = false ∧ c ≠ '@')

theorem EmailController.notSpaceNorAt_iff (c : Char) :
    EmailController.notSpaceNorAt c = true ↔ isJsWhitespace c = false ∧ c ≠ '@' := by
  unfold EmailController.notSpaceNorAt
  cases h : isJsWhitespace c <;> simp

theorem EmailController.matchPieces_nil (s : List Char) :
    EmailController.matchPieces [] s = true ↔ s = [] := by
  cases s <;> simp [EmailController.matchPieces]

theorem EmailController.matchPieces_lit (c : Char) (ps : List EmailController.RegexPiece)
    (s : List Char) :
    EmailController.matchPieces (.lit c :: ps) s = true ↔
      ∃ rest, s = c :: rest ∧ EmailController.matchPieces ps rest = true := by
  cases s with
  | nil => simp [EmailController.matchPieces]
  | cons d s =>
    simp only [EmailController.matchPieces, Bool.and_eq_true, beq_iff_eq, List.cons.injEq]
    constructor
    · rintro ⟨h1, h2⟩
      exact ⟨s, ⟨h1, rfl⟩, h2⟩
    · rintro ⟨rest, ⟨h1, h2⟩, h3⟩
      rw [h2]
      exact ⟨h1, h3⟩

theorem EmailController.matchPieces_plus (cls : Char → Bool)
    (ps : List EmailController.RegexPiece) (s : List Char) :
    EmailController.matchPieces (.plus cls :: ps) s = true ↔
      ∃ run rest, s = run ++ rest ∧ run ≠ [] ∧ (∀ c ∈ run, cls c = true) ∧
        EmailController.matchPieces ps rest = true := by
  induction s with
  | nil =>
    simp only [EmailController.matchPieces, Bool.false_eq_true, false_iff, not_exists, not_and]
    intro run rest h hne
    have := List.append_eq_nil.mp h.symm
    exact absurd this.1 hne
  | cons d s ih =>
    simp only [EmailController.matchPieces, Bool.and_eq_true, Bool.or_eq_true]
    constructor
    · rintro ⟨hd, h | h⟩
      · obtain ⟨run, rest, h1, _, h3, h4⟩ := ih.mp h
        refine ⟨d :: run, rest, by rw [h1]; rfl, by simp, ?_, h4⟩
        intro c hc
        rcases List.mem_cons.mp hc with e | e
        · rw [e]
          exact hd
        · exact h3 c e
      · exact ⟨[d], s, rfl, by simp, by simpa using hd, h⟩
    · rintro ⟨run, rest, h1, h2, h3, h4⟩
      cases run with
      | nil => exact absurd rfl h2
      | cons e run =>
        simp only [List.cons_append, List.cons.injEq] at h1
        obtain ⟨he, hs⟩ := h1
        refine ⟨by rw [he]; exact h3 e (List.mem_cons_self e run), ?_⟩
        cases run with
        | nil =>
          right
          rw [hs]
          exact h4
        | cons f run =>
          left
          exact ih.mpr ⟨f :: run, rest, hs, by simp,
            fun c hc => h3 c (List.mem_cons_of_mem e hc), h4⟩

/-- The pattern of `validateEmails` matches exactly the strings of the shape
`local@domain.tld`. -/
theorem EmailController.matchPieces_emailRegex (s : JsString) :
    EmailController.matchPieces EmailController.emailRegex s = true ↔ IsEmailShape s := by
  unfold EmailController.emailRegex IsEmailShape
  simp only [EmailController.matchPieces_plus, EmailController.matchPieces_lit,
    EmailController.matchPieces_nil, EmailController.notSpaceNorAt_iff]
  constructor
  · rintro ⟨loc, r1, h1, hl, hlc, r2, h2, dom, r3, h3, hd, hdc, r4, h4, tld, r5, h5, ht, htc, h6⟩
    refine ⟨loc, dom, tld, ?_, hl, hd, ht, hlc, hdc, htc⟩
    rw [h1, h2, h3, h4, h5, h6]
    simp
  · rintro ⟨loc, dom, tld, hs, hl, hd, ht, hlc, hdc, htc⟩
    exact ⟨loc, '@' :: (dom ++ '.' :: tld), hs, hl, hlc, dom ++ '.' :: tld, rfl, dom,
      '.' :: tld, rfl, hd, hdc, tld, rfl, tld, [], by simp, ht, htc, rfl⟩

instance IsEmailShape.decidable (s : JsString) : Decidable (IsEmailShape s) :=
  decidable_of_iff _ (EmailController.matchPieces_emailRegex s)

/-- The shape `local@domain.tld` in the words of the specification: no
whitespace, exactly one `@`, a non-empty local part before it, and after it a
domain containing a dot with at least one character on each side. -/
theorem isEmailShape_iff (s : JsString) :
    IsEmailShape s ↔
      (∀ c ∈ s, isJsWhitespace c = false) ∧ s.count '@' = 1 ∧
      ∃ loc domain : JsString, s = loc ++ '@' :: domain ∧ loc ≠ [] ∧
        ∃ dom tld : JsString, domain = dom ++ '.' :: tld ∧ dom ≠ [] ∧ tld ≠ [] := by
  have hat : isJsWhitespace '@' = false := by decide
  have hdot : isJsWhitespace '.' = false := by decide
  have hne : ('.' : Char) ≠ '@' := by decide
  constructor
  · rintro ⟨loc, dom, tld, hs, hl, hd, ht, hlc, hdc, htc⟩
    refine ⟨?_, ?_, loc, dom ++ '.' :: tld, hs, hl, dom, tld, rfl, hd, ht⟩
    · intro c hc
      rw [hs] at hc
      simp only [List.mem_append, List.mem_cons] at hc
      rcases hc with h | h | h | h | h
      · exact (hlc c h).1
      · rw [h]
        exact hat
      · exact (hdc c h).1
      · rw [h]
        exact hdot
      · exact (htc c h).1
    · have h1 : loc.count '@' = 0 := List.count_eq_zero.mpr (fun h => (hlc _ h).2 rfl)
      have h2 : dom.count '@' = 0 := List.count_eq_zero.mpr (fun h => (hdc _ h).2 rfl)
      have h3 : tld.count '@' = 0 := List.count_eq_zero.mpr (fun h => (htc _ h).2 rfl)
      rw [hs]
      simp [List.count_append, List.count_cons, h1, h2, h3]
  · rintro ⟨hws, hcount, loc, domain, hs, hl, dom, tld, hdm, hd, ht⟩
    rw [hs, hdm] at hcount
    simp only [List.count_append, List.count_cons, beq_self_eq_true, if_true] at hcount
    have hne' : (('.' : Char) == '@') = false := by decide
    simp only [hne', Bool.false_eq_true, if_false, Nat.add_zero] at hcount
    have h1 : loc.count '@' = 0 := by omega
    have h2 : dom.count '@' = 0 := by omega
    have h3 : tld.count '@' = 0 := by omega
    have hmem : ∀ part : JsString, part.count '@' = 0 → (∀ c ∈ part, c ∈ s) →
        ∀ c ∈ part, isJsWhitespace c = false ∧ c ≠ '@' := by
      intro part hz hsub c hc
      refine ⟨hws c (hsub c hc), ?_⟩
      intro e
      rw [e] at hc
      exact List.count_eq_zero.mp hz hc
    refine ⟨loc, dom, tld, by rw [hs, hdm], hl, hd, ht, hmem loc h1 ?_, hmem dom h2 ?_,
      hmem tld h3 ?_⟩
    · intro c hc
      rw [hs]
      simp [hc]
    · intro c hc
      rw [hs, hdm]
      simp [hc]
    · intro c hc
      rw [hs, hdm]
      simp [hc]

/-- C17: for every list of email strings, `validateEmails` answers 200 with
`total` the length of the list, `validEmails` the strings of the list, in
input order, that match the pattern (equivalently: that have the shape
`local@domain.tld`), `invalidEmails` the remaining strings in input order, and
`valid + invalid = total`; the list `a@test.com, bad-email` yields the valid
`a@test.com` and the invalid `bad-email`. -/
theorem C17_validate_emails (store : Store) (items : List JsString) :
    (EmailController.validateEmails store (.array items)).response =
      { status := 200,
        body := .validation items.length
          (items.filter (fun email => decide (IsEmailShape email))).length
          (items.filter (fun email => !decide (IsEmailShape email))).length
          (items.filter (fun email => decide (IsEmailShape email)))
          (items.filter (fun email => !decide (IsEmailShape email)))
          (items.map (fun email => (email, decide (IsEmailShape email)))) } ∧
    (items.filter (fun email => decide (IsEmailShape email))).length +
        (items.filter (fun email => !decide (IsEmailShape email))).length = items.length ∧
    (∀ email, IsEmailShape email ↔
      EmailController.matchPieces EmailController.emailRegex email = true) ∧
    (EmailController.validateEmails store
        (.array ["a@test.com".toList, "bad-email".toList])).response.body =
      .validation 2 1 1 ["a@test.com".toList] ["bad-email".toList]
        [("a@test.com".toList, true), ("bad-email".toList, false)] := by
  have hdec : ∀ email : JsString,
      decide (IsEmailShape email) = EmailController.matchPieces EmailController.emailRegex email := by
    intro email
    cases h : EmailController.matchPieces EmailController.emailRegex email
    · exact decide_eq_false (fun hs => by
        rw [(EmailController.matchPieces_emailRegex email).mpr hs] at h
        exact absurd h (by decide))
    · exact decide_eq_true ((EmailController.matchPieces_emailRegex email).mp h)
  refine ⟨?_, ?_, fun email => (EmailController.matchPieces_emailRegex email).symm, by rfl⟩
  · simp only [hdec]
    unfold EmailController.validateEmails
    simp only [List.filter_map, List.map_map, Function.comp_def, List.map_id']
  · have := List.length_eq_countP_add_countP
      (fun email : JsString => decide (IsEmailShape email)) (l := items)
    rw [← List.countP_eq_length_filter, ← List.countP_eq_length_filter, this]
    congr 1
    apply List.countP_congr
    intro x _
    simp

/-! ## The history controller (`backend/controllers/historyController.js`)

The text of a numeric query parameter (`page`, `limit`) is modelled by the
natural number it denotes; on decimal numerals `parseInt` and the numeric
comparison of the raw text agree.  Counts and page numbers are far below
`2^53`, where the floating-point quotient `total / limit` and its `Math.ceil`
are exact. -/

/-- What the history controller relies on without defining it. -/
structure QueryRuntime where
  /-- The matcher of `{ $regex: pattern, $options: 'i' }` (case-insensitive);
  `none` when the database rejects the pattern and the query fails. -/
  regex : JsString → Option (JsString → Bool)
  /-- The time value of `new Date(text)`; `none` for an invalid date, which
  the query layer refuses to cast. -/
  parseDate : JsString → Option Nat

/-- A summary as returned by `.select('-transcript').lean()`: every field but
the transcript. -/
structure Listing where
  id : Nat
  userId : JsString
  prompt : JsString
  generatedSummary : JsString
  editedSummary : Option JsString
  summaryStyle : JsString
  language : JsString
  emailLogs : List EmailLog
  metadata : Metadata
  createdAt : Nat
  updatedAt : Nat
  deriving DecidableEq, Repr

/-- The projection that omits the transcript. -/
def Summary.listing (doc : Summary) : Listing :=
  { id := doc.id, userId := doc.userId, prompt := doc.prompt,
    generatedSummary := doc.generatedSummary, editedSummary := doc.editedSummary,
    summaryStyle := doc.summaryStyle, language := doc.language, emailLogs := doc.emailLogs,
    metadata := doc.metadata, createdAt := doc.createdAt, updatedAt := doc.updatedAt }

/-- The `pagination` object of a list response.  `totalPages` is `none` when
`Math.ceil(total / limit)` is not a finite number (a limit of zero). -/
structure Pagination where
  currentPage : Nat
  totalPages : Option Nat
  totalItems : Nat
  itemsPerPage : Nat
  hasNextPage : Bool
  hasPrevPage : Bool
  deriving DecidableEq, Repr

/-- The query string of `GET /user/:userId`. -/
structure ListQuery where
  page : Option Nat
  limit : Option Nat
  search : Option JsString
  deriving DecidableEq, Repr

/-- The query string of `GET /user/:userId/search`. -/
structure SearchQuery where
  q : Option JsString
  style : Option JsString
  language : Option JsString
  dateFrom : Option JsString
  dateTo : Option JsString
  page : Option Nat
  limit : Option Nat
  deriving DecidableEq, Repr

/-- The `searchParams` object echoed by the search handler. -/
structure SearchParams where
  query : Option JsString
  style : Option JsString
  language : Option JsString
  dateFrom : Option JsString
  dateTo : Option JsString
  deriving DecidableEq, Repr

/-- The JSON bodies of the two list handlers. -/
inductive HistoryBody where
  | error (error message : JsString)
  | list (summaries : List Listing) (pagination : Pagination)
  | search (summaries : List Listing) (pagination : Pagination) (searchParams : SearchParams)
  deriving DecidableEq, Repr

/-- An HTTP response of a list handler. -/
structure HistoryResponse where
  status : Nat
  body : HistoryBody
  deriving DecidableEq, Repr

/-- The effect of a list handler: they only read the store. -/
structure HistoryOutcome where
  response : HistoryResponse
  store : Store
  deriving DecidableEq, Repr

namespace HistoryController

/-- The `$or` of the three regular-expression conditions on a document; a
document without `editedSummary` cannot match on that field. -/
def matchesText (m : JsString → Bool) (doc : Summary) : Bool :=
  m doc.prompt || m doc.generatedSummary ||
    (match doc.editedSummary with
     | some edited => m edited
     | none => false)

/-- `.sort({ createdAt: -1 })`: newest first. -/
def sortNewestFirst (docs : List Summary) : List Summary :=
  docs.insertionSort (fun a b => b.createdAt ≤ a.createdAt)

/-- `skip = (parseInt(page) - 1) * parseInt(limit)` for a page of at least one. -/
def skipOf (page limit : Nat) : Nat :=
  (page - 1) * limit

/-- `.limit(limit).skip(skip)` on the sorted matches: the skip applies first;
a limit of zero means no limit. -/
def pageOf (sorted : List Summary) (page limit : Nat) : List Summary :=
  if limit = 0 then sorted.drop (skipOf page limit)
  else (sorted.drop (skipOf page limit)).take limit

/-- `Math.ceil(total / limit)`: not a finite number for a limit of zero. -/
def totalPagesOf (total limit : Nat) : Option Nat :=
  if limit = 0 then none else some ((total + limit - 1) / limit)

/-- The block `Calculate pagination info`, the same in both handlers. -/
def paginationOf (total page limit : Nat) : Pagination :=
  { currentPage := page
    totalPages := totalPagesOf total limit
    totalItems := total
    itemsPerPage := limit
    hasNextPage :=
      match totalPagesOf total limit with
      | some totalPages => decide (page < totalPages)
      | none => decide (0 < total)
    hasPrevPage := decide (page > 1) }

/-- The filter `query` built by `getUserHistory`; `none` when the database
rejects the search pattern. -/
def listFilter (rt : QueryRuntime) (userId : JsString) (query : ListQuery) :
    Option (Summary → Bool) :=
  if truthy query.search then
    match rt.regex (query.search.getD []) with
    | none => none
    | some m => some (fun doc => doc.userId == userId && matchesText m doc)
  else some (fun doc => doc.userId == userId)

/-- `getUserHistory` (`GET /user/:userId`).  A page of zero with a positive
limit makes the skip negative, which the database rejects. -/
def getUserHistory (rt : QueryRuntime) (store : Store) (userId : JsString)
    (query : ListQuery) : HistoryOutcome :=
  let page := query.page.getD 1
  let limit := query.limit.getD 20
  match listFilter rt userId query with
  | none =>
    { response :=
        { status := 500,
          body := .error "Internal Server Error".toList "Failed to retrieve history".toList }
      store := store }
  | some selects =>
    if page = 0 ∧ 0 < limit then
      { response :=
          { status := 500,
            body := .error "Internal Server Error".toList "Failed to retrieve history".toList }
        store := store }
    else
      { response :=
          { status := 200,
            body := .list
              ((pageOf (sortNewestFirst (store.filter selects)) page limit).map Summary.listing)
              (paginationOf (store.filter selects).length page limit) }
        store := store }

/-- One bound of the `createdAt` range of the search query: no condition for
a falsy parameter, `none` for a date that cannot be cast. -/
def dateBound (rt : QueryRuntime) (param : Option JsString) (holds : Nat → Nat → Bool) :
    Option (Summary → Bool) :=
  if truthy param then
    match rt.parseDate (param.getD []) with
    | none => none
    | some date => some (fun doc => holds doc.createdAt date)
  else some (fun _ => true)

/-- The `$or` condition of the search query: no condition for a falsy `q`,
`none` for a pattern the database rejects. -/
def textCondition (rt : QueryRuntime) (q : Option JsString) : Option (Summary → Bool) :=
  if truthy q then
    match rt.regex (q.getD []) with
    | none => none
    | some m => some (matchesText m)
  else some (fun _ => true)

/-- The filter `query` built by `searchSummaries`: the conjunction of the
conditions set for the truthy parameters; `none` when the database rejects
the pattern or a date. -/
def searchFilter (rt : QueryRuntime) (userId : JsString) (query : SearchQuery) :
    Option (Summary → Bool) :=
  match textCondition rt query.q with
  | none => none
  | some textOk =>
    match dateBound rt query.dateFrom (fun created date => decide (date ≤ created)) with
    | none => none
    | some fromOk =>
      match dateBound rt query.dateTo (fun created date => decide (created ≤ date)) with
      | none => none
      | some toOk =>
        some (fun doc =>
          doc.userId == userId && textOk doc &&
          (if truthy query.style then doc.summaryStyle == query.style.getD [] else true) &&
          (if truthy query.language then doc.language == query.language.getD [] else true) &&
          fromOk doc && toOk doc)

/-- `searchSummaries` (`GET /user/:userId/search`). -/
def searchSummaries (rt : QueryRuntime) (store : Store) (userId : JsString)
    (query : SearchQuery) : HistoryOutcome :=
  let page := query.page.getD 1
  let limit := query.limit.getD 20
  match searchFilter rt userId query with
  | none =>
    { response :=
        { status := 500,
          body := .error "Internal Server Error".toList "Failed to search summaries".toList }
      store := store }
  | some selects =>
    if page = 0 ∧ 0 < limit then
      { response :=
          { status := 500,
            body := .error "Internal Server Error".toList "Failed to search summaries".toList }
        store := store }
    else
      { response :=
          { status := 200,
            body := .search
              ((pageOf (sortNewestFirst (store.filter selects)) page limit).map Summary.listing)
              (paginationOf (store.filter selects).length page limit)
              { query := query.q, style := query.style, language := query.language,
                dateFrom := query.dateFrom, dateTo := query.dateTo } }
        store := store }

end HistoryController

/-! ## Sample store and runtime for the history controller -/

/-- A runtime whose patterns are plain substrings (compared without regard to
case by lowering both sides), except that the pattern `(` is rejected, and
whose dates are written as decimal timestamps. -/
def sampleRuntime : QueryRuntime :=
  { regex := fun pattern =>
      if pattern = "(".toList then none
      else some (fun text => includes (text.map Char.toLower) (pattern.map Char.toLower))
    parseDate := decimalId }

/-- The record number `n` of the sample user, created at time `n`. -/
def recordOf (n : Nat) : Summary :=
  { storedSummary with id := n, createdAt := n, updatedAt := n }

/-- Twenty-five records of the sample user and one of another user. -/
def twentySix : Store :=
  (List.range 25).map recordOf ++ [{ storedSummary with id := 99, userId := "user-2".toList }]

/-- A list query with the given page and limit and no search. -/
def pageQuery (page limit : Nat) : ListQuery :=
  { page := some page, limit := some limit, search := none }

/-! ## Lemmas about pagination and sorting -/

/-- For a positive limit the model of `Math.ceil(total / limit)` is the
ceiling of the rational quotient. -/
theorem ceil_div_eq (total limit : Nat) (hl : 1 ≤ limit) :
    (total + limit - 1) / limit = ⌈(total : ℚ) / (limit : ℚ)⌉₊ := by
  have hpos : (0 : ℚ) < (limit : ℚ) := by exact_mod_cast hl
  apply eq_of_forall_ge_iff
  intro n
  rw [Nat.ceil_le, div_le_iff₀ hpos]
  have h1 : (total + limit - 1) / limit ≤ n ↔ total ≤ n * limit := by
    rw [Nat.div_le_iff_le_mul_add_pred (by omega)]
    constructor
    · intro h
      have : limit * n = n * limit := Nat.mul_comm _ _
      omega
    · intro h
      have : limit * n = n * limit := Nat.mul_comm _ _
      omega
  rw [h1]
  exact_mod_cast Iff.rfl

instance HistoryController.newestFirst_total :
    IsTotal Summary (fun a b => b.createdAt ≤ a.createdAt) :=
  ⟨fun a b => Nat.le_total b.createdAt a.createdAt⟩

instance HistoryController.newestFirst_trans :
    IsTrans Summary (fun a b => b.createdAt ≤ a.createdAt) :=
  ⟨fun _ _ _ h1 h2 => Nat.le_trans h2 h1⟩

/-- The sorted list is a rearrangement of the matches, newest first. -/
theorem HistoryController.sortNewestFirst_spec (docs : List Summary) :
    (HistoryController.sortNewestFirst docs).Perm docs ∧
    (HistoryController.sortNewestFirst docs).Sorted (fun a b => b.createdAt ≤ a.createdAt) :=
  ⟨List.perm_insertionSort _ docs, List.sorted_insertionSort _ docs⟩

theorem HistoryController.paginationOf_pos (total page limit : Nat) (hl : 1 ≤ limit) :
    HistoryController.paginationOf total page limit =
      { currentPage := page
        totalPages := some ⌈(total : ℚ) / (limit : ℚ)⌉₊
        totalItems := total
        itemsPerPage := limit
        hasNextPage := decide (page < ⌈(total : ℚ) / (limit : ℚ)⌉₊)
        hasPrevPage := decide (page > 1) } := by
  unfold HistoryController.paginationOf HistoryController.totalPagesOf
  rw [if_neg (by omega), ceil_div_eq total limit hl]

theorem HistoryController.pageOf_pos (sorted : List Summary) (page limit : Nat)
    (hl : 1 ≤ limit) :
    HistoryController.pageOf sorted page limit =
      (sorted.drop ((page - 1) * limit)).take limit := by
  unfold HistoryController.pageOf HistoryController.skipOf
  rw [if_neg (by omega)]

/-- The list handler on a page and a limit of at least one, with a filter the
database accepts. -/
theorem HistoryController.getUserHistory_ok (rt : QueryRuntime) (store : Store)
    (userId : JsString) (query : ListQuery) (page limit : Nat) (selects : Summary → Bool)
    (hp : 1 ≤ page) (hl : 1 ≤ limit) (hqp : query.page.getD 1 = page)
    (hql : query.limit.getD 20 = limit)
    (hf : HistoryController.listFilter rt userId query = some selects) :
    HistoryController.getUserHistory rt store userId query =
      { response :=
          { status := 200,
            body := .list
              ((((HistoryController.sortNewestFirst (store.filter selects)).drop
                ((page - 1) * limit)).take limit).map Summary.listing)
              { currentPage := page
                totalPages := some ⌈((store.filter selects).length : ℚ) / (limit : ℚ)⌉₊
                totalItems := (store.filter selects).length
                itemsPerPage := limit
                hasNextPage :=
                  decide (page < ⌈((store.filter selects).length : ℚ) / (limit : ℚ)⌉₊)
                hasPrevPage := decide (page > 1) } }
        store := store } := by
  unfold HistoryController.getUserHistory
  simp only [hqp, hql, hf]
  rw [if_neg (by omega), HistoryController.paginationOf_pos _ _ _ hl,
    HistoryController.pageOf_pos _ _ _ hl]

/-- The search handler on a page and a limit of at least one, with a filter
the database accepts. -/
theorem HistoryController.searchSummaries_ok (rt : QueryRuntime) (store : Store)
    (userId : JsString) (query : SearchQuery) (page limit : Nat) (selects : Summary → Bool)
    (hp : 1 ≤ page) (hl : 1 ≤ limit) (hqp : query.page.getD 1 = page)
    (hql : query.limit.getD 20 = limit)
    (hf : HistoryController.searchFilter rt userId query = some selects) :
    HistoryController.searchSummaries rt store userId query =
      { response :=
          { status := 200,
            body := .search
              ((((HistoryController.sortNewestFirst (store.filter selects)).drop
                ((page - 1) * limit)).take limit).map Summary.listing)
              { currentPage := page
                totalPages := some ⌈((store.filter selects).length : ℚ) / (limit : ℚ)⌉₊
                totalItems := (store.filter selects).length
                itemsPerPage := limit
                hasNextPage :=
                  decide (page < ⌈((store.filter selects).length : ℚ) / (limit : ℚ)⌉₊)
                hasPrevPage := decide (page > 1) }
              { query := query.q, style := query.style, language := query.language,
                dateFrom := query.dateFrom, dateTo := query.dateTo } }
        store := store } := by
  unfold HistoryController.searchSummaries
  simp only [hqp, hql, hf]
  rw [if_neg (by omega), HistoryController.paginationOf_pos _ _ _ hl,
    HistoryController.pageOf_pos _ _ _ hl]

/-! ## C18: the pagination fields -/

/-- C18: for every page and limit of at least one (given or defaulted) and
every filter the database accepts, `getUserHistory` and `searchSummaries`
both skip `(page - 1) * limit` of the sorted matches, take `limit` of the
rest, and report `currentPage = page`, `totalPages = ceil(total / limit)`,
`totalItems = total`, `itemsPerPage = limit`, `hasNextPage = (page <
totalPages)` and `hasPrevPage = (page > 1)`, where `total` is the number of
matches; for 25 matches and limit 10, page 1 has a next and no previous page
and page 3 has a previous and no next page. -/
theorem C18_pagination_fields (rt : QueryRuntime) (store : Store) (userId : JsString)
    (page limit : Nat) (hp : 1 ≤ page) (hl : 1 ≤ limit) :
    (∀ (query : ListQuery) (selects : Summary → Bool),
      query.page.getD 1 = page → query.limit.getD 20 = limit →
      HistoryController.listFilter rt userId query = some selects →
      (HistoryController.getUserHistory rt store userId query).response =
        { status := 200,
          body := .list
            ((((HistoryController.sortNewestFirst (store.filter selects)).drop
              ((page - 1) * limit)).take limit).map Summary.listing)
            { currentPage := page
              totalPages := some ⌈((store.filter selects).length : ℚ) / (limit : ℚ)⌉₊
              totalItems := (store.filter selects).length
              itemsPerPage := limit
              hasNextPage :=
                decide (page < ⌈((store.filter selects).length : ℚ) / (limit : ℚ)⌉₊)
              hasPrevPage := decide (page > 1) } }) ∧
    (∀ (query : SearchQuery) (selects : Summary → Bool),
      query.page.getD 1 = page → query.limit.getD 20 = limit →
      HistoryController.searchFilter rt userId query = some selects →
      (HistoryController.searchSummaries rt store userId query).response =
        { status := 200,
          body := .search
            ((((HistoryController.sortNewestFirst (store.filter selects)).drop
              ((page - 1) * limit)).take limit).map Summary.listing)
            { currentPage := page
              totalPages := some ⌈((store.filter selects).length : ℚ) / (limit : ℚ)⌉₊
              totalItems := (store.filter selects).length
              itemsPerPage := limit
              hasNextPage :=
                decide (page < ⌈((store.filter selects).length : ℚ) / (limit : ℚ)⌉₊)
              hasPrevPage := decide (page > 1) }
            { query := query.q, style := query.style, language := query.language,
              dateFrom := query.dateFrom, dateTo := query.dateTo } }) ∧
    HistoryController.skipOf page limit = (page - 1) * limit ∧
    HistoryController.paginationOf 25 1 10 =
      { currentPage := 1, totalPages := some 3, totalItems := 25, itemsPerPage := 10,
        hasNextPage := true, hasPrevPage := false } ∧
    HistoryController.paginationOf 25 3 10 =
      { currentPage := 3, totalPages := some 3, totalItems := 25, itemsPerPage := 10,
        hasNextPage := false, hasPrevPage := true } := by
  refine ⟨?_, ?_, rfl, by decide, by decide⟩
  · intro query selects hqp hql hf
    rw [HistoryController.getUserHistory_ok rt store userId query page limit selects hp hl
      hqp hql hf]
  · intro query selects hqp hql hf
    rw [HistoryController.searchSummaries_ok rt store userId query page limit selects hp hl
      hqp hql hf]

/-- Witness of C18: page 3 with limit 10 of the sample store. -/
theorem C18_pagination_fields_witness :
    (HistoryController.getUserHistory sampleRuntime twentySix "user-1".toList
      (pageQuery 3 10)).response.status = 200 := by
  rw [(C18_pagination_fields sampleRuntime twentySix "user-1".toList 3 10 (by decide)
    (by decide)).1 (pageQuery 3 10) (fun doc => doc.userId == "user-1".toList) rfl rfl rfl]

/-! ## C19: the page returned by `getUserHistory` -/

/-- The filter of the list handler selects the records of the user, restricted
to those matching the search pattern when a search is given. -/
theorem HistoryController.listFilter_spec (rt : QueryRuntime) (userId : JsString)
    (query : ListQuery) (selects : Summary → Bool)
    (hf : HistoryController.listFilter rt userId query = some selects) (doc : Summary) :
    selects doc = true ↔
      doc.userId = userId ∧
      (truthy query.search = false ∨
        ∃ m, rt.regex (query.search.getD []) = some m ∧
          HistoryController.matchesText m doc = true) := by
  unfold HistoryController.listFilter at hf
  cases hs : truthy query.search with
  | false =>
    simp only [hs, Bool.false_eq_true, if_false, Option.some.injEq] at hf
    rw [← hf]
    simp
  | true =>
    simp only [hs, if_true] at hf
    cases hm : rt.regex (query.search.getD []) with
    | none => simp [hm] at hf
    | some m =>
      simp only [hm, Option.some.injEq] at hf
      rw [← hf]
      simp

/-- C19: for every store, user, page and limit of at least one, and search
that is absent or a pattern the database accepts, `getUserHistory` answers
200 with exactly the elements at positions `(page - 1) * limit` up to
`(page - 1) * limit + limit` of a list that is a rearrangement, newest first,
of the records of that user (restricted to those matching the search when one
is given), each without its transcript; hence it returns
`min(limit, total - (page - 1) * limit)` items, all of that user. -/
theorem C19_history_page (rt : QueryRuntime) (store : Store) (userId : JsString)
    (query : ListQuery) (page limit : Nat) (selects : Summary → Bool)
    (hp : 1 ≤ page) (hl : 1 ≤ limit) (hqp : query.page.getD 1 = page)
    (hql : query.limit.getD 20 = limit)
    (hf : HistoryController.listFilter rt userId query = some selects) :
    ∃ (sorted : List Summary) (summaries : List Listing) (pagination : Pagination),
      (HistoryController.getUserHistory rt store userId query).response =
        { status := 200, body := .list summaries pagination } ∧
      sorted.Perm (store.filter selects) ∧
      sorted.Sorted (fun a b => b.createdAt ≤ a.createdAt) ∧
      (∀ doc, selects doc = true ↔
        doc.userId = userId ∧
        (truthy query.search = false ∨
          ∃ m, rt.regex (query.search.getD []) = some m ∧
            HistoryController.matchesText m doc = true)) ∧
      summaries = ((sorted.drop ((page - 1) * limit)).take limit).map Summary.listing ∧
      summaries.length = min limit ((store.filter selects).length - (page - 1) * limit) ∧
      (∀ item ∈ summaries, item.userId = userId) := by
  obtain ⟨hperm, hsorted⟩ := HistoryController.sortNewestFirst_spec (store.filter selects)
  have hspec := HistoryController.listFilter_spec rt userId query selects hf
  refine ⟨HistoryController.sortNewestFirst (store.filter selects), _, _,
    by rw [HistoryController.getUserHistory_ok rt store userId query page limit selects hp hl
      hqp hql hf], hperm, hsorted, hspec, rfl, ?_, ?_⟩
  · rw [List.length_map, List.length_take, List.length_drop, hperm.length_eq]
  · intro item hitem
    obtain ⟨doc, hdoc, hmap⟩ := List.mem_map.mp hitem
    have h1 : doc ∈ HistoryController.sortNewestFirst (store.filter selects) :=
      List.mem_of_mem_drop (List.mem_of_mem_take hdoc)
    have h2 : doc ∈ store.filter selects := hperm.mem_iff.mp h1
    have h3 : selects doc = true := (List.mem_filter.mp h2).2
    rw [← hmap]
    exact ((hspec doc).mp h3).1

/-- Witness of C19: of the 25 records of the sample user with limit 10,
page 1 returns 10 items and page 3 returns 5. -/
theorem C19_history_page_witness :
    (∃ summaries pagination,
      (HistoryController.getUserHistory sampleRuntime twentySix "user-1".toList
        (pageQuery 1 10)).response = { status := 200, body := .list summaries pagination } ∧
      summaries.length = 10) ∧
    (∃ summaries pagination,
      (HistoryController.getUserHistory sampleRuntime twentySix "user-1".toList
        (pageQuery 3 10)).response = { status := 200, body := .list summaries pagination } ∧
      summaries.length = 5) := by
  constructor
  · obtain ⟨_, summaries, pagination, h1, _, _, _, _, h2, _⟩ :=
      C19_history_page sampleRuntime twentySix "user-1".toList (pageQuery 1 10) 1 10
        (fun doc => doc.userId == "user-1".toList) (by decide) (by decide) rfl rfl rfl
    exact ⟨summaries, pagination, h1, by rw [h2]; decide⟩
  · obtain ⟨_, summaries, pagination, h1, _, _, _, _, h2, _⟩ :=
      C19_history_page sampleRuntime twentySix "user-1".toList (pageQuery 3 10) 3 10
        (fun doc => doc.userId == "user-1".toList) (by decide) (by decide) rfl rfl rfl
    exact ⟨summaries, pagination, h1, by rw [h2]; decide⟩

/-! ## C20: the filter of `searchSummaries` -/

theorem HistoryController.matchesText_iff (m : JsString → Bool) (doc : Summary) :
    HistoryController.matchesText m doc = true ↔
      m doc.prompt = true ∨ m doc.generatedSummary = true ∨
        ∃ edited, doc.editedSummary = some edited ∧ m edited = true := by
  unfold HistoryController.matchesText
  cases doc.editedSummary with
  | none => simp
  | some e => simp [or_assoc]

theorem HistoryController.dateBound_eq_none (rt : QueryRuntime) (param : Option JsString)
    (holds : Nat → Nat → Bool) :
    HistoryController.dateBound rt param holds = none ↔
      truthy param = true ∧ rt.parseDate (param.getD []) = none := by
  unfold HistoryController.dateBound
  cases truthy param with
  | false => simp
  | true =>
    cases rt.parseDate (param.getD []) with
    | none => simp
    | some d => simp

theorem HistoryController.dateBound_spec (rt : QueryRuntime) (param : Option JsString)
    (holds : Nat → Nat → Bool) (bound : Summary → Bool)
    (h : HistoryController.dateBound rt param holds = some bound) (doc : Summary) :
    bound doc = true ↔
      (truthy param = false ∨
        ∃ date, rt.parseDate (param.getD []) = some date ∧
          holds doc.createdAt date = true) := by
  unfold HistoryController.dateBound at h
  cases ht : truthy param with
  | false =>
    simp only [ht, Bool.false_eq_true, if_false, Option.some.injEq] at h
    rw [← h]
    simp
  | true =>
    simp only [ht, if_true] at h
    cases hd : rt.parseDate (param.getD []) with
    | none => simp [hd] at h
    | some d =>
      simp only [hd, Option.some.injEq] at h
      rw [← h]
      simp

/-- A search query whose `style` parameter is present but empty, as sent by a
form with an unset style. -/
def emptyStyleQuery : SearchQuery :=
  { q := none, style := some [], language := none, dateFrom := none, dateTo := none,
    page := none, limit := none }

/-- C20 (as stated, refuted): with a `style` parameter that is present but
empty the query selects the stored summary of style `custom`, although the
style is neither absent nor equal to the record's style: the handler only
sets a condition for a truthy parameter. -/
theorem C20_counterexample_empty_style :
    emptyStyleQuery.style ≠ none ∧
    emptyStyleQuery.style ≠ some storedSummary.summaryStyle ∧
    (HistoryController.searchFilter sampleRuntime "user-1".toList emptyStyleQuery).map
      (fun selects => selects storedSummary) = some true ∧
    (HistoryController.searchSummaries sampleRuntime [storedSummary] "user-1".toList
      emptyStyleQuery).response.body =
      .search [storedSummary.listing]
        { currentPage := 1, totalPages := some 1, totalItems := 1, itemsPerPage := 20,
          hasNextPage := false, hasPrevPage := false }
        { query := none, style := some [], language := none, dateFrom := none,
          dateTo := none } := by
  decide

theorem HistoryController.textCondition_eq_none (rt : QueryRuntime) (q : Option JsString) :
    HistoryController.textCondition rt q = none ↔
      truthy q = true ∧ rt.regex (q.getD []) = none := by
  unfold HistoryController.textCondition
  cases truthy q with
  | false => simp
  | true =>
    cases rt.regex (q.getD []) with
    | none => simp
    | some m => simp

theorem HistoryController.textCondition_spec (rt : QueryRuntime) (q : Option JsString)
    (textOk : Summary → Bool) (h : HistoryController.textCondition rt q = some textOk)
    (doc : Summary) :
    textOk doc = true ↔
      (truthy q = false ∨
        ∃ m, rt.regex (q.getD []) = some m ∧
          (m doc.prompt = true ∨ m doc.generatedSummary = true ∨
            ∃ edited, doc.editedSummary = some edited ∧ m edited = true)) := by
  unfold HistoryController.textCondition at h
  cases ht : truthy q with
  | false =>
    simp only [ht, Bool.false_eq_true, if_false, Option.some.injEq] at h
    rw [← h]
    simp
  | true =>
    simp only [ht, if_true] at h
    cases hm : rt.regex (q.getD []) with
    | none => simp [hm] at h
    | some m =>
      simp only [hm, Option.some.injEq] at h
      rw [← h]
      simp [HistoryController.matchesText_iff]

/-- C20 (amended): for every search request whose pattern and dates the
database accepts, the query built by `searchSummaries` selects a record if and
only if its `userId` is the requested one; `q` is absent or empty or matches
(case-insensitively) its prompt, generated summary or edited summary; `style`
is absent or empty or equals its style; `language` is absent or empty or
equals its language; `dateFrom` is absent or empty or at most `createdAt`;
`dateTo` is absent or empty or at least `createdAt`.  The query is rejected
exactly when a given pattern or date is invalid. -/
theorem C20_search_filter (rt : QueryRuntime) (userId : JsString) (query : SearchQuery) :
    (∀ selects, HistoryController.searchFilter rt userId query = some selects →
      ∀ doc : Summary, selects doc = true ↔
        doc.userId = userId ∧
        (truthy query.q = false ∨
          ∃ m, rt.regex (query.q.getD []) = some m ∧
            (m doc.prompt = true ∨ m doc.generatedSummary = true ∨
              ∃ edited, doc.editedSummary = some edited ∧ m edited = true)) ∧
        (truthy query.style = false ∨ query.style = some doc.summaryStyle) ∧
        (truthy query.language = false ∨ query.language = some doc.language) ∧
        (truthy query.dateFrom = false ∨
          ∃ date, rt.parseDate (query.dateFrom.getD []) = some date ∧
            date ≤ doc.createdAt) ∧
        (truthy query.dateTo = false ∨
          ∃ date, rt.parseDate (query.dateTo.getD []) = some date ∧
            doc.createdAt ≤ date)) ∧
    (HistoryController.searchFilter rt userId query = none ↔
      (truthy query.q = true ∧ rt.regex (query.q.getD []) = none) ∨
      (truthy query.dateFrom = true ∧ rt.parseDate (query.dateFrom.getD []) = none) ∨
      (truthy query.dateTo = true ∧ rt.parseDate (query.dateTo.getD []) = none)) := by
  have hstyle : ∀ (param : Option JsString) (value : JsString),
      (if truthy param then value == param.getD [] else true) = true ↔
        (truthy param = false ∨ param = some value) := by
    intro param value
    cases ht : truthy param with
    | false => simp
    | true =>
      simp only [if_true, beq_iff_eq, Bool.true_eq_false, false_or]
      rw [truthy_some_getD param ht]
      simp only [Option.getD_some, Option.some.injEq]
      exact eq_comm
  unfold HistoryController.searchFilter
  cases htext : HistoryController.textCondition rt query.q with
  | none =>
    have := (HistoryController.textCondition_eq_none rt _).mp htext
    exact ⟨fun _ h => absurd h (Option.noConfusion), fun _ => Or.inl this, fun _ => rfl⟩
  | some textOk =>
    have hnq : ¬ (truthy query.q = true ∧ rt.regex (query.q.getD []) = none) := by
      intro h
      rw [(HistoryController.textCondition_eq_none rt _).mpr h] at htext
      exact absurd htext (by simp)
    cases hfrom : HistoryController.dateBound rt query.dateFrom
        (fun created date => decide (date ≤ created)) with
    | none =>
      have := (HistoryController.dateBound_eq_none rt _ _).mp hfrom
      exact ⟨fun _ h => absurd h (Option.noConfusion), fun _ => Or.inr (Or.inl this),
        fun _ => rfl⟩
    | some fromOk =>
      have hnf : ¬ (truthy query.dateFrom = true ∧
          rt.parseDate (query.dateFrom.getD []) = none) := by
        intro h
        rw [(HistoryController.dateBound_eq_none rt _ _).mpr h] at hfrom
        exact absurd hfrom (by simp)
      cases hto : HistoryController.dateBound rt query.dateTo
          (fun created date => decide (created ≤ date)) with
      | none =>
        have := (HistoryController.dateBound_eq_none rt _ _).mp hto
        exact ⟨fun _ h => absurd h (Option.noConfusion), fun _ => Or.inr (Or.inr this),
          fun _ => rfl⟩
      | some toOk =>
        have hnt : ¬ (truthy query.dateTo = true ∧
            rt.parseDate (query.dateTo.getD []) = none) := by
          intro h
          rw [(HistoryController.dateBound_eq_none rt _ _).mpr h] at hto
          exact absurd hto (by simp)
        constructor
        · intro selects hsel doc
          have hx := HistoryController.textCondition_spec rt _ textOk htext doc
          have hf := HistoryController.dateBound_spec rt _ _ fromOk hfrom doc
          have ht := HistoryController.dateBound_spec rt _ _ toOk hto doc
          simp only [decide_eq_true_eq] at hf ht
          simp only [Option.some.injEq] at hsel
          rw [← hsel]
          simp only [Bool.and_eq_true, beq_iff_eq, hstyle, hf, ht, hx, and_assoc]
        · constructor
          · intro h
            exact absurd h (Option.some_ne_none _)
          · intro h
            rcases h with h | h | h
            · exact absurd h hnq
            · exact absurd h hnf
            · exact absurd h hnt

/-- A search for the style `custom` with the text `generated`, from time 0. -/
def customQuery : SearchQuery :=
  { q := some "GENERATED".toList, style := some "custom".toList, language := none,
    dateFrom := some "0".toList, dateTo := none, page := none, limit := none }

/-- Witness of C20 (amended): the stored summary is selected by a search for
its style and a word of its generated summary. -/
theorem C20_search_filter_witness :
    ∃ selects,
      HistoryController.searchFilter sampleRuntime "user-1".toList customQuery = some selects ∧
      selects storedSummary = true :=
  ⟨_, rfl,
    ((C20_search_filter sampleRuntime "user-1".toList customQuery).1 _ rfl storedSummary).mpr
      ⟨rfl, Or.inr ⟨_, rfl, Or.inr (Or.inl (by decide))⟩, Or.inr rfl, Or.inl rfl,
        Or.inr ⟨0, by decide, by decide⟩, Or.inl rfl⟩⟩

/-! ## Uniqueness of object ids is an invariant of the store -/

theorem Store.map_id_update (store : Store) (doc : Summary) :
    (store.update doc).map (fun r => r.id) = store.map (fun r => r.id) := by
  induction store with
  | nil => rfl
  | cons a rest ih =>
    unfold Store.update
    by_cases ha : a.id = doc.id
    · rw [if_pos ha]
      simp [ha]
    · rw [if_neg ha]
      simp only [List.map_cons, ih]

/-- Writing back an existing document keeps the ids unique. -/
theorem Store.wellFormed_update (store : Store) (doc : Summary) (hw : store.WellFormed) :
    (store.update doc).WellFormed := by
  unfold Store.WellFormed at hw ⊢
  rw [Store.map_id_update]
  exact hw

/-- Inserting a document under the fresh id keeps the ids unique. -/
theorem Store.wellFormed_insert (store : Store) (doc : Summary) (hw : store.WellFormed)
    (hid : doc.id = store.freshId) : (store ++ [doc]).WellFormed := by
  unfold Store.WellFormed at hw ⊢
  rw [List.map_append, List.nodup_append]
  refine ⟨hw, by simp, ?_⟩
  intro a ha hb
  simp only [List.map_cons, List.map_nil, List.mem_singleton] at hb
  have hnone := Store.lookup_freshId store
  rw [Store.lookup_eq_none_iff, ← hid, ← hb] at hnone
  exact hnone ha

/-- The create, edit and delete handlers of the summarize controller keep the
ids of the store unique. -/
theorem wellFormed_preserved (env : Env) (store : Store) (hw : store.WellFormed) :
    (∀ req, (generateSummary env store req).store.WellFormed) ∧
    (∀ id edited, (updateSummary env store id edited).store.WellFormed) ∧
    (∀ id, (SummarizeController.deleteSummary env store id).store.WellFormed) := by
  refine ⟨fun req => ?_, fun id edited => ?_, fun id => ?_⟩
  · rcases passesValidation_cases req with hm | ⟨h1, h2, e, he⟩ | hp
    · rw [generateSummary_missing env store req hm]
      exact hw
    · rw [generateSummary_invalid env store req h1 h2 e he]
      exact hw
    · cases hr : ((aiCallOf req).run env).result with
      | error m =>
        rw [generateSummary_of_ai_error env store req m hp hr]
        exact hw
      | ok aiResult =>
        cases hs : saveNew env store (newDocument env store req aiResult) with
        | error m =>
          rw [generateSummary_of_save_error env store req aiResult m hp hr hs]
          exact hw
        | ok saved =>
          obtain ⟨store', summary⟩ := saved
          rw [generateSummary_valid env store req hp]
          simp only [hr, hs]
          unfold saveNew at hs
          split at hs
          · exact absurd hs (by simp)
          · simp only [Except.ok.injEq, Prod.mk.injEq] at hs
            rw [← hs.1]
            refine Store.wellFormed_insert store _ hw ?_
            unfold preSave
            split <;> rfl
  · unfold updateSummary
    split
    · exact hw
    · split
      · exact hw
      · exact hw
      · split
        · exact hw
        · rename_i store' saved hs
          unfold saveExisting at hs
          split at hs
          · exact absurd hs (by simp)
          · simp only [Except.ok.injEq, Prod.mk.injEq] at hs
            show store'.WellFormed
            rw [← hs.1]
            exact Store.wellFormed_update store _ hw
  · unfold SummarizeController.deleteSummary
    split
    · exact hw
    · exact hw
    · exact Store.wellFormed_delete store _ hw

/-! ## C28: the count `s.split(/\s+/).length` -/

theorem countWordsFrom_of_all_ws (b : Bool) (s : List Char)
    (h : ∀ c ∈ s, isJsWhitespace c = true) : countWordsFrom b s = 0 := by
  induction s generalizing b with
  | nil => rfl
  | cons c s ih =>
    have hc := h c (List.mem_cons_self c s)
    simp only [countWordsFrom, hc, if_true]
    exact ih true (fun d hd => h d (List.mem_cons_of_mem c hd))

theorem startsWithWs_of_all_ws (s : List Char) (hne : s ≠ [])
    (h : ∀ c ∈ s, isJsWhitespace c = true) : startsWithWs s = true := by
  cases s with
  | nil => exact absurd rfl hne
  | cons c s => exact h c (List.mem_cons_self c s)

theorem endsWithWs_of_all_ws (s : List Char) (hne : s ≠ [])
    (h : ∀ c ∈ s, isJsWhitespace c = true) : endsWithWs s = true := by
  unfold endsWithWs
  apply startsWithWs_of_all_ws
  · intro hr
    exact hne (List.reverse_eq_nil_iff.mp hr)
  · intro c hc
    exact h c (List.mem_reverse.mp hc)

/-- C28: for every string the count `s.split(/\s+/).length`, used by
`validateTranscript` and by the pre-save middleware, is at least one; for a
non-empty string it is the number of maximal non-whitespace runs, plus one if
the string starts with whitespace, plus one if it ends with whitespace; it is
one for the empty string and two for a non-empty string of whitespace only;
and it equals the number of runs exactly when the string is non-empty and has
neither leading nor trailing whitespace. -/
theorem C28_split_count (s : JsString) :
    1 ≤ splitCount s ∧
    (s ≠ [] →
      splitCount s =
        countWords s + (if startsWithWs s then 1 else 0) + (if endsWithWs s then 1 else 0)) ∧
    (s = [] → splitCount s = 1) ∧
    (s ≠ [] → (∀ c ∈ s, isJsWhitespace c = true) → splitCount s = 2) ∧
    (splitCount s = countWords s ↔
      s ≠ [] ∧ startsWithWs s = false ∧ endsWithWs s = false) ∧
    (∀ counts, validateTranscript s = .ok counts → counts.wordCount = splitCount s) ∧
    (∀ doc : Summary, doc.transcript = s → s ≠ [] →
      (preSave doc).metadata.wordCount = some (splitCount s)) := by
  have hform : s ≠ [] →
      splitCount s =
        countWords s + (if startsWithWs s then 1 else 0) + (if endsWithWs s then 1 else 0) := by
    intro hne
    cases s with
    | nil => exact absurd rfl hne
    | cons c s => exact splitCount_cons c s
  refine ⟨?_, hform, ?_, ?_, ?_, ?_, ?_⟩
  · cases s with
    | nil => exact Nat.le_refl 1
    | cons c s =>
      unfold splitCount splitWs
      rw [splitWsGo_length]
      simp only [Bool.false_eq_true, if_false]
      omega
  · intro h
    rw [h]
    rfl
  · intro hne hall
    rw [hform hne, startsWithWs_of_all_ws s hne hall, endsWithWs_of_all_ws s hne hall]
    unfold countWords
    rw [countWordsFrom_of_all_ws true s hall]
    rfl
  · constructor
    · intro h
      by_cases hne : s = []
      · rw [hne] at h
        exact absurd h (by decide)
      · rw [hform hne] at h
        refine ⟨hne, ?_, ?_⟩
        · cases hs : startsWithWs s with
          | false => rfl
          | true =>
            rw [hs] at h
            simp only [if_true] at h
            split at h <;> omega
        · cases he : endsWithWs s with
          | false => rfl
          | true =>
            rw [he] at h
            simp only [if_true] at h
            split at h <;> omega
    · rintro ⟨hne, hs, he⟩
      rw [hform hne, hs, he]
      simp
  · intro counts h
    unfold validateTranscript at h
    simp only [] at h
    split at h
    · exact absurd h (by simp)
    · split at h
      · exact absurd h (by simp)
      · simp only [Except.ok.injEq] at h
        rw [← h]
  · intro doc hd hne
    rw [preSave_of_ne_nil doc (by rw [hd]; exact hne), hd]

/-- Witness of C28: a transcript with a leading and a trailing space, and a
transcript of two spaces. -/
theorem C28_split_count_witness :
    splitCount " a b ".toList = 2 + 1 + 1 ∧ splitCount "  ".toList = 2 := by
  have h1 := (C28_split_count " a b ".toList).2.1 (by decide)
  have h2 := (C28_split_count "  ".toList).2.2.2.1 (by decide) (by decide)
  exact ⟨by rw [h1]; decide, h2⟩

/-! ## C30: the next-page and previous-page flags -/

theorem lt_ceil_div_iff (total page limit : Nat) (hl : 1 ≤ limit) :
    page < (total + limit - 1) / limit ↔ page * limit < total := by
  have h := Nat.div_le_iff_le_mul_add_pred (show 0 < limit by omega)
    (a := total + limit - 1) (c := page)
  have hc : limit * page = page * limit := Nat.mul_comm _ _
  constructor
  · intro h1
    by_contra h2
    have : (total + limit - 1) / limit ≤ page := h.mpr (by omega)
    omega
  · intro h1
    by_contra h2
    have := h.mp (by omega)
    omega

/-- C30: for every total, page of at least one and limit of at least one,
the flag `hasNextPage`, computed as `page < ceil(total / limit)`, is true
exactly when `page * limit < total`, that is exactly when page `page + 1`
would return at least one item; and `hasPrevPage` is true exactly when
`skip = (page - 1) * limit` is positive. -/
theorem C30_next_and_previous_page (total page limit : Nat) (hp : 1 ≤ page)
    (hl : 1 ≤ limit) :
    ((HistoryController.paginationOf total page limit).hasNextPage = true ↔
      page * limit < total) ∧
    (page < ⌈(total : ℚ) / (limit : ℚ)⌉₊ ↔ page * limit < total) ∧
    (∀ sorted : List Summary, sorted.length = total →
      (HistoryController.pageOf sorted (page + 1) limit ≠ [] ↔ page * limit < total)) ∧
    ((HistoryController.paginationOf total page limit).hasPrevPage = true ↔
      0 < HistoryController.skipOf page limit) ∧
    HistoryController.skipOf page limit = (page - 1) * limit := by
  refine ⟨?_, ?_, ?_, ?_, rfl⟩
  · unfold HistoryController.paginationOf HistoryController.totalPagesOf
    rw [if_neg (by omega)]
    simp only [decide_eq_true_eq]
    exact lt_ceil_div_iff total page limit hl
  · rw [← ceil_div_eq total limit hl]
    exact lt_ceil_div_iff total page limit hl
  · intro sorted hlen
    rw [HistoryController.pageOf_pos sorted (page + 1) limit hl, Nat.add_sub_cancel]
    rw [← List.length_pos, List.length_take, List.length_drop, hlen]
    omega
  · unfold HistoryController.paginationOf HistoryController.skipOf
    simp only [decide_eq_true_eq, gt_iff_lt]
    constructor
    · intro h
      exact Nat.mul_pos (by omega) (by omega)
    · intro h
      by_contra h2
      have : page - 1 = 0 := by omega
      rw [this, Nat.zero_mul] at h
      exact absurd h (by decide)

/-- Witness of C30: 25 records with limit 10, pages 2 and 3. -/
theorem C30_next_and_previous_page_witness :
    (HistoryController.paginationOf 25 2 10).hasNextPage = true ∧
    ¬ (HistoryController.paginationOf 25 3 10).hasNextPage = true := by
  have h2 := (C30_next_and_previous_page 25 2 10 (by decide) (by decide)).1
  have h3 := (C30_next_and_previous_page 25 3 10 (by decide) (by decide)).1
  exact ⟨h2.mpr (by decide), fun h => absurd (h3.mp h) (by decide)⟩

/-! ## C25: the prompt of a style -/

/-- The value `stylePrompts[style] || stylePrompts.custom` that
`generateSummaryWithStyle` passes to `generateSummary` as its prompt: a text,
or the function or object inherited from `Object.prototype` under that key. -/
inductive PromptValue where
  | text (prompt : JsString)
  | inherited (key : JsString)
  deriving DecidableEq, Repr

/-- The lookup `stylePrompts[style] || stylePrompts.custom`. -/
def AIService.resolvePrompt (style customPrompt : JsString) : PromptValue :=
  if style ∈ AIService.objectPrototypeKeys then .inherited style
  else .text (AIService.stylePrompt style customPrompt)

/-- The prompt that the specification gives to a style: the fixed template
of a preset style, otherwise the custom prompt, or the generic default when
the custom prompt is empty. -/
def specifiedPrompt (style customPrompt : JsString) : JsString :=
  if style = "executive".toList then
    "Create an executive summary with key points, decisions made, and next steps. Focus on high-level insights and business impact.".toList
  else if style = "action-items".toList then
    "Extract all action items, assignments, and deadlines from the meeting. Organize by person responsible and priority.".toList
  else if style = "technical".toList then
    "Provide a technical summary focusing on technical discussions, specifications, architecture decisions, and implementation details.".toList
  else if customPrompt = [] then
    "Create a comprehensive summary of the meeting covering main topics, decisions, and key takeaways.".toList
  else customPrompt

/-- `generateSummaryWithStyle` in terms of the looked-up prompt. -/
theorem AIService.generateSummaryWithStyle_eq (env : Env) (transcript style customPrompt : JsString) :
    AIService.generateSummaryWithStyle env transcript style customPrompt =
      match AIService.resolvePrompt style customPrompt with
      | .text prompt => AIService.generateSummary env transcript prompt none
      | .inherited _ =>
        if transcript.isEmpty || jsLength (trim transcript) == 0 then
          { requests := [], result := .error "Transcript is required".toList }
        else
          { requests := [], result := .error "prompt.trim is not a function".toList } := by
  unfold AIService.generateSummaryWithStyle AIService.resolvePrompt
  split <;> rfl

/-- For every style that is not the name of an inherited property,
`generateSummaryWithStyle` calls `generateSummary` with the prompt of the
specification and no provider. -/
theorem AIService.generateSummaryWithStyle_of_own_key (env : Env)
    (transcript style customPrompt : JsString) (h : style ∉ AIService.objectPrototypeKeys) :
    AIService.resolvePrompt style customPrompt = .text (specifiedPrompt style customPrompt) ∧
    AIService.generateSummaryWithStyle env transcript style customPrompt =
      AIService.generateSummary env transcript (specifiedPrompt style customPrompt) none := by
  have hp : AIService.stylePrompt style customPrompt = specifiedPrompt style customPrompt := by
    unfold AIService.stylePrompt specifiedPrompt AIService.customStylePrompt
    cases customPrompt <;> rfl
  constructor
  · unfold AIService.resolvePrompt
    rw [if_neg h, hp]
  · unfold AIService.generateSummaryWithStyle
    rw [if_neg h, hp]

/-- C25 (code defect): for the unknown style `constructor` and the custom
prompt `Summarize`, the prompt handed to `generateSummary` is not the custom
prompt but the value inherited under that key, `generateSummary` throws
`prompt.trim is not a function` without any provider request, and the create
handler answers 500. -/
theorem C25_inherited_key_is_not_custom_prompt :
    "constructor".toList ∉ summaryStyles ∧
    specifiedPrompt "constructor".toList "Summarize".toList = "Summarize".toList ∧
    AIService.resolvePrompt "constructor".toList "Summarize".toList =
      .inherited "constructor".toList ∧
    (AIService.generateSummaryWithStyle (groqEnv "Summary.".toList) tenWords
      "constructor".toList "Summarize".toList).result =
      .error "prompt.trim is not a function".toList ∧
    (AIService.generateSummaryWithStyle (groqEnv "Summary.".toList) tenWords
      "constructor".toList "Summarize".toList).requests = [] ∧
    (generateSummary (groqEnv "Summary.".toList) []
      { plainRequest tenWords "Summarize".toList with
        style := some "constructor".toList }).response.status = 500 := by
  decide

/-! ## C26: the selection of the provider -/

/-- The outcome of the request to a provider whose key is configured. -/
theorem AIService.callProvider_groq (env : Env) (t p : JsString)
    (hk : truthy env.groqApiKey = true) :
    AIService.callProvider env t p "groq".toList =
      { requests := [{ provider := "groq".toList, transcript := t, prompt := p }]
        result :=
          match AIService.generateSummaryWithGroq env t p with
          | .error m => .error m
          | .ok summary =>
            .ok { summary := summary, processingTime := env.elapsed,
                  provider := "groq".toList } } := by
  unfold AIService.callProvider
  rw [if_pos rfl, if_neg (by rw [hk]; decide)]

theorem AIService.callProvider_openai (env : Env) (t p : JsString)
    (hk : truthy env.openaiApiKey = true) :
    AIService.callProvider env t p "openai".toList =
      { requests := [{ provider := "openai".toList, transcript := t, prompt := p }]
        result :=
          match AIService.generateSummaryWithOpenAI env t p with
          | .error m => .error m
          | .ok summary =>
            .ok { summary := summary, processingTime := env.elapsed,
                  provider := "openai".toList } } := by
  unfold AIService.callProvider
  rw [if_neg (by decide), if_pos rfl, if_neg (by rw [hk]; decide)]

/-- Past its two input checks, `generateSummary` is the selection of the
provider followed by the call of that provider. -/
theorem AIService.generateSummary_of_inputs (env : Env) (t p : JsString)
    (provider : Option JsString)
    (ht : (t.isEmpty || jsLength (trim t) == 0) = false)
    (hp : (p.isEmpty || jsLength (trim p) == 0) = false) :
    AIService.generateSummary env t p provider =
      match AIService.selectProvider env provider with
      | .error m => { requests := [], result := .error m }
      | .ok selectedProvider => AIService.callProvider env t p selectedProvider := by
  unfold AIService.generateSummary
  rw [if_neg (by rw [ht]; decide), if_neg (by rw [hp]; decide)]

/-- C26 (as stated, refuted): with the provider given explicitly as the empty
string, which is not one of `groq` and `openai`, `generateSummary` does not
fail: it falls back to the preferred provider, sends a request to Groq and
succeeds. -/
theorem C26_counterexample_empty_provider :
    (AIService.generateSummary (groqEnv "Summary.".toList) tenWords "Summarize".toList
      (some [])).requests =
      [{ provider := "groq".toList, transcript := tenWords,
         prompt := "Summarize".toList }] ∧
    (AIService.generateSummary (groqEnv "Summary.".toList) tenWords "Summarize".toList
      (some [])).result =
      .ok { summary := "Summary.".toList, processingTime := 850,
            provider := "groq".toList } := by
  decide

/-- C26 (amended): for every configuration of API keys and every transcript
and prompt that are not blank: with the provider omitted or empty,
`generateSummary` sends its one request to Groq when the Groq key is set, to
OpenAI when only the OpenAI key is set, and fails with `No AI API key
configured`, without any request, when neither is set; with a non-empty
provider it sends its one request to that provider when it is `groq` or
`openai` and its key is set, and fails without any request when that key is
not set or the provider is another name; on success the returned provider is
the selected one. -/
theorem C26_provider_selection (env : Env) (t p : JsString) (provider : Option JsString)
    (ht : (t.isEmpty || jsLength (trim t) == 0) = false)
    (hp : (p.isEmpty || jsLength (trim p) == 0) = false) :
    (truthy provider = false →
      (truthy env.groqApiKey = true →
        AIService.generateSummary env t p provider =
          AIService.callProvider env t p "groq".toList) ∧
      (truthy env.groqApiKey = false → truthy env.openaiApiKey = true →
        AIService.generateSummary env t p provider =
          AIService.callProvider env t p "openai".toList) ∧
      (truthy env.groqApiKey = false → truthy env.openaiApiKey = false →
        (AIService.generateSummary env t p provider).requests = [] ∧
        (AIService.generateSummary env t p provider).result =
          .error "No AI API key configured".toList)) ∧
    (∀ name, provider = some name → name ≠ [] →
      AIService.generateSummary env t p provider = AIService.callProvider env t p name) ∧
    (∀ name,
      (name = "groq".toList → truthy env.groqApiKey = true →
        (AIService.callProvider env t p name).requests =
          [{ provider := name, transcript := t, prompt := p }]) ∧
      (name = "openai".toList → truthy env.openaiApiKey = true →
        (AIService.callProvider env t p name).requests =
          [{ provider := name, transcript := t, prompt := p }]) ∧
      (name = "groq".toList → truthy env.groqApiKey = false →
        (AIService.callProvider env t p name).requests = [] ∧
        (AIService.callProvider env t p name).result =
          .error "Groq API key not configured".toList) ∧
      (name = "openai".toList → truthy env.openaiApiKey = false →
        (AIService.callProvider env t p name).requests = [] ∧
        (AIService.callProvider env t p name).result =
          .error "OpenAI API key not configured".toList) ∧
      (name ≠ "groq".toList → name ≠ "openai".toList →
        (AIService.callProvider env t p name).requests = [] ∧
        (AIService.callProvider env t p name).result =
          .error ("Unsupported AI provider: ".toList ++ name)) ∧
      (∀ r, (AIService.callProvider env t p name).result = .ok r → r.provider = name)) := by
  have hgen := AIService.generateSummary_of_inputs env t p provider ht hp
  refine ⟨fun hprov => ⟨fun hg => ?_, fun hg ho => ?_, fun hg ho => ?_⟩,
    fun name hn hne => ?_, fun name => ⟨?_, ?_, ?_, ?_, ?_, ?_⟩⟩
  · rw [hgen]
    unfold AIService.selectProvider AIService.getPreferredProvider
    rw [if_neg (by rw [hprov]; decide), if_pos hg]
  · rw [hgen]
    unfold AIService.selectProvider AIService.getPreferredProvider
    rw [if_neg (by rw [hprov]; decide), if_neg (by rw [hg]; decide), if_pos ho]
  · rw [hgen]
    unfold AIService.selectProvider AIService.getPreferredProvider
    rw [if_neg (by rw [hprov]; decide), if_neg (by rw [hg]; decide),
      if_neg (by rw [ho]; decide)]
    exact ⟨rfl, rfl⟩
  · rw [hgen]
    unfold AIService.selectProvider
    have htr : truthy provider = true := by
      rw [hn]
      cases name with
      | nil => exact absurd rfl hne
      | cons c name => rfl
    rw [if_pos htr, hn]
    rfl
  · intro hn hk
    rw [hn, AIService.callProvider_groq env t p hk]
  · intro hn hk
    rw [hn, AIService.callProvider_openai env t p hk]
  · intro hn hk
    rw [hn]
    unfold AIService.callProvider
    rw [if_pos rfl, if_pos (by rw [hk]; rfl)]
    exact ⟨rfl, rfl⟩
  · intro hn hk
    rw [hn]
    unfold AIService.callProvider
    rw [if_neg (by decide), if_pos rfl, if_pos (by rw [hk]; rfl)]
    exact ⟨rfl, rfl⟩
  · intro h1 h2
    unfold AIService.callProvider
    rw [if_neg h1, if_neg h2]
    exact ⟨rfl, rfl⟩
  · intro r hr
    unfold AIService.callProvider at hr
    split at hr
    · split at hr
      · exact absurd hr (by simp)
      · simp only at hr
        split at hr
        · exact absurd hr (by simp)
        · simp only [Except.ok.injEq] at hr
          rw [← hr]
    · split at hr
      · split at hr
        · exact absurd hr (by simp)
        · simp only at hr
          split at hr
          · exact absurd hr (by simp)
          · simp only [Except.ok.injEq] at hr
            rw [← hr]
      · exact absurd hr (by simp)

/-- Witness of C26 (amended): no provider named and only the Groq key set. -/
theorem C26_provider_selection_witness :
    AIService.generateSummary (groqEnv "Summary.".toList) tenWords "Summarize".toList none =
      AIService.callProvider (groqEnv "Summary.".toList) tenWords "Summarize".toList
        "groq".toList :=
  ((C26_provider_selection (groqEnv "Summary.".toList) tenWords "Summarize".toList none
    (by decide) (by decide)).1 (by decide)).1 (by decide)

/-! ## C29: preset styles ignore the prompt and the provider of the request -/

/-- The three preset styles. -/
def presetStyles : List JsString :=
  ["executive".toList, "action-items".toList, "technical".toList]

theorem AIService.stylePrompt_preset (style a b : JsString) (h : style ∈ presetStyles) :
    AIService.stylePrompt style a = AIService.stylePrompt style b := by
  unfold AIService.stylePrompt
  simp only [presetStyles, List.mem_cons, List.mem_singleton, List.mem_nil_iff, or_false] at h
  rcases h with h | h | h <;> rw [h] <;> rfl

theorem presetStyles_not_inherited (style : JsString) (h : style ∈ presetStyles) :
    style ∉ AIService.objectPrototypeKeys ∧ style ≠ "custom".toList := by
  simp only [presetStyles, List.mem_cons, List.mem_singleton, List.mem_nil_iff, or_false] at h
  rcases h with h | h | h <;> rw [h] <;> decide

/-- Every provider request of `callProvider` goes to the selected provider
with the given transcript and prompt. -/
theorem AIService.callProvider_requests (env : Env) (t p name : JsString) :
    ∀ r ∈ (AIService.callProvider env t p name).requests,
      r = { provider := name, transcript := t, prompt := p } := by
  intro r hr
  unfold AIService.callProvider at hr
  split at hr
  · split at hr
    · simp at hr
    · simpa using hr
  · split at hr
    · split at hr
      · simp at hr
      · simpa using hr
    · simp at hr

/-- Every provider request of `generateSummary` carries its transcript and
prompt and goes to the provider selected from its `provider` argument. -/
theorem AIService.generateSummary_requests (env : Env) (t p : JsString)
    (provider : Option JsString) :
    ∀ r ∈ (AIService.generateSummary env t p provider).requests,
      r.transcript = t ∧ r.prompt = p ∧
      AIService.selectProvider env provider = .ok r.provider := by
  intro r hr
  unfold AIService.generateSummary at hr
  split at hr
  · simp at hr
  · split at hr
    · simp at hr
    · split at hr
      · simp at hr
      · rename_i name hsel
        have := AIService.callProvider_requests env t p name r hr
        rw [this]
        exact ⟨rfl, rfl, hsel⟩

/-- A 200 response of the create handler comes with exactly one appended
document, which carries the transcript and the prompt of the request. -/
theorem generateSummary_200_appends (env : Env) (store : Store) (req : CreateRequest)
    (h : (generateSummary env store req).response.status = 200) :
    ∃ doc : Summary,
      (generateSummary env store req).store = store ++ [doc] ∧
      doc.prompt = req.prompt.getD [] ∧ doc.transcript = req.transcript.getD [] := by
  rcases passesValidation_cases req with hm | ⟨h1, h2, e, he⟩ | hp
  · rw [generateSummary_missing env store req hm] at h
    exact absurd h (by simp)
  · rw [generateSummary_invalid env store req h1 h2 e he] at h
    exact absurd h (by simp)
  · cases hr : ((aiCallOf req).run env).result with
    | error m =>
      rw [generateSummary_of_ai_error env store req m hp hr] at h
      rcases generateSummaryCatch_status m with hs | hs <;> rw [hs] at h <;>
        exact absurd h (by decide)
    | ok aiResult =>
      cases hs : saveNew env store (newDocument env store req aiResult) with
      | error m =>
        rw [generateSummary_of_save_error env store req aiResult m hp hr hs] at h
        rcases generateSummaryCatch_status m with hc | hc <;> rw [hc] at h <;>
          exact absurd h (by decide)
      | ok saved =>
        obtain ⟨store', summary⟩ := saved
        have key : (generateSummary env store req).store = store' := by
          rw [generateSummary_valid env store req hp]
          simp only [hr, hs]
        rw [key]
        unfold saveNew at hs
        split at hs
        · exact absurd hs (by simp)
        · simp only [Except.ok.injEq, Prod.mk.injEq] at hs
          refine ⟨_, hs.1.symm, ?_, ?_⟩
          · unfold preSave
            split <;> rfl
          · unfold preSave
            split <;> rfl

/-- C29: in create, for a preset style (executive, action-items, technical),
two requests that pass validation and differ only in prompt and provider make
the AI client do the same thing: the same provider requests, each carrying
the transcript and the fixed template of the style to the preferred
configured provider, and the same result; and whenever a record is persisted
it stores the prompt of its own request. -/
theorem C29_preset_style_ignores_prompt_and_provider (env : Env) (store : Store)
    (req1 req2 : CreateRequest) (hs : styleOf req1 ∈ presetStyles)
    (hstyle : req2.style = req1.style) (htr : req2.transcript = req1.transcript)
    (hv1 : passesValidation req1 = true) (hv2 : passesValidation req2 = true) :
    ((aiCallOf req1).run env).requests = ((aiCallOf req2).run env).requests ∧
    ((aiCallOf req1).run env).result = ((aiCallOf req2).run env).result ∧
    (generateSummary env store req1).providerRequests =
      (generateSummary env store req2).providerRequests ∧
    (∀ r ∈ ((aiCallOf req1).run env).requests,
      r.transcript = req1.transcript.getD [] ∧
      r.prompt = specifiedPrompt (styleOf req1) [] ∧
      AIService.getPreferredProvider env = .ok r.provider) ∧
    ((generateSummary env store req1).response.status = 200 →
      ∃ doc, (generateSummary env store req1).store = store ++ [doc] ∧
        doc.prompt = req1.prompt.getD []) ∧
    ((generateSummary env store req2).response.status = 200 →
      ∃ doc, (generateSummary env store req2).store = store ++ [doc] ∧
        doc.prompt = req2.prompt.getD []) := by
  obtain ⟨hni, hnc⟩ := presetStyles_not_inherited (styleOf req1) hs
  have hs2 : styleOf req2 = styleOf req1 := by
    unfold styleOf
    rw [hstyle]
  have hrun : ∀ req : CreateRequest, styleOf req = styleOf req1 →
      req.transcript = req1.transcript →
      (aiCallOf req).run env =
        AIService.generateSummary env (req1.transcript.getD [])
          (specifiedPrompt (styleOf req1) []) none := by
    intro req hst htq
    unfold aiCallOf
    rw [hst, if_pos hnc, htq]
    show AIService.generateSummaryWithStyle env _ _ _ = _
    rw [(AIService.generateSummaryWithStyle_of_own_key env _ _ _ hni).2]
    have hp := (AIService.generateSummaryWithStyle_of_own_key env [] (styleOf req1)
      (req.prompt.getD []) hni).1
    have hp0 := (AIService.generateSummaryWithStyle_of_own_key env [] (styleOf req1)
      [] hni).1
    unfold AIService.resolvePrompt at hp hp0
    rw [if_neg hni] at hp hp0
    simp only [PromptValue.text.injEq] at hp hp0
    rw [← hp, ← hp0, AIService.stylePrompt_preset (styleOf req1) (req.prompt.getD []) [] hs]
  have h1 := hrun req1 rfl rfl
  have h2 := hrun req2 hs2 htr
  refine ⟨by rw [h1, h2], by rw [h1, h2], ?_, ?_, ?_, ?_⟩
  · have e1 : (generateSummary env store req1).providerRequests =
        ((aiCallOf req1).run env).requests := by
      rw [generateSummary_valid env store req1 hv1]
      split
      · rfl
      · split <;> rfl
    have e2 : (generateSummary env store req2).providerRequests =
        ((aiCallOf req2).run env).requests := by
      rw [generateSummary_valid env store req2 hv2]
      split
      · rfl
      · split <;> rfl
    rw [e1, e2, h1, h2]
  · intro r hr
    rw [h1] at hr
    have := AIService.generateSummary_requests env _ _ none r hr
    refine ⟨this.1, this.2.1, ?_⟩
    have hsel := this.2.2
    unfold AIService.selectProvider at hsel
    rw [if_neg (by decide)] at hsel
    exact hsel
  · intro h
    obtain ⟨doc, hd1, hd2, _⟩ := generateSummary_200_appends env store req1 h
    exact ⟨doc, hd1, hd2⟩
  · intro h
    obtain ⟨doc, hd1, hd2, _⟩ := generateSummary_200_appends env store req2 h
    exact ⟨doc, hd1, hd2⟩

/-- An executive-style request with the given prompt and provider. -/
def executiveRequest (prompt : JsString) (provider : Option JsString) : CreateRequest :=
  { plainRequest tenWords prompt with style := some "executive".toList, provider := provider }

/-- Witness of C29: two executive-style requests with different prompts and
providers send the same provider requests. -/
theorem C29_preset_style_ignores_prompt_and_provider_witness :
    (generateSummary (groqEnv "Summary.".toList) []
      (executiveRequest "List the decisions".toList none)).providerRequests =
    (generateSummary (groqEnv "Summary.".toList) []
      (executiveRequest "Ignore this".toList (some "openai".toList))).providerRequests :=
  (C29_preset_style_ignores_prompt_and_provider (groqEnv "Summary.".toList) []
    (executiveRequest "List the decisions".toList none)
    (executiveRequest "Ignore this".toList (some "openai".toList))
    (by decide) rfl rfl (by decide) (by decide)).2.2.1

/-! ## The update handler of the history controller -/

/-- The body of `PUT /summary/:id`: each field may be absent. -/
structure UpdateBody where
  editedSummary : Option JsString
  prompt : Option JsString
  summaryStyle : Option JsString
  language : Option JsString
  deriving DecidableEq, Repr

namespace HistoryController

/-- The four assignments `if (field !== undefined) summary.field = field`. -/
def assignFields (summary : Summary) (body : UpdateBody) : Summary :=
  { summary with
    editedSummary :=
      match body.editedSummary with
      | some value => some value
      | none => summary.editedSummary
    prompt := body.prompt.getD summary.prompt
    summaryStyle := body.summaryStyle.getD summary.summaryStyle
    language := body.language.getD summary.language }

/-- The validated paths that the assignments changed. -/
def modifiedPaths (old new : Summary) : List SchemaPath :=
  (if new.editedSummary = old.editedSummary then [] else [.editedSummary]) ++
  (if new.prompt = old.prompt then [] else [.prompt]) ++
  (if new.summaryStyle = old.summaryStyle then [] else [.summaryStyle])

/-- `updateSummary` of the history controller (`PUT /summary/:id`). -/
def updateSummary (env : Env) (store : Store) (id : JsString) (body : UpdateBody) : Outcome :=
  match SummarizeController.findById env store id with
  | .error _ =>
    { response :=
        { status := 500,
          body := .error "Internal Server Error".toList "Failed to update summary".toList }
      store := store, aiCalls := [], providerRequests := [] }
  | .ok none =>
    { response :=
        { status := 404,
          body := .error "Summary not found".toList
                    "Summary with the provided ID does not exist".toList }
      store := store, aiCalls := [], providerRequests := [] }
  | .ok (some summary) =>
    match saveExisting env store summary (assignFields summary body)
            (modifiedPaths summary (assignFields summary body)) with
    | .error _ =>
      { response :=
          { status := 500,
            body := .error "Internal Server Error".toList "Failed to update summary".toList }
        store := store, aiCalls := [], providerRequests := [] }
    | .ok (store', saved) =>
      { response :=
          { status := 200,
            body := .updatedFields saved.id saved.editedSummary saved.prompt
                      saved.summaryStyle saved.language saved.updatedAt }
        store := store', aiCalls := [], providerRequests := [] }

end HistoryController

/-- What the save of the history update writes. -/
def updatedDocument (env : Env) (old : Summary) (body : UpdateBody) : Summary :=
  touch env old (preSave (HistoryController.assignFields old body))

theorem updatedDocument_fields (env : Env) (old : Summary) (body : UpdateBody) :
    (updatedDocument env old body).id = old.id ∧
    (updatedDocument env old body).editedSummary =
      (match body.editedSummary with
       | some value => some value
       | none => old.editedSummary) ∧
    (updatedDocument env old body).prompt = body.prompt.getD old.prompt ∧
    (updatedDocument env old body).summaryStyle = body.summaryStyle.getD old.summaryStyle ∧
    (updatedDocument env old body).language = body.language.getD old.language ∧
    (updatedDocument env old body).userId = old.userId ∧
    (updatedDocument env old body).transcript = old.transcript ∧
    (updatedDocument env old body).generatedSummary = old.generatedSummary ∧
    (updatedDocument env old body).emailLogs = old.emailLogs := by
  unfold updatedDocument touch preSave HistoryController.assignFields
  split <;> split <;> simp

/-- The history update of a stored document: the document is written back
when the changed fields pass their validators, and the store is left as it is
otherwise. -/
theorem HistoryController.updateSummary_stored (env : Env) (store : Store) (id : JsString)
    (body : UpdateBody) (oid : Nat) (old : Summary)
    (hc : env.castObjectId id = some oid) (hl : store.lookup oid = some old) :
    (invalidPaths (HistoryController.assignFields old body)
        (HistoryController.modifiedPaths old (HistoryController.assignFields old body)) = [] →
      HistoryController.updateSummary env store id body =
        { response :=
            { status := 200,
              body := .updatedFields (updatedDocument env old body).id
                (updatedDocument env old body).editedSummary
                (updatedDocument env old body).prompt
                (updatedDocument env old body).summaryStyle
                (updatedDocument env old body).language
                (updatedDocument env old body).updatedAt }
          store := store.update (updatedDocument env old body)
          aiCalls := [], providerRequests := [] }) ∧
    (invalidPaths (HistoryController.assignFields old body)
        (HistoryController.modifiedPaths old (HistoryController.assignFields old body)) ≠ [] →
      HistoryController.updateSummary env store id body =
        { response :=
            { status := 500,
              body := .error "Internal Server Error".toList
                        "Failed to update summary".toList }
          store := store, aiCalls := [], providerRequests := [] }) := by
  constructor
  · intro hv
    unfold HistoryController.updateSummary findById saveExisting
    simp only [hc, hl, hv]
    rfl
  · intro hv
    unfold HistoryController.updateSummary findById saveExisting
    simp only [hc, hl]
    cases hi : invalidPaths (HistoryController.assignFields old body)
        (HistoryController.modifiedPaths old (HistoryController.assignFields old body)) with
    | nil => exact absurd hi hv
    | cons q qs => rfl

/-! ## C23: the partial update of the history controller -/

/-- An update body that only sets the style. -/
def styleBody (style : JsString) : UpdateBody :=
  { editedSummary := none, prompt := none, summaryStyle := some style, language := none }

/-- C23 (as stated, refuted): the update body that sets the style to
`bullets`, a value outside the enumeration of the schema, does not change the
style of the stored record: `save()` throws, the handler answers 500 and the
store is unchanged. -/
theorem C23_counterexample_invalid_style :
    (HistoryController.updateSummary offlineEnv [storedSummary] "7".toList
      (styleBody "bullets".toList)).response.status = 500 ∧
    (HistoryController.updateSummary offlineEnv [storedSummary] "7".toList
      (styleBody "bullets".toList)).store = [storedSummary] ∧
    storedSummary.summaryStyle ≠ "bullets".toList := by
  decide

/-- The provided values of an update body pass the validators of the schema:
an edited summary of at most 10,000 characters, a non-empty prompt of at most
1,000 characters, a style of the enumeration. -/
def UpdateBody.Valid (body : UpdateBody) : Prop :=
  (∀ value, body.editedSummary = some value → jsLength value ≤ 10000) ∧
  (∀ value, body.prompt = some value → value ≠ [] ∧ jsLength value ≤ 1000) ∧
  (∀ value, body.summaryStyle = some value → value ∈ summaryStyles)

theorem HistoryController.valid_body_passes (old : Summary) (body : UpdateBody)
    (hv : body.Valid) :
    invalidPaths (HistoryController.assignFields old body)
      (HistoryController.modifiedPaths old (HistoryController.assignFields old body)) = [] := by
  obtain ⟨he, hp, hs⟩ := hv
  rw [invalidPaths_eq_nil_iff]
  intro path hmem
  unfold HistoryController.modifiedPaths at hmem
  simp only [List.mem_append] at hmem
  rcases hmem with (hmem | hmem) | hmem
  · split at hmem
    · simp at hmem
    · rename_i hne
      simp only [List.mem_singleton] at hmem
      rw [hmem]
      cases hb : body.editedSummary with
      | none => simp [HistoryController.assignFields, hb] at hne
      | some value =>
        have := he value hb
        simp [pathValid, HistoryController.assignFields, hb, this]
  · split at hmem
    · simp at hmem
    · rename_i hne
      simp only [List.mem_singleton] at hmem
      rw [hmem]
      cases hb : body.prompt with
      | none => simp [HistoryController.assignFields, hb] at hne
      | some value =>
        have := hp value hb
        simp [pathValid, HistoryController.assignFields, hb, this.1, this.2]
  · split at hmem
    · simp at hmem
    · rename_i hne
      simp only [List.mem_singleton] at hmem
      rw [hmem]
      cases hb : body.summaryStyle with
      | none => simp [HistoryController.assignFields, hb] at hne
      | some value =>
        have := hs value hb
        simp [pathValid, HistoryController.assignFields, hb, this]

/-- C23 (amended): for every stored record id and every update body whose
provided values pass the validators of the schema, the history update answers
200 and changes only the provided fields: each of `editedSummary`, `prompt`,
`summaryStyle` and `language` takes the value of the body when the key is
provided and keeps its previous value when it is not, while `userId`,
`transcript`, `generatedSummary` and `emailLogs` keep their values and no
other record is touched.  Whenever the answer is not 200 (a provided value
fails a validator, the id is not stored, or the id cannot be cast) the store
is unchanged; an id that casts to an object id absent from the store is
answered 404 and an id that cannot be cast 500. -/
theorem C23_history_update_changes_only_provided_fields (env : Env) (store : Store)
    (id : JsString) (body : UpdateBody) :
    (∀ oid old, env.castObjectId id = some oid → store.lookup oid = some old → body.Valid →
      (HistoryController.updateSummary env store id body).response.status = 200 ∧
      ∃ new,
        (HistoryController.updateSummary env store id body).store.lookup oid = some new ∧
        new.editedSummary =
          (match body.editedSummary with
           | some value => some value
           | none => old.editedSummary) ∧
        new.prompt = body.prompt.getD old.prompt ∧
        new.summaryStyle = body.summaryStyle.getD old.summaryStyle ∧
        new.language = body.language.getD old.language ∧
        new.userId = old.userId ∧
        new.transcript = old.transcript ∧
        new.generatedSummary = old.generatedSummary ∧
        new.emailLogs = old.emailLogs ∧
        (∀ other, other ≠ oid →
          (HistoryController.updateSummary env store id body).store.lookup other =
            store.lookup other) ∧
        (HistoryController.updateSummary env store id body).store.length = store.length) ∧
    ((HistoryController.updateSummary env store id body).response.status ≠ 200 →
      (HistoryController.updateSummary env store id body).store = store) ∧
    (∀ oid, env.castObjectId id = some oid → store.lookup oid = none →
      (HistoryController.updateSummary env store id body).response.status = 404 ∧
      (HistoryController.updateSummary env store id body).store = store) ∧
    (env.castObjectId id = none →
      (HistoryController.updateSummary env store id body).response.status = 500 ∧
      (HistoryController.updateSummary env store id body).store = store) := by
  refine ⟨?_, ?_, ?_, ?_⟩
  · intro oid old hc hl hv
    have key := (HistoryController.updateSummary_stored env store id body oid old hc hl).1
      (HistoryController.valid_body_passes old body hv)
    have hf := updatedDocument_fields env old body
    have hid : (updatedDocument env old body).id = oid := by
      rw [hf.1]
      exact Store.lookup_id store oid old hl
    rw [key]
    refine ⟨rfl, updatedDocument env old body, ?_, hf.2.1, hf.2.2.1, hf.2.2.2.1, hf.2.2.2.2.1,
      hf.2.2.2.2.2.1, hf.2.2.2.2.2.2.1, hf.2.2.2.2.2.2.2.1, hf.2.2.2.2.2.2.2.2, ?_,
      Store.length_update store _⟩
    · have := Store.lookup_update_self store (updatedDocument env old body) old
        (by rw [hid]; exact hl)
      rw [hid] at this
      exact this
    · intro other ho
      exact Store.lookup_update_other store _ other (by rw [hid]; exact ho)
  · intro hne
    cases hc : env.castObjectId id with
    | none =>
      unfold HistoryController.updateSummary findById
      simp only [hc]
    | some oid =>
      cases hl : store.lookup oid with
      | none =>
        unfold HistoryController.updateSummary findById
        simp only [hc, hl]
      | some old =>
        have hs := HistoryController.updateSummary_stored env store id body oid old hc hl
        by_cases hv : invalidPaths (HistoryController.assignFields old body)
            (HistoryController.modifiedPaths old (HistoryController.assignFields old body)) = []
        · rw [hs.1 hv] at hne
          exact absurd rfl hne
        · rw [hs.2 hv]
  · intro oid hc hl
    have key : HistoryController.updateSummary env store id body =
        { response :=
            { status := 404,
              body := .error "Summary not found".toList
                        "Summary with the provided ID does not exist".toList }
          store := store, aiCalls := [], providerRequests := [] } := by
      unfold HistoryController.updateSummary findById
      simp only [hc, hl]
    rw [key]
    exact ⟨rfl, rfl⟩
  · intro hc
    have key : HistoryController.updateSummary env store id body =
        { response :=
            { status := 500,
              body := .error "Internal Server Error".toList
                        "Failed to update summary".toList }
          store := store, aiCalls := [], providerRequests := [] } := by
      unfold HistoryController.updateSummary findById
      simp only [hc]
    rw [key]
    exact ⟨rfl, rfl⟩

theorem styleBody_valid (style : JsString) (h : style ∈ summaryStyles) :
    (styleBody style).Valid := by
  refine ⟨fun _ hb => (by cases hb), fun _ hb => (by cases hb), fun value hb => ?_⟩
  simp only [styleBody, Option.some.injEq] at hb
  rw [← hb]
  exact h

/-- Witness of C23 (amended): setting the style of the stored summary 7 to
`technical`. -/
theorem C23_history_update_changes_only_provided_fields_witness :
    (HistoryController.updateSummary offlineEnv [storedSummary] "7".toList
      (styleBody "technical".toList)).response.status = 200 ∧
    ∃ new,
      (HistoryController.updateSummary offlineEnv [storedSummary] "7".toList
        (styleBody "technical".toList)).store.lookup 7 = some new ∧
      new.summaryStyle = "technical".toList ∧ new.prompt = "Summarize".toList := by
  obtain ⟨h1, new, h2, _, h3, h4, _⟩ :=
    (C23_history_update_changes_only_provided_fields offlineEnv [storedSummary] "7".toList
      (styleBody "technical".toList)).1 7 storedSummary (by decide) (by decide)
      (styleBody_valid "technical".toList (by decide))
  exact ⟨h1, new, h2, h4, h3⟩

/-! ## C24: `emailLogs` only grows -/

/-- Every document of the store `before` is still stored in `after`, under
the same id, with email logs that extend its former email logs. -/
def LogsPreserved (before after : Store) : Prop :=
  ∀ oid old, before.lookup oid = some old →
    ∃ new, after.lookup oid = some new ∧ old.emailLogs <+: new.emailLogs

theorem logsPreserved_refl (store : Store) : LogsPreserved store store :=
  fun _ old h => ⟨old, h, List.prefix_refl _⟩

theorem logsPreserved_trans {a b c : Store} (h1 : LogsPreserved a b)
    (h2 : LogsPreserved b c) : LogsPreserved a c := by
  intro oid old h
  obtain ⟨mid, hm, hp⟩ := h1 oid old h
  obtain ⟨new, hn, hq⟩ := h2 oid mid hm
  exact ⟨new, hn, hp.trans hq⟩

/-- Writing back a document whose email logs extend those of the stored
document preserves the logs of the store. -/
theorem logsPreserved_update (store : Store) (stored doc : Summary)
    (hl : store.lookup doc.id = some stored) (hp : stored.emailLogs <+: doc.emailLogs) :
    LogsPreserved store (store.update doc) := by
  intro oid old h
  by_cases ho : oid = doc.id
  · rw [ho] at h ⊢
    rw [hl] at h
    simp only [Option.some.injEq] at h
    rw [← h]
    exact ⟨doc, Store.lookup_update_self store doc stored hl, hp⟩
  · exact ⟨old, by rw [Store.lookup_update_other store doc oid ho]; exact h,
      List.prefix_refl _⟩

theorem touch_preSave_fields (env : Env) (old doc : Summary) :
    (touch env old (preSave doc)).id = doc.id ∧
    (touch env old (preSave doc)).emailLogs = doc.emailLogs := by
  unfold touch preSave
  split <;> split <;> simp

/-- A successful `save()` of a loaded document whose email logs were only
extended preserves the logs of the store. -/
theorem logsPreserved_saveExisting (env : Env) (store : Store) (old doc : Summary)
    (modified : List SchemaPath) (store' : Store) (saved : Summary)
    (hl : store.lookup old.id = some old) (hid : doc.id = old.id)
    (hp : old.emailLogs <+: doc.emailLogs)
    (hs : saveExisting env store old doc modified = .ok (store', saved)) :
    LogsPreserved store store' := by
  unfold saveExisting at hs
  split at hs
  · exact absurd hs (by simp)
  · simp only [Except.ok.injEq, Prod.mk.injEq] at hs
    rw [← hs.1]
    have hf := touch_preSave_fields env old doc
    exact logsPreserved_update store old _ (by rw [hf.1, hid]; exact hl) (by rw [hf.2]; exact hp)

theorem logsPreserved_addEmailLog (env : Env) (store : Store) (doc : Summary)
    (recipients : List JsString) (subject status : JsString) (store' : Store)
    (saved : Summary) (hl : store.lookup doc.id = some doc)
    (hs : addEmailLog env store doc recipients subject status = .ok (store', saved)) :
    LogsPreserved store store' ∧ store'.lookup saved.id = some saved ∧
      saved.id = doc.id ∧ doc.emailLogs <+: saved.emailLogs := by
  unfold addEmailLog at hs
  split at hs
  · refine ⟨logsPreserved_saveExisting env store doc
      { doc with
        emailLogs := doc.emailLogs ++
          [{ recipients := recipients, subject := subject, sentAt := env.now,
             status := status }] }
      [] store' saved hl rfl (List.prefix_append _ _) hs, ?_⟩
    unfold saveExisting at hs
    split at hs
    · exact absurd hs (by simp)
    · simp only [Except.ok.injEq, Prod.mk.injEq] at hs
      have hf := touch_preSave_fields env doc
        { doc with
          emailLogs := doc.emailLogs ++
            [{ recipients := recipients, subject := subject, sentAt := env.now,
               status := status }] }
      rw [← hs.1, ← hs.2]
      refine ⟨Store.lookup_update_self store _ doc (by rw [hf.1]; exact hl), hf.1, ?_⟩
      rw [hf.2]
      exact List.prefix_append _ _
  · exact absurd hs (by simp)

theorem logsPreserved_addBulkLogs (env : Env) (subject : JsString)
    (results : List BulkResult) (store : Store) (doc : Summary)
    (hl : store.lookup doc.id = some doc) :
    (∀ store', EmailController.addBulkLogs env subject store doc results = .ok store' →
      LogsPreserved store store') ∧
    (∀ store' m, EmailController.addBulkLogs env subject store doc results = .error (store', m) →
      LogsPreserved store store') := by
  induction results generalizing store doc with
  | nil =>
    constructor
    · intro store' h
      simp only [EmailController.addBulkLogs, Except.ok.injEq] at h
      rw [← h]
      exact logsPreserved_refl store
    · intro store' m h
      simp [EmailController.addBulkLogs] at h
  | cons result rest ih =>
    have hstep : EmailController.addBulkLogs env subject store doc (result :: rest) =
        match addEmailLog env store doc [result.email] subject "sent".toList with
        | .error m => .error (store, m)
        | .ok (store', doc') => EmailController.addBulkLogs env subject store' doc' rest :=
      rfl
    rw [hstep]
    cases hs : addEmailLog env store doc [result.email] subject "sent".toList with
    | error m =>
      constructor
      · intro store' h
        exact absurd h (by simp)
      · intro store' m' h
        simp only [Except.error.injEq, Prod.mk.injEq] at h
        rw [← h.1]
        exact logsPreserved_refl store
    | ok pair =>
      obtain ⟨mid, saved⟩ := pair
      obtain ⟨h1, h2, _, _⟩ := logsPreserved_addEmailLog env store doc _ _ _ mid saved hl hs
      obtain ⟨ih1, ih2⟩ := ih mid saved h2
      constructor
      · intro store' h
        exact logsPreserved_trans h1 (ih1 store' h)
      · intro store' m h
        exact logsPreserved_trans h1 (ih2 store' m h)

theorem findById_some (env : Env) (store : Store) (id : JsString) (summary : Summary)
    (h : findById env store id = .ok (some summary)) :
    store.lookup summary.id = some summary := by
  unfold findById at h
  split at h
  · exact absurd h (by simp)
  · rename_i oid _
    simp only [Except.ok.injEq] at h
    rw [Store.lookup_id store oid summary h]
    exact h

theorem logsPreserved_sendEmailDispatch (env : Env) (svc : Collaborators) (store : Store)
    (recipients : List JsString) (subject text : JsString) (summaryDoc : Option Summary)
    (hl : ∀ doc, summaryDoc = some doc → store.lookup doc.id = some doc) :
    LogsPreserved store
      (EmailController.sendEmailDispatch env svc store recipients subject summaryDoc
        text).store := by
  unfold EmailController.sendEmailDispatch
  split
  · exact logsPreserved_refl store
  · split
    · exact logsPreserved_refl store
    · rename_i doc
      split
      · exact logsPreserved_refl store
      · rename_i store' saved hs
        exact (logsPreserved_addEmailLog env store doc _ _ _ store' saved (hl doc rfl) hs).1

theorem logsPreserved_sendBulkDispatch (env : Env) (svc : Collaborators) (store : Store)
    (recipients : List JsString) (subject text : JsString) (summaryDoc : Option Summary)
    (hl : ∀ doc, summaryDoc = some doc → store.lookup doc.id = some doc) :
    LogsPreserved store
      (EmailController.sendBulkDispatch env svc store recipients subject summaryDoc
        text).store := by
  unfold EmailController.sendBulkDispatch
  split
  · exact logsPreserved_refl store
  · split
    · exact logsPreserved_refl store
    · rename_i doc
      split
      · rename_i store' m hs
        exact (logsPreserved_addBulkLogs env subject _ store doc (hl doc rfl)).2 store' m hs
      · rename_i store' hs
        exact (logsPreserved_addBulkLogs env subject _ store doc (hl doc rfl)).1 store' hs

/-- C24: `emailLogs` is append-only.  For every store and each of the
operations that leave a record in the store (the edit of the summarize
controller, the update of the history controller, `addEmailLog`, `sendEmail`
and `sendBulkEmails`), every record stored before the operation is stored
after it under the same id, and its `emailLogs` before the operation is a
prefix of its `emailLogs` after it. -/
theorem C24_email_logs_append_only (env : Env) (svc : Collaborators) (store : Store) :
    (∀ id edited, LogsPreserved store (updateSummary env store id edited).store) ∧
    (∀ id body,
      LogsPreserved store (HistoryController.updateSummary env store id body).store) ∧
    (∀ doc recipients subject status store' saved,
      store.lookup doc.id = some doc →
      addEmailLog env store doc recipients subject status = .ok (store', saved) →
      LogsPreserved store store') ∧
    (∀ req, LogsPreserved store (EmailController.sendEmail env svc store req).store) ∧
    (∀ req, LogsPreserved store (EmailController.sendBulkEmails env svc store req).store) := by
  refine ⟨fun id edited => ?_, fun id body => ?_,
    fun doc recipients subject status store' saved hl hs =>
      (logsPreserved_addEmailLog env store doc recipients subject status store' saved hl hs).1,
    fun req => ?_, fun req => ?_⟩
  · unfold updateSummary
    split
    · exact logsPreserved_refl store
    · split
      · exact logsPreserved_refl store
      · exact logsPreserved_refl store
      · rename_i summary hfind
        split
        · exact logsPreserved_refl store
        · rename_i store' saved hs
          refine logsPreserved_saveExisting env store summary _ _ store' saved
            (findById_some env store id summary hfind) ?_ ?_ hs
          · rfl
          · exact List.prefix_refl _
  · unfold HistoryController.updateSummary
    split
    · exact logsPreserved_refl store
    · exact logsPreserved_refl store
    · rename_i summary hfind
      split
      · exact logsPreserved_refl store
      · rename_i store' saved hs
        refine logsPreserved_saveExisting env store summary _ _ store' saved
          (findById_some env store id summary hfind) ?_ ?_ hs
        · rfl
        · exact List.prefix_refl _
  · unfold EmailController.sendEmail
    split
    · split
      · exact logsPreserved_refl store
      · split
        · split
          · exact logsPreserved_refl store
          · split
            · exact logsPreserved_refl store
            · rename_i oid _ _ doc hl
              apply logsPreserved_sendEmailDispatch
              intro d hd
              simp only [Option.some.injEq] at hd
              rw [← hd, Store.lookup_id store oid doc hl]
              exact hl
        · apply logsPreserved_sendEmailDispatch
          intro d hd
          exact absurd hd (by simp)
    · exact logsPreserved_refl store
  · unfold EmailController.sendBulkEmails
    split
    · split
      · exact logsPreserved_refl store
      · split
        · split
          · exact logsPreserved_refl store
          · split
            · exact logsPreserved_refl store
            · rename_i oid _ _ doc hl
              apply logsPreserved_sendBulkDispatch
              intro d hd
              simp only [Option.some.injEq] at hd
              rw [← hd, Store.lookup_id store oid doc hl]
              exact hl
        · apply logsPreserved_sendBulkDispatch
          intro d hd
          exact absurd hd (by simp)
    · exact logsPreserved_refl store

/-- Witness of C24: the log of the stored summary after a bulk send extends
its log before. -/
theorem C24_email_logs_append_only_witness :
    ∃ new,
      (EmailController.sendBulkEmails offlineEnv workingMailer [storedSummary]
        (sendRequest "7".toList threeRecipients)).store.lookup 7 = some new ∧
      storedSummary.emailLogs <+: new.emailLogs :=
  (C24_email_logs_append_only offlineEnv workingMailer [storedSummary]).2.2.2.2
    (sendRequest "7".toList threeRecipients) 7 storedSummary (by decide)

/-! ## C27: the responses to internal errors -/

theorem saveExisting_messages (env : Env) (vm : List (JsString × JsString) → JsString)
    (store : Store) (old doc : Summary) (modified : List SchemaPath) :
    (∃ fs, saveExisting { env with validationMessage := vm } store old doc modified =
          .error (vm fs) ∧
        saveExisting env store old doc modified = .error (env.validationMessage fs)) ∨
    (∃ r, saveExisting { env with validationMessage := vm } store old doc modified = .ok r ∧
        saveExisting env store old doc modified = .ok r) := by
  unfold saveExisting
  cases invalidPaths doc modified with
  | nil => exact Or.inr ⟨_, rfl, rfl⟩
  | cons p ps => exact Or.inl ⟨_, rfl, rfl⟩

theorem saveNew_messages (env : Env) (vm : List (JsString × JsString) → JsString)
    (store : Store) (doc : Summary) :
    (∃ fs, saveNew { env with validationMessage := vm } store doc = .error (vm fs) ∧
        saveNew env store doc = .error (env.validationMessage fs)) ∨
    (∃ r, saveNew { env with validationMessage := vm } store doc = .ok r ∧
        saveNew env store doc = .ok r) := by
  unfold saveNew
  cases invalidPaths doc allPaths with
  | nil => exact Or.inr ⟨_, rfl, rfl⟩
  | cons p ps => exact Or.inl ⟨_, rfl, rfl⟩

theorem addEmailLog_messages (env : Env) (vm : List (JsString × JsString) → JsString)
    (store : Store) (doc : Summary) (recipients : List JsString) (subject status : JsString) :
    (∃ fs, addEmailLog { env with validationMessage := vm } store doc recipients subject
            status = .error (vm fs) ∧
        addEmailLog env store doc recipients subject status =
          .error (env.validationMessage fs)) ∨
    (∃ r, addEmailLog { env with validationMessage := vm } store doc recipients subject
            status = .ok r ∧
        addEmailLog env store doc recipients subject status = .ok r) := by
  unfold addEmailLog
  by_cases h : status ∈ emailStatuses
  · rw [if_pos h, if_pos h]
    exact saveExisting_messages env vm store doc _ []
  · rw [if_neg h, if_neg h]
    exact Or.inl ⟨_, rfl, rfl⟩

theorem EmailController.addBulkLogs_messages (env : Env)
    (vm : List (JsString × JsString) → JsString) (subject : JsString)
    (results : List BulkResult) :
    ∀ (store : Store) (doc : Summary),
      (∃ store' m m',
          EmailController.addBulkLogs { env with validationMessage := vm } subject store doc
            results = .error (store', m) ∧
          EmailController.addBulkLogs env subject store doc results = .error (store', m')) ∨
      (∃ store',
          EmailController.addBulkLogs { env with validationMessage := vm } subject store doc
            results = .ok store' ∧
          EmailController.addBulkLogs env subject store doc results = .ok store') := by
  induction results with
  | nil => intro store doc; exact Or.inr ⟨store, rfl, rfl⟩
  | cons result rest ih =>
    intro store doc
    unfold EmailController.addBulkLogs
    rcases addEmailLog_messages env vm store doc [result.email] subject "sent".toList with
      ⟨fs, h1, h2⟩ | ⟨⟨store', doc'⟩, h1, h2⟩
    · rw [h1, h2]
      exact Or.inl ⟨store, _, _, rfl, rfl⟩
    · rw [h1, h2]
      exact ih store' doc'

theorem generateSummaryCatch_of_500 (m : JsString)
    (h : (generateSummaryCatch m).status = 500) :
    generateSummaryCatch m = internalError "Failed to generate summary".toList := by
  unfold generateSummaryCatch at h ⊢
  split
  · rename_i hi
    rw [if_pos hi] at h
    exact absurd h (by simp)
  · rfl

theorem EmailController.sendEmailCatch_of_500 (m : JsString)
    (h : (EmailController.sendEmailCatch m).status = 500) :
    EmailController.sendEmailCatch m =
      { status := 500,
        body := .error "Internal Server Error".toList "Failed to send email".toList } := by
  unfold EmailController.sendEmailCatch at h ⊢
  split
  · rename_i hi
    rw [if_pos hi] at h
    exact absurd h (by simp)
  · rename_i hi
    rw [if_neg hi] at h
    split
    · rename_i hj
      rw [if_pos hj] at h
      exact absurd h (by simp)
    · rfl

/-- A response of `sendEmail` that is neither of the two answers its `catch`
block gives to a message it singles out: the 503 for `Email configuration
missing` and the 400 titled `Invalid Email Addresses`. -/
def EmailController.Unclassified (r : EmailResponse) : Prop :=
  r.status ≠ 503 ∧ ∀ m, r.body ≠ .error "Invalid Email Addresses".toList m

theorem EmailController.sendEmailCatch_unclassified (m : JsString)
    (h1 : includes m "Email configuration missing".toList = false)
    (h2 : includes m "Invalid email addresses".toList = false) :
    EmailController.sendEmailCatch m =
      { status := 500,
        body := .error "Internal Server Error".toList "Failed to send email".toList } := by
  unfold EmailController.sendEmailCatch
  rw [h1, h2]
  rfl

theorem EmailController.sendEmailCatch_of_unclassified (m : JsString)
    (h : EmailController.Unclassified (EmailController.sendEmailCatch m)) :
    EmailController.sendEmailCatch m =
      { status := 500,
        body := .error "Internal Server Error".toList "Failed to send email".toList } := by
  unfold EmailController.sendEmailCatch at h ⊢
  split
  · rename_i hi
    rw [if_pos hi] at h
    exact absurd rfl h.1
  · rename_i hi
    rw [if_neg hi] at h
    split
    · rename_i hj
      rw [if_pos hj] at h
      exact absurd rfl (h.2 m)
    · rfl

theorem generateSummaryCatch_of_not_503 (m : JsString)
    (h : (generateSummaryCatch m).status ≠ 503) :
    generateSummaryCatch m = internalError "Failed to generate summary".toList := by
  unfold generateSummaryCatch at h ⊢
  split
  · rename_i hi
    rw [if_pos hi] at h
    exact absurd rfl h
  · rfl

theorem generateSummary_messages (env : Env) (vm : List (JsString × JsString) → JsString)
    (store : Store) (req : CreateRequest)
    (h : (generateSummary env store req).response.status ≠ 503)
    (h' : (generateSummary { env with validationMessage := vm } store req).response.status ≠
      503) :
    generateSummary { env with validationMessage := vm } store req =
      generateSummary env store req := by
  rcases passesValidation_cases req with hm | ⟨h1, h2, e, he⟩ | hv
  · rw [generateSummary_missing _ _ _ hm, generateSummary_missing _ _ _ hm]
  · rw [generateSummary_invalid _ _ _ h1 h2 e he, generateSummary_invalid _ _ _ h1 h2 e he]
  · have hrun : (aiCallOf req).run { env with validationMessage := vm } =
        (aiCallOf req).run env := by
      cases aiCallOf req <;> rfl
    rw [generateSummary_valid _ _ _ hv] at h h'
    rw [generateSummary_valid _ _ _ hv, generateSummary_valid env _ _ hv]
    rw [hrun] at h' ⊢
    cases hr : ((aiCallOf req).run env).result with
    | error m => rfl
    | ok a =>
      have hd : newDocument { env with validationMessage := vm } store req a =
          newDocument env store req a := rfl
      rw [hr] at h h'
      simp only [hd] at h h' ⊢
      rcases saveNew_messages env vm store (newDocument env store req a) with
        ⟨fs, s1, s2⟩ | ⟨⟨store', doc'⟩, s1, s2⟩
      · simp only [s1, s2] at h h' ⊢
        rw [generateSummaryCatch_of_not_503 _ h, generateSummaryCatch_of_not_503 _ h']
      · simp only [s1, s2]

theorem generateSummary_of_500 (env : Env) (store : Store) (req : CreateRequest)
    (h : (generateSummary env store req).response.status = 500) :
    (generateSummary env store req).response =
      internalError "Failed to generate summary".toList := by
  rcases passesValidation_cases req with hm | ⟨h1, h2, e, he⟩ | hv
  · rw [generateSummary_missing _ _ _ hm] at h
    exact absurd h (by simp)
  · rw [generateSummary_invalid _ _ _ h1 h2 e he] at h
    exact absurd h (by simp)
  · rw [generateSummary_valid _ _ _ hv] at h ⊢
    cases hr : ((aiCallOf req).run env).result with
    | error m =>
      simp only [hr] at h ⊢
      exact generateSummaryCatch_of_500 m h
    | ok a =>
      simp only [hr] at h ⊢
      cases hs : saveNew env store (newDocument env store req a) with
      | error m =>
        simp only [hs] at h ⊢
        exact generateSummaryCatch_of_500 m h
      | ok r =>
        obtain ⟨store', doc'⟩ := r
        simp only [hs] at h
        exact absurd h (by simp)
theorem EmailController.sendEmailDispatch_messages (env : Env) (svc : Collaborators)
    (vm : List (JsString × JsString) → JsString) (cm : JsString → JsString) (store : Store)
    (recipients : List JsString) (subject text : JsString) (summaryDoc : Option Summary)
    (h : EmailController.Unclassified
      (EmailController.sendEmailDispatch env svc store recipients subject summaryDoc
        text).response)
    (h' : EmailController.Unclassified
      (EmailController.sendEmailDispatch { env with validationMessage := vm }
        { svc with castErrorMessage := cm } store recipients subject summaryDoc
        text).response) :
    EmailController.sendEmailDispatch { env with validationMessage := vm }
        { svc with castErrorMessage := cm } store recipients subject summaryDoc text =
      EmailController.sendEmailDispatch env svc store recipients subject summaryDoc text := by
  unfold EmailController.sendEmailDispatch at h h' ⊢
  dsimp only at h h' ⊢
  cases hse : svc.sendSummaryEmail recipients text subject with
  | error m => rfl
  | ok emailResult =>
    rw [hse] at h h'
    cases summaryDoc with
    | none => rfl
    | some doc =>
      dsimp only at h h' ⊢
      rcases addEmailLog_messages env vm store doc recipients subject "sent".toList with
        ⟨fs, s1, s2⟩ | ⟨⟨store', doc'⟩, s1, s2⟩
      · simp only [s1, s2] at h h' ⊢
        rw [EmailController.sendEmailCatch_of_unclassified _ h,
          EmailController.sendEmailCatch_of_unclassified _ h']
      · simp only [s1, s2]

theorem EmailController.sendEmail_messages (env : Env) (svc : Collaborators)
    (vm : List (JsString × JsString) → JsString) (cm : JsString → JsString) (store : Store)
    (req : EmailRequest)
    (h : EmailController.Unclassified (EmailController.sendEmail env svc store req).response)
    (h' : EmailController.Unclassified
      (EmailController.sendEmail { env with validationMessage := vm }
        { svc with castErrorMessage := cm } store req).response) :
    EmailController.sendEmail { env with validationMessage := vm }
        { svc with castErrorMessage := cm } store req =
      EmailController.sendEmail env svc store req := by
  unfold EmailController.sendEmail at h h' ⊢
  cases hr : req.recipients with
  | missing => rfl
  | notArray => rfl
  | array items =>
    cases items with
    | nil => rfl
    | cons r rs =>
      rw [hr] at h h'
      dsimp only at h h' ⊢
      by_cases h1 : (!truthy req.summary && !truthy req.summaryId) = true
      · rw [if_pos h1, if_pos h1]
      · rw [if_neg h1] at h h'
        rw [if_neg h1, if_neg h1]
        by_cases h2 : truthy req.summaryId = true
        · rw [if_pos h2] at h h'
          rw [if_pos h2, if_pos h2]
          cases hc : env.castObjectId (req.summaryId.getD []) with
          | none =>
            rw [hc] at h h'
            dsimp only at h h' ⊢
            rw [EmailController.sendEmailCatch_of_unclassified _ h,
              EmailController.sendEmailCatch_of_unclassified _ h']
          | some oid =>
            rw [hc] at h h'
            dsimp only at h h' ⊢
            cases hl : store.lookup oid with
            | none => rfl
            | some doc =>
              rw [hl] at h h'
              exact EmailController.sendEmailDispatch_messages env svc vm cm store _ _ _ _
                h h'
        · rw [if_neg h2] at h h'
          rw [if_neg h2, if_neg h2]
          exact EmailController.sendEmailDispatch_messages env svc vm cm store _ _ _ _ h h'

theorem EmailController.sendBulkDispatch_messages (env : Env) (svc : Collaborators)
    (vm : List (JsString × JsString) → JsString) (cm : JsString → JsString) (store : Store)
    (recipients : List JsString) (subject text : JsString) (summaryDoc : Option Summary) :
    EmailController.sendBulkDispatch { env with validationMessage := vm }
        { svc with castErrorMessage := cm } store recipients subject summaryDoc text =
      EmailController.sendBulkDispatch env svc store recipients subject summaryDoc text := by
  unfold EmailController.sendBulkDispatch
  show (match svc.sendBulkEmails recipients text subject with
    | .error m => _
    | .ok emailResults => _) = _
  cases svc.sendBulkEmails recipients text subject with
  | error m => rfl
  | ok emailResults =>
    cases summaryDoc with
    | none => rfl
    | some doc =>
      rcases EmailController.addBulkLogs_messages env vm subject
          (emailResults.filter (fun result => result.success)) store doc with
        ⟨store', m, m', s1, s2⟩ | ⟨store', s1, s2⟩
      · simp only [s1, s2]
      · simp only [s1, s2]
        rfl

theorem EmailController.sendBulkEmails_messages (env : Env) (svc : Collaborators)
    (vm : List (JsString × JsString) → JsString) (cm : JsString → JsString) (store : Store)
    (req : EmailRequest) :
    EmailController.sendBulkEmails { env with validationMessage := vm }
        { svc with castErrorMessage := cm } store req =
      EmailController.sendBulkEmails env svc store req := by
  unfold EmailController.sendBulkEmails
  cases req.recipients with
  | missing => rfl
  | notArray => rfl
  | array items =>
    cases items with
    | nil => rfl
    | cons r rs =>
      simp only []
      by_cases h1 : (!truthy req.summary && !truthy req.summaryId) = true
      · rw [if_pos h1, if_pos h1]
      · rw [if_neg h1, if_neg h1]
        by_cases h2 : truthy req.summaryId = true
        · rw [if_pos h2, if_pos h2]
          cases env.castObjectId (req.summaryId.getD []) with
          | none => rfl
          | some oid =>
            dsimp only
            cases store.lookup oid with
            | none => rfl
            | some doc =>
              exact EmailController.sendBulkDispatch_messages env svc vm cm store _ _ _ _
        · rw [if_neg h2, if_neg h2]
          exact EmailController.sendBulkDispatch_messages env svc vm cm store _ _ _ _

theorem updateSummary_messages (env : Env) (vm : List (JsString × JsString) → JsString)
    (store : Store) (id : JsString) (edited : Option JsString) :
    updateSummary { env with validationMessage := vm } store id edited =
      updateSummary env store id edited := by
  unfold updateSummary
  by_cases h1 : (!truthy edited) = true
  · rw [if_pos h1, if_pos h1]
  · rw [if_neg h1, if_neg h1]
    have hf : findById { env with validationMessage := vm } store id = findById env store id :=
      rfl
    rw [hf]
    cases findById env store id with
    | error e => rfl
    | ok found =>
      cases found with
      | none => rfl
      | some summary =>
        rcases saveExisting_messages env vm store summary
            { summary with editedSummary := edited }
            (if edited = summary.editedSummary then [] else [.editedSummary]) with
          ⟨fs, s1, s2⟩ | ⟨⟨store', doc'⟩, s1, s2⟩
        · simp only [s1, s2]
        · simp only [s1, s2]

theorem HistoryController.historyUpdate_messages (env : Env)
    (vm : List (JsString × JsString) → JsString) (store : Store) (id : JsString)
    (body : UpdateBody) :
    HistoryController.updateSummary { env with validationMessage := vm } store id body =
      HistoryController.updateSummary env store id body := by
  unfold HistoryController.updateSummary
  have hf : findById { env with validationMessage := vm } store id = findById env store id :=
    rfl
  rw [hf]
  cases findById env store id with
  | error e => rfl
  | ok found =>
    cases found with
    | none => rfl
    | some summary =>
      rcases saveExisting_messages env vm store summary
          (HistoryController.assignFields summary body)
          (HistoryController.modifiedPaths summary
            (HistoryController.assignFields summary body)) with
        ⟨fs, s1, s2⟩ | ⟨⟨store', doc'⟩, s1, s2⟩
      · simp only [s1, s2]
      · simp only [s1, s2]
theorem updateSummary_of_500 (env : Env) (store : Store) (id : JsString)
    (edited : Option JsString)
    (h : (updateSummary env store id edited).response.status = 500) :
    (updateSummary env store id edited).response =
      internalError "Failed to update summary".toList := by
  unfold updateSummary at h ⊢
  split
  · rename_i h1
    rw [if_pos h1] at h
    exact absurd h (by simp)
  · rename_i h1
    rw [if_neg h1] at h
    split
    · rfl
    · rename_i hf
      rw [hf] at h
      exact absurd h (by simp [notFound])
    · rename_i summary hf
      rw [hf] at h
      dsimp only at h
      split
      · rfl
      · rename_i store' saved hs
        rw [hs] at h
        exact absurd h (by simp)

theorem EmailController.sendEmailDispatch_of_500 (env : Env) (svc : Collaborators)
    (store : Store) (recipients : List JsString) (subject text : JsString)
    (summaryDoc : Option Summary)
    (h : (EmailController.sendEmailDispatch env svc store recipients subject summaryDoc
      text).response.status = 500) :
    (EmailController.sendEmailDispatch env svc store recipients subject summaryDoc
      text).response =
      { status := 500,
        body := .error "Internal Server Error".toList "Failed to send email".toList } := by
  unfold EmailController.sendEmailDispatch at h ⊢
  cases hs : svc.sendSummaryEmail recipients text subject with
  | error m =>
    simp only [hs] at h ⊢
    exact EmailController.sendEmailCatch_of_500 m h
  | ok emailResult =>
    simp only [hs] at h ⊢
    cases summaryDoc with
    | none => exact absurd h (by simp)
    | some doc =>
      dsimp only at h ⊢
      cases hl : addEmailLog env store doc recipients subject "sent".toList with
      | error m =>
        simp only [hl] at h ⊢
        exact EmailController.sendEmailCatch_of_500 m h
      | ok r =>
        obtain ⟨store', saved⟩ := r
        simp only [hl] at h
        exact absurd h (by simp)

theorem EmailController.sendEmail_of_500 (env : Env) (svc : Collaborators) (store : Store)
    (req : EmailRequest)
    (h : (EmailController.sendEmail env svc store req).response.status = 500) :
    (EmailController.sendEmail env svc store req).response =
      { status := 500,
        body := .error "Internal Server Error".toList "Failed to send email".toList } := by
  unfold EmailController.sendEmail at h ⊢
  cases hr : req.recipients with
  | missing => rw [hr] at h; exact absurd h (by simp [EmailController.invalidRecipients])
  | notArray => rw [hr] at h; exact absurd h (by simp [EmailController.invalidRecipients])
  | array items =>
    cases items with
    | nil => rw [hr] at h; exact absurd h (by simp [EmailController.invalidRecipients])
    | cons r rs =>
      rw [hr] at h
      dsimp only at h ⊢
      by_cases h1 : (!truthy req.summary && !truthy req.summaryId) = true
      · rw [if_pos h1] at h
        exact absurd h (by simp [EmailController.missingSummary])
      · rw [if_neg h1] at h ⊢
        by_cases h2 : truthy req.summaryId = true
        · rw [if_pos h2] at h ⊢
          cases hc : env.castObjectId (req.summaryId.getD []) with
          | none =>
            simp only [hc] at h ⊢
            exact EmailController.sendEmailCatch_of_500 _ h
          | some oid =>
            simp only [hc] at h ⊢
            cases hl : store.lookup oid with
            | none =>
              simp only [hl] at h
              exact absurd h (by simp [EmailController.notFound])
            | some doc =>
              simp only [hl] at h ⊢
              exact EmailController.sendEmailDispatch_of_500 env svc store _ _ _ _ h
        · rw [if_neg h2] at h ⊢
          exact EmailController.sendEmailDispatch_of_500 env svc store _ _ _ _ h

theorem EmailController.sendBulkDispatch_of_500 (env : Env) (svc : Collaborators)
    (store : Store) (recipients : List JsString) (subject text : JsString)
    (summaryDoc : Option Summary)
    (h : (EmailController.sendBulkDispatch env svc store recipients subject summaryDoc
      text).response.status = 500) :
    (EmailController.sendBulkDispatch env svc store recipients subject summaryDoc
      text).response = EmailController.sendBulkCatch := by
  unfold EmailController.sendBulkDispatch at h ⊢
  cases hs : svc.sendBulkEmails recipients text subject with
  | error m => rfl
  | ok emailResults =>
    simp only [hs] at h ⊢
    cases summaryDoc with
    | none => exact absurd h (by simp [EmailController.bulkReport])
    | some doc =>
      dsimp only at h ⊢
      cases hl : EmailController.addBulkLogs env subject store doc
          (emailResults.filter (fun result => result.success)) with
      | error e => rfl
      | ok store' =>
        simp only [hl] at h
        exact absurd h (by simp [EmailController.bulkReport])

theorem EmailController.sendBulkEmails_of_500 (env : Env) (svc : Collaborators)
    (store : Store) (req : EmailRequest)
    (h : (EmailController.sendBulkEmails env svc store req).response.status = 500) :
    (EmailController.sendBulkEmails env svc store req).response =
      EmailController.sendBulkCatch := by
  unfold EmailController.sendBulkEmails at h ⊢
  cases hr : req.recipients with
  | missing => rw [hr] at h; exact absurd h (by simp [EmailController.invalidRecipients])
  | notArray => rw [hr] at h; exact absurd h (by simp [EmailController.invalidRecipients])
  | array items =>
    cases items with
    | nil => rw [hr] at h; exact absurd h (by simp [EmailController.invalidRecipients])
    | cons r rs =>
      rw [hr] at h
      dsimp only at h ⊢
      by_cases h1 : (!truthy req.summary && !truthy req.summaryId) = true
      · rw [if_pos h1] at h
        exact absurd h (by simp [EmailController.missingSummary])
      · rw [if_neg h1] at h ⊢
        by_cases h2 : truthy req.summaryId = true
        · rw [if_pos h2] at h ⊢
          cases hc : env.castObjectId (req.summaryId.getD []) with
          | none => rfl
          | some oid =>
            simp only [hc] at h ⊢
            cases hl : store.lookup oid with
            | none =>
              simp only [hl] at h
              exact absurd h (by simp [EmailController.notFound])
            | some doc =>
              simp only [hl] at h ⊢
              exact EmailController.sendBulkDispatch_of_500 env svc store _ _ _ _ h
        · rw [if_neg h2] at h ⊢
          exact EmailController.sendBulkDispatch_of_500 env svc store _ _ _ _ h

theorem HistoryController.historyUpdate_of_500 (env : Env) (store : Store) (id : JsString)
    (body : UpdateBody)
    (h : (HistoryController.updateSummary env store id body).response.status = 500) :
    (HistoryController.updateSummary env store id body).response =
      internalError "Failed to update summary".toList := by
  unfold HistoryController.updateSummary at h ⊢
  split
  · rfl
  · rename_i hf
    rw [hf] at h
    exact absurd h (by simp)
  · rename_i summary hf
    rw [hf] at h
    dsimp only at h
    split
    · rfl
    · rename_i store' saved hs
      rw [hs] at h
      exact absurd h (by simp)

theorem findById_handlers_of_500 (env : Env) (store : Store) (id : JsString) :
    ((getSummary env store id).response.status = 500 →
      (getSummary env store id).response =
        internalError "Failed to retrieve summary".toList) ∧
    ((SummarizeController.deleteSummary env store id).response.status = 500 →
      (SummarizeController.deleteSummary env store id).response =
        internalError "Failed to delete summary".toList) ∧
    ((HistoryController.getSummaryById env store id).response.status = 500 →
      (HistoryController.getSummaryById env store id).response =
        internalError "Failed to retrieve summary".toList) ∧
    ((HistoryController.deleteSummary env store id).response.status = 500 →
      (HistoryController.deleteSummary env store id).response =
        internalError "Failed to delete summary".toList) := by
  unfold getSummary SummarizeController.deleteSummary HistoryController.getSummaryById
    HistoryController.deleteSummary
  cases findById env store id with
  | error e => exact ⟨fun _ => rfl, fun _ => rfl, fun _ => rfl, fun _ => rfl⟩
  | ok found =>
    cases found with
    | none =>
      exact ⟨fun h => absurd h (by simp [notFound]), fun h => absurd h (by simp [notFound]),
        fun h => absurd h (by simp), fun h => absurd h (by simp)⟩
    | some summary =>
      exact ⟨fun h => absurd h (by simp), fun h => absurd h (by simp),
        fun h => absurd h (by simp), fun h => absurd h (by simp)⟩

theorem HistoryController.list_handlers_of_500 (rt : QueryRuntime) (store : Store)
    (userId : JsString) :
    (∀ query, (HistoryController.getUserHistory rt store userId query).response.status = 500 →
      (HistoryController.getUserHistory rt store userId query).response =
        { status := 500,
          body := .error "Internal Server Error".toList
                    "Failed to retrieve history".toList }) ∧
    (∀ query, (HistoryController.searchSummaries rt store userId query).response.status = 500 →
      (HistoryController.searchSummaries rt store userId query).response =
        { status := 500,
          body := .error "Internal Server Error".toList
                    "Failed to search summaries".toList }) := by
  constructor
  · intro query h
    unfold HistoryController.getUserHistory at h ⊢
    dsimp only at h ⊢
    split
    · rfl
    · rename_i selects hf
      rw [hf] at h
      dsimp only at h
      split
      · rfl
      · rename_i hp
        rw [if_neg hp] at h
        exact absurd h (by simp)
  · intro query h
    unfold HistoryController.searchSummaries at h ⊢
    dsimp only at h ⊢
    split
    · rfl
    · rename_i selects hf
      rw [hf] at h
      dsimp only at h
      split
      · rfl
      · rename_i hp
        rw [if_neg hp] at h
        exact absurd h (by simp)
/-- A create request that names its provider. -/
def providerRequest (provider : JsString) : CreateRequest :=
  { plainRequest tenWords "Summarize".toList with provider := some provider }

/-- C27 (code defect): a create request naming the provider `API Error`
makes the AI client throw `Unsupported AI provider: API Error` before any
provider is called, an error that is not an error of an AI API; its message
contains `API Error`, so the branch of the `catch` block meant for the
errors of the AI APIs answers 503 and sends the text of the exception to the
caller.  The same request with the provider `azure` is answered with the
generic 500: the response depends on the text of the exception. -/
theorem C27_unsupported_provider_answered_503 :
    ((aiCallOf (providerRequest "API Error".toList)).run offlineEnv).result =
      .error "Unsupported AI provider: API Error".toList ∧
    ((aiCallOf (providerRequest "API Error".toList)).run offlineEnv).requests = [] ∧
    (generateSummary offlineEnv [] (providerRequest "API Error".toList)).response =
      { status := 503,
        body := .error "AI Service Unavailable".toList
                  "Unsupported AI provider: API Error".toList } ∧
    ((aiCallOf (providerRequest "azure".toList)).run offlineEnv).result =
      .error "Unsupported AI provider: azure".toList ∧
    (generateSummary offlineEnv [] (providerRequest "azure".toList)).response =
      { status := 500,
        body := .error "Internal Server Error".toList "Failed to generate summary".toList } := by
  decide

/-- What the handlers do with the errors raised inside them, for every
environment, email service and store and every other choice `vm` of the
messages of the validation errors and `cm` of the messages of the cast
errors.  (1) The outcomes of the edit, read and delete handlers of both
controllers, of the history update and of `sendBulkEmails` are the same under
both choices of messages.  (2) So is the outcome of a create request,
unless one of the two runs is answered 503.  (3) So is the outcome of a
`sendEmail` request, unless one of the two runs is answered by a branch of
the `catch` block that singles out a message.  (4) Every response with
status 500 of any handler carries the fixed message of that handler.  (5) The
two `catch` blocks that inspect the message answer 503 with the text of the
error for `API Error` (create), a fixed 503 for `Email configuration missing`
and 400 with the text of the error for `Invalid email addresses`
(`sendEmail`), and the fixed 500 for every other message. -/
theorem internal_errors_answered_generically (env : Env) (svc : Collaborators)
    (store : Store) (vm : List (JsString × JsString) → JsString) (cm : JsString → JsString) :
    ((∀ id edited,
        updateSummary { env with validationMessage := vm } store id edited =
          updateSummary env store id edited) ∧
      (∀ id, getSummary { env with validationMessage := vm } store id =
          getSummary env store id) ∧
      (∀ id, SummarizeController.deleteSummary { env with validationMessage := vm } store id =
          SummarizeController.deleteSummary env store id) ∧
      (∀ id, HistoryController.getSummaryById { env with validationMessage := vm } store id =
          HistoryController.getSummaryById env store id) ∧
      (∀ id, HistoryController.deleteSummary { env with validationMessage := vm } store id =
          HistoryController.deleteSummary env store id) ∧
      (∀ id body,
        HistoryController.updateSummary { env with validationMessage := vm } store id body =
          HistoryController.updateSummary env store id body) ∧
      (∀ req,
        EmailController.sendBulkEmails { env with validationMessage := vm }
            { svc with castErrorMessage := cm } store req =
          EmailController.sendBulkEmails env svc store req)) ∧
    (∀ req,
      (generateSummary env store req).response.status ≠ 503 →
      (generateSummary { env with validationMessage := vm } store req).response.status ≠ 503 →
      generateSummary { env with validationMessage := vm } store req =
        generateSummary env store req) ∧
    (∀ req,
      EmailController.Unclassified (EmailController.sendEmail env svc store req).response →
      EmailController.Unclassified
        (EmailController.sendEmail { env with validationMessage := vm }
          { svc with castErrorMessage := cm } store req).response →
      EmailController.sendEmail { env with validationMessage := vm }
          { svc with castErrorMessage := cm } store req =
        EmailController.sendEmail env svc store req) ∧
    ((∀ req, (generateSummary env store req).response.status = 500 →
        (generateSummary env store req).response =
          internalError "Failed to generate summary".toList) ∧
      (∀ id edited, (updateSummary env store id edited).response.status = 500 →
        (updateSummary env store id edited).response =
          internalError "Failed to update summary".toList) ∧
      (∀ id, (getSummary env store id).response.status = 500 →
        (getSummary env store id).response =
          internalError "Failed to retrieve summary".toList) ∧
      (∀ id, (SummarizeController.deleteSummary env store id).response.status = 500 →
        (SummarizeController.deleteSummary env store id).response =
          internalError "Failed to delete summary".toList) ∧
      (∀ id, (HistoryController.getSummaryById env store id).response.status = 500 →
        (HistoryController.getSummaryById env store id).response =
          internalError "Failed to retrieve summary".toList) ∧
      (∀ id, (HistoryController.deleteSummary env store id).response.status = 500 →
        (HistoryController.deleteSummary env store id).response =
          internalError "Failed to delete summary".toList) ∧
      (∀ id body, (HistoryController.updateSummary env store id body).response.status = 500 →
        (HistoryController.updateSummary env store id body).response =
          internalError "Failed to update summary".toList) ∧
      (∀ rt userId query,
        (HistoryController.getUserHistory rt store userId query).response.status = 500 →
        (HistoryController.getUserHistory rt store userId query).response =
          { status := 500,
            body := .error "Internal Server Error".toList
                      "Failed to retrieve history".toList }) ∧
      (∀ rt userId query,
        (HistoryController.searchSummaries rt store userId query).response.status = 500 →
        (HistoryController.searchSummaries rt store userId query).response =
          { status := 500,
            body := .error "Internal Server Error".toList
                      "Failed to search summaries".toList }) ∧
      (∀ req, (EmailController.sendEmail env svc store req).response.status = 500 →
        (EmailController.sendEmail env svc store req).response =
          { status := 500,
            body := .error "Internal Server Error".toList "Failed to send email".toList }) ∧
      (∀ req, (EmailController.sendBulkEmails env svc store req).response.status = 500 →
        (EmailController.sendBulkEmails env svc store req).response =
          { status := 500,
            body := .error "Internal Server Error".toList
                      "Failed to send bulk emails".toList })) ∧
    ((∀ m, includes m "API Error".toList = true →
        generateSummaryCatch m =
          { status := 503, body := .error "AI Service Unavailable".toList m }) ∧
      (∀ m, includes m "API Error".toList = false →
        generateSummaryCatch m = internalError "Failed to generate summary".toList) ∧
      (∀ m, includes m "Email configuration missing".toList = true →
        EmailController.sendEmailCatch m =
          { status := 503,
            body := .error "Email Service Unavailable".toList
                      "Email service is not configured properly".toList }) ∧
      (∀ m, includes m "Email configuration missing".toList = false →
        includes m "Invalid email addresses".toList = true →
        EmailController.sendEmailCatch m =
          { status := 400, body := .error "Invalid Email Addresses".toList m }) ∧
      (∀ m, includes m "Email configuration missing".toList = false →
        includes m "Invalid email addresses".toList = false →
        EmailController.sendEmailCatch m =
          { status := 500,
            body := .error "Internal Server Error".toList "Failed to send email".toList })) := by
  refine ⟨⟨?_, ?_, ?_, ?_, ?_, ?_, ?_⟩, ?_, ?_, ⟨?_, ?_, ?_, ?_, ?_, ?_, ?_, ?_, ?_, ?_, ?_⟩,
    ⟨?_, ?_, ?_, ?_, ?_⟩⟩
  · exact fun id edited => updateSummary_messages env vm store id edited
  · exact fun id => rfl
  · exact fun id => rfl
  · exact fun id => rfl
  · exact fun id => rfl
  · exact fun id body => HistoryController.historyUpdate_messages env vm store id body
  · exact fun req => EmailController.sendBulkEmails_messages env svc vm cm store req
  · exact fun req h h' => generateSummary_messages env vm store req h h'
  · exact fun req h h' => EmailController.sendEmail_messages env svc vm cm store req h h'
  · exact fun req h => generateSummary_of_500 env store req h
  · exact fun id edited h => updateSummary_of_500 env store id edited h
  · exact fun id h => (findById_handlers_of_500 env store id).1 h
  · exact fun id h => (findById_handlers_of_500 env store id).2.1 h
  · exact fun id h => (findById_handlers_of_500 env store id).2.2.1 h
  · exact fun id h => (findById_handlers_of_500 env store id).2.2.2 h
  · exact fun id body h => HistoryController.historyUpdate_of_500 env store id body h
  · exact fun rt userId query h =>
      (HistoryController.list_handlers_of_500 rt store userId).1 query h
  · exact fun rt userId query h =>
      (HistoryController.list_handlers_of_500 rt store userId).2 query h
  · exact fun req h => EmailController.sendEmail_of_500 env svc store req h
  · exact fun req h => EmailController.sendBulkEmails_of_500 env svc store req h
  · intro m h
    simp only [generateSummaryCatch, h, if_true]
  · exact fun m h => generateSummaryCatch_status_of_not_includes m h
  · intro m h
    simp only [EmailController.sendEmailCatch, h, if_true]
  · intro m h1 h2
    simp only [EmailController.sendEmailCatch, h1, h2, if_true]
    rfl
  · exact fun m h1 h2 => EmailController.sendEmailCatch_unclassified m h1 h2

/-- The validation message of the sample environment names the failing
path, so the create request with the style `bullets`, which the schema
rejects at `save()`, is answered by the generic 500 whatever other message
the validation error carries, unless that message contains `API Error`. -/
theorem create_with_rejected_style_answered_500 (vm : List (JsString × JsString) → JsString)
    (h : includes (vm [("summaryStyle".toList, "bullets".toList)]) "API Error".toList =
      false) :
    generateSummary { groqEnv "Summary.".toList with validationMessage := vm } []
        { plainRequest tenWords "Summarize".toList with style := some "bullets".toList } =
      generateSummary (groqEnv "Summary.".toList) []
        { plainRequest tenWords "Summarize".toList with style := some "bullets".toList } := by
  apply (internal_errors_answered_generically (groqEnv "Summary.".toList) workingMailer [] vm
    (fun _ => [])).2.1
  · decide
  · have hs : (generateSummary { groqEnv "Summary.".toList with validationMessage := vm } []
        { plainRequest tenWords "Summarize".toList with
          style := some "bullets".toList }).response =
        generateSummaryCatch (vm [("summaryStyle".toList, "bullets".toList)]) := rfl
    rw [hs, generateSummaryCatch_status_of_not_includes _ h]
    decide

/-! ## C21: the statistics of a user -/

/-- The document that the `$group` stage of `getUserStats` produces (without
its `_id`, which is null).  `averageWordCount` is the exact quotient, of
which the database returns the nearest double; it is null (`none`) when no
document of the group has a numeric word count. -/
structure UserStats where
  totalSummaries : Nat
  totalEmailsSent : Nat
  averageWordCount : Option ℚ
  totalProcessingTime : Nat
  deriving DecidableEq

/-- The accumulator `$avg`: the mean of the numeric values, missing values
being ignored; null when there is none. -/
def avgAccumulator (values : List (Option Nat)) : Option ℚ :=
  match values.filterMap id with
  | [] => none
  | v :: vs => some (((v :: vs).sum : ℚ) / ((v :: vs).length : ℚ))

/-- The accumulator `$sum`: the sum of the numeric values, missing values
being ignored. -/
def sumAccumulator (values : List (Option Nat)) : Nat :=
  (values.filterMap id).sum

/-- The static `Summary.getUserStats(userId)`: the `$match` on the user id,
then one group for all the matched documents; no group for no document. -/
def Summary.getUserStats (store : Store) (userId : JsString) : List UserStats :=
  match store.filter (fun doc => doc.userId == userId) with
  | [] => []
  | doc :: docs =>
    [{ totalSummaries := (doc :: docs).length
       totalEmailsSent := ((doc :: docs).map (fun d => d.emailLogs.length)).sum
       averageWordCount := avgAccumulator ((doc :: docs).map (fun d => d.metadata.wordCount))
       totalProcessingTime :=
         sumAccumulator ((doc :: docs).map (fun d => d.metadata.processingTime)) }]

/-- The JSON bodies of the statistics handler. -/
inductive StatsBody where
  | error (error message : JsString)
  | stats (data : UserStats)
  deriving DecidableEq

/-- An HTTP response of the statistics handler. -/
structure StatsResponse where
  status : Nat
  body : StatsBody
  deriving DecidableEq

/-- `getUserStats` of the history controller (`GET /user/:userId/stats`). -/
def HistoryController.getUserStats (store : Store) (userId : JsString) : StatsResponse :=
  match Summary.getUserStats store userId with
  | [] =>
    { status := 200,
      body := .stats { totalSummaries := 0, totalEmailsSent := 0, averageWordCount := some 0,
                       totalProcessingTime := 0 } }
  | stats :: _ => { status := 200, body := .stats stats }

theorem avgAccumulator_all_present (counts : List Nat) (h : counts ≠ []) :
    avgAccumulator (counts.map some) = some ((counts.sum : ℚ) / (counts.length : ℚ)) := by
  unfold avgAccumulator
  have hf : (counts.map some).filterMap id = counts := by
    induction counts with
    | nil => rfl
    | cons c cs ih =>
      cases cs with
      | nil => rfl
      | cons c' cs' =>
        have := ih (by simp)
        simp only [List.map_cons, List.filterMap_cons, id] at this ⊢
        rw [this]
  rw [hf]
  cases counts with
  | nil => exact absurd rfl h
  | cons c cs => rfl

theorem sumAccumulator_all_present (values : List Nat) :
    sumAccumulator (values.map some) = values.sum := by
  unfold sumAccumulator
  induction values with
  | nil => rfl
  | cons v vs ih =>
    simp only [List.map_cons, List.filterMap_cons, id, List.sum_cons] at ih ⊢
    rw [ih]

/-- C21: the statistics handler always answers 200.  When the user has no
record the data are all zero.  Otherwise `totalSummaries` is the number of
the records of the user, `totalEmailsSent` the sum of the lengths of their
`emailLogs`, `totalProcessingTime` the sum of their processing times and
`averageWordCount` the mean of their word counts (a record without that
field is left out of the sum and of the mean); in particular, when every
record of the user has a word count and a processing time, as every record
saved by the application has, the average is the sum of the word counts
divided by the number of records. -/
theorem C21_user_stats (store : Store) (userId : JsString) :
    (HistoryController.getUserStats store userId).status = 200 ∧
    (store.filter (fun doc => doc.userId == userId) = [] →
      (HistoryController.getUserStats store userId).body =
        .stats { totalSummaries := 0, totalEmailsSent := 0, averageWordCount := some 0,
                 totalProcessingTime := 0 }) ∧
    (store.filter (fun doc => doc.userId == userId) ≠ [] →
      ∃ stats, (HistoryController.getUserStats store userId).body = .stats stats ∧
        stats.totalSummaries = (store.filter (fun doc => doc.userId == userId)).length ∧
        stats.totalEmailsSent =
          ((store.filter (fun doc => doc.userId == userId)).map
            (fun d => d.emailLogs.length)).sum ∧
        stats.totalProcessingTime =
          (((store.filter (fun doc => doc.userId == userId)).map
            (fun d => d.metadata.processingTime)).filterMap id).sum ∧
        stats.averageWordCount =
          avgAccumulator ((store.filter (fun doc => doc.userId == userId)).map
            (fun d => d.metadata.wordCount)) ∧
        (∀ counts times : List Nat,
          (store.filter (fun doc => doc.userId == userId)).map
            (fun d => d.metadata.wordCount) = counts.map some →
          (store.filter (fun doc => doc.userId == userId)).map
            (fun d => d.metadata.processingTime) = times.map some →
          stats.averageWordCount =
            some ((counts.sum : ℚ) /
              ((store.filter (fun doc => doc.userId == userId)).length : ℚ)) ∧
          stats.totalProcessingTime = times.sum)) := by
  unfold HistoryController.getUserStats Summary.getUserStats
  cases hrec : store.filter (fun doc => doc.userId == userId) with
  | nil => exact ⟨rfl, fun _ => rfl, fun h => absurd rfl h⟩
  | cons doc docs =>
    refine ⟨rfl, fun h => absurd h (by simp), fun _ => ⟨_, rfl, rfl, rfl, rfl, rfl, ?_⟩⟩
    intro counts times hc ht
    dsimp only
    have hne : counts ≠ [] := by
      intro h0
      rw [h0] at hc
      exact absurd hc (by simp)
    have hlen : counts.length = (doc :: docs).length := by
      have := congrArg List.length hc
      simp only [List.length_map] at this
      exact this.symm
    rw [hc, ht, avgAccumulator_all_present counts hne, sumAccumulator_all_present, hlen]
    exact ⟨rfl, rfl⟩

/-- Witness of C21: the twenty-five records of the sample user, of ten words
and 850 ms each. -/
theorem C21_user_stats_witness :
    ∃ stats, (HistoryController.getUserStats twentySix "user-1".toList).body = .stats stats ∧
      stats.totalSummaries = 25 ∧ stats.totalEmailsSent = 0 ∧
      stats.averageWordCount = some 10 ∧ stats.totalProcessingTime = 21250 := by
  obtain ⟨stats, hb, hn, he, _, _, hall⟩ :=
    (C21_user_stats twentySix "user-1".toList).2.2 (by decide)
  obtain ⟨ha, hp⟩ := hall (List.replicate 25 10) (List.replicate 25 850) (by decide) (by decide)
  refine ⟨stats, hb, ?_, ?_, ?_, ?_⟩
  · rw [hn]; decide
  · rw [he]; decide
  · rw [ha]
    have h1 : (List.replicate 25 10).sum = 250 := by decide
    have h2 : (List.filter (fun doc => doc.userId == "user-1".toList) twentySix).length = 25 := by
      decide
    rw [h1, h2]
    norm_num
  · rw [hp]; decide
/-! ## C22: the analytics of a user -/

/-- The number of milliseconds of a day, `24 * 60 * 60 * 1000`. -/
def msPerDay : Nat := 24 * 60 * 60 * 1000

/-- The calendar day (UTC) of a time, as the number of days since the epoch.
`$dateToString` with the format `%Y-%m-%d` renders this day as a string; two
times have the same string exactly when they have the same day number, and
for the four-digit years the order of the strings is the order of the day
numbers. -/
def dayOf (time : Nat) : Nat := time / msPerDay

/-- One document of `dailyStats`; `day` stands for its `_id`. -/
structure DailyStat where
  day : Nat
  count : Nat
  avgWordCount : Option ℚ
  avgProcessingTime : Option ℚ
  deriving DecidableEq

/-- The `data` object of the analytics response. -/
structure Analytics where
  period : JsString
  startDate : Int
  endDate : Nat
  dailyStats : List DailyStat
  styleDistribution : List (JsString × Nat)
  totalSummaries : Nat
  deriving DecidableEq

/-- The JSON bodies of the analytics handler. -/
inductive AnalyticsBody where
  | error (error message : JsString)
  | analytics (data : Analytics)
  deriving DecidableEq

/-- An HTTP response of the analytics handler. -/
structure AnalyticsResponse where
  status : Nat
  body : AnalyticsBody
  deriving DecidableEq

namespace HistoryController

/-- The `switch (period)` that computes `startDate`, in milliseconds
(negative when the window is longer than the time since the epoch). -/
def startDateOf (env : Env) (period : JsString) : Int :=
  if period = "7d".toList then (env.now : Int) - 7 * 24 * 60 * 60 * 1000
  else if period = "30d".toList then (env.now : Int) - 30 * 24 * 60 * 60 * 1000
  else if period = "90d".toList then (env.now : Int) - 90 * 24 * 60 * 60 * 1000
  else (env.now : Int) - 30 * 24 * 60 * 60 * 1000

/-- The `$match` stage of both aggregations: `userId` and
`createdAt: { $gte: startDate }`. -/
def analyticsMatch (userId : JsString) (startDate : Int) (doc : Summary) : Bool :=
  doc.userId == userId && decide (startDate ≤ (doc.createdAt : Int))

/-- The `$group` by day followed by the `$sort` on the key: one document for
each day on which a matched document was created, by ascending day. -/
def dailyStatsOf (matched : List Summary) : List DailyStat :=
  ((matched.map (fun doc => dayOf doc.createdAt)).dedup.insertionSort (fun a b => a ≤ b)).map
    (fun day =>
      { day := day
        count := (matched.filter (fun doc => dayOf doc.createdAt == day)).length
        avgWordCount :=
          avgAccumulator ((matched.filter (fun doc => dayOf doc.createdAt == day)).map
            (fun doc => doc.metadata.wordCount))
        avgProcessingTime :=
          avgAccumulator ((matched.filter (fun doc => dayOf doc.createdAt == day)).map
            (fun doc => doc.metadata.processingTime)) })

/-- The `$group` by style: one pair of a style and its count for each style
of a matched document (the database does not specify the order of the
groups; here they follow the first document of each style). -/
def styleDistributionOf (matched : List Summary) : List (JsString × Nat) :=
  (matched.map (fun doc => doc.summaryStyle)).dedup.map
    (fun style => (style, (matched.filter (fun doc => doc.summaryStyle == style)).length))

/-- `getSummaryAnalytics` (`GET /user/:userId/analytics`); `period` is the
query parameter, `none` when absent. -/
def getSummaryAnalytics (env : Env) (store : Store) (userId : JsString)
    (period : Option JsString) : AnalyticsResponse :=
  let period := period.getD "30d".toList
  let startDate := startDateOf env period
  let analytics := dailyStatsOf (store.filter (analyticsMatch userId startDate))
  let styleDistribution := styleDistributionOf (store.filter (analyticsMatch userId startDate))
  { status := 200,
    body := .analytics
      { period := period
        startDate := startDate
        endDate := env.now
        dailyStats := analytics
        styleDistribution := styleDistribution
        totalSummaries := analytics.foldl (fun sum day => sum + day.count) 0 } }

end HistoryController

/-- A record of the sample user created one day after the time of the
sample environment. -/
def futureRecord : Summary :=
  { storedSummary with createdAt := 1700000000000 + 86400000 }

theorem foldl_add_eq_sum (stats : List DailyStat) (init : Nat) :
    stats.foldl (fun sum day => sum + day.count) init =
      init + (stats.map (fun day => day.count)).sum := by
  induction stats generalizing init with
  | nil => simp
  | cons s rest ih =>
    simp only [List.foldl_cons, List.map_cons, List.sum_cons]
    rw [ih]
    omega

theorem HistoryController.dailyStatsOf_days (matched : List Summary) :
    (HistoryController.dailyStatsOf matched).map (fun entry => entry.day) =
      (matched.map (fun doc => dayOf doc.createdAt)).dedup.insertionSort (fun a b => a ≤ b) := by
  unfold HistoryController.dailyStatsOf
  rw [List.map_map]
  exact List.map_id _

theorem HistoryController.dailyStatsOf_sorted (matched : List Summary) :
    ((HistoryController.dailyStatsOf matched).map (fun entry => entry.day)).Sorted
      (fun a b => a < b) := by
  rw [HistoryController.dailyStatsOf_days]
  have hs : ((matched.map (fun doc => dayOf doc.createdAt)).dedup.insertionSort
      (fun a b => a ≤ b)).Sorted (fun a b => a ≤ b) :=
    List.sorted_insertionSort _ _
  have hn : ((matched.map (fun doc => dayOf doc.createdAt)).dedup.insertionSort
      (fun a b => a ≤ b)).Nodup :=
    (List.perm_insertionSort _ _).nodup_iff.mpr (List.nodup_dedup _)
  exact hs.lt_of_le hn

theorem HistoryController.dailyStatsOf_count (matched : List Summary) (entry : DailyStat)
    (h : entry ∈ HistoryController.dailyStatsOf matched) :
    entry.count = (matched.filter (fun doc => dayOf doc.createdAt == entry.day)).length ∧
    ∃ doc ∈ matched, dayOf doc.createdAt = entry.day := by
  unfold HistoryController.dailyStatsOf at h
  rw [List.mem_map] at h
  obtain ⟨day, hday, rfl⟩ := h
  refine ⟨rfl, ?_⟩
  have h1 : day ∈ (matched.map (fun doc => dayOf doc.createdAt)).dedup :=
    (List.perm_insertionSort _ _).mem_iff.mp hday
  rw [List.mem_dedup, List.mem_map] at h1
  exact h1

theorem HistoryController.dailyStatsOf_mem (matched : List Summary) (doc : Summary)
    (h : doc ∈ matched) :
    ∃ entry ∈ HistoryController.dailyStatsOf matched, entry.day = dayOf doc.createdAt := by
  have h1 : dayOf doc.createdAt ∈
      (HistoryController.dailyStatsOf matched).map (fun entry => entry.day) := by
    rw [HistoryController.dailyStatsOf_days]
    apply (List.perm_insertionSort _ _).mem_iff.mpr
    rw [List.mem_dedup, List.mem_map]
    exact ⟨doc, h, rfl⟩
  rw [List.mem_map] at h1
  obtain ⟨entry, he, hd⟩ := h1
  exact ⟨entry, he, hd⟩

theorem HistoryController.dailyStatsOf_total (matched : List Summary) :
    ((HistoryController.dailyStatsOf matched).map (fun day => day.count)).sum =
      matched.length := by
  unfold HistoryController.dailyStatsOf
  rw [List.map_map]
  have hperm := List.perm_insertionSort (fun a b : Nat => a ≤ b)
    (matched.map (fun doc => dayOf doc.createdAt)).dedup
  rw [(hperm.map _).sum_eq]
  have hcount : ∀ day,
      (matched.filter (fun doc => dayOf doc.createdAt == day)).length =
        (matched.map (fun doc => dayOf doc.createdAt)).count day := by
    intro day
    rw [List.count, List.countP_map, List.countP_eq_length_filter]
    rfl
  have hfun : (fun day => (matched.filter (fun doc => dayOf doc.createdAt == day)).length) =
      fun day => (matched.map (fun doc => dayOf doc.createdAt)).count day :=
    funext hcount
  show (List.map (fun day => (matched.filter (fun doc => dayOf doc.createdAt == day)).length)
    (matched.map (fun doc => dayOf doc.createdAt)).dedup).sum = matched.length
  rw [hfun, List.sum_map_count_dedup_eq_length, List.length_map]

/-- The length in days of the window named by the `period` parameter: 7, 30
or 90 days for `7d`, `30d` and `90d`, and 30 days for any other value and for
no value. -/
def windowDays (period : Option JsString) : Nat :=
  if period = some "7d".toList then 7
  else if period = some "90d".toList then 90
  else 30

theorem HistoryController.startDateOf_eq (env : Env) (period : Option JsString) :
    HistoryController.startDateOf env (period.getD "30d".toList) =
      (env.now : Int) - (windowDays period : Int) * (msPerDay : Int) := by
  unfold HistoryController.startDateOf windowDays msPerDay
  cases period with
  | none => simp
  | some p =>
    by_cases h7 : p = "7d".toList
    · subst h7; simp
    · by_cases h90 : p = "90d".toList
      · subst h90; simp
      · by_cases h30 : p = "30d".toList
        · subst h30; simp
        · simp only [Option.getD_some, h7, h90, h30, if_false, Option.some.injEq]
          norm_num

/-- A store with two records of the sample user created on the day before
the time of the sample environment, an older record of the same user and a
record of another user. -/
def recentStore : Store :=
  [ { storedSummary with id := 1, createdAt := 1700000000000 - 86400000 },
    { storedSummary with id := 2, createdAt := 1700000000000 - 86400000 + 5000 },
    storedSummary,
    { storedSummary with id := 3, userId := "user-2".toList, createdAt := 1700000000000 } ]

/-- C22 (as stated, refuted): a record of the user created one day after
`now` is counted.  The `$match` stage has the lower bound
`createdAt >= startDate` and no upper bound, so the record makes an entry of
`dailyStats` and `totalSummaries` is 1, although no record of the user lies
within `[now - 30 days, now]`. -/
theorem C22_counterexample_record_after_now :
    offlineEnv.now < futureRecord.createdAt ∧
    ([futureRecord].filter (fun doc =>
        doc.userId == "user-1".toList &&
        decide ((offlineEnv.now : Int) - 30 * (msPerDay : Int) ≤ (doc.createdAt : Int)) &&
        decide (doc.createdAt ≤ offlineEnv.now))).length = 0 ∧
    ∃ data,
      (HistoryController.getSummaryAnalytics offlineEnv [futureRecord] "user-1".toList
        none).body = .analytics data ∧
      data.dailyStats.map (fun entry => (entry.day, entry.count)) = [(19676, 1)] ∧
      data.totalSummaries = 1 :=
  ⟨by decide, by decide, _, rfl, by decide, by decide⟩

/-- C22 (amended): the lower bound of the window is the only bound.  For
every store, user id and `period` (7, 30 or 90 days for `7d`, `30d` and
`90d`; 30 days for any other or missing value), the analytics handler answers
200 with `startDate = now - period` and `endDate = now`; the days of
`dailyStats` are strictly ascending (sorted, one entry per day); the count of
each entry is the number of the records of the user created at or after
`startDate` on that day, and is positive; every record of the user created
at or after `startDate` has the entry of its day; `totalSummaries` is the
number of the records of the user created at or after `startDate`; and when
no record of the store is later than `now`, that is the number of the
records of the user within `[now - period, now]`. -/
theorem C22_analytics_window (env : Env) (store : Store) (userId : JsString)
    (period : Option JsString) :
    ∃ data,
      (HistoryController.getSummaryAnalytics env store userId period).status = 200 ∧
      (HistoryController.getSummaryAnalytics env store userId period).body =
        .analytics data ∧
      data.startDate = (env.now : Int) - (windowDays period : Int) * (msPerDay : Int) ∧
      data.endDate = env.now ∧
      (data.dailyStats.map (fun entry => entry.day)).Sorted (fun a b => a < b) ∧
      (∀ entry ∈ data.dailyStats,
        entry.count =
          (store.filter (fun doc =>
            doc.userId == userId && decide (data.startDate ≤ (doc.createdAt : Int)) &&
            dayOf doc.createdAt == entry.day)).length ∧
        0 < entry.count) ∧
      (∀ doc ∈ store, doc.userId = userId → data.startDate ≤ (doc.createdAt : Int) →
        ∃ entry ∈ data.dailyStats, entry.day = dayOf doc.createdAt) ∧
      data.totalSummaries =
        (store.filter (fun doc =>
          doc.userId == userId && decide (data.startDate ≤ (doc.createdAt : Int)))).length ∧
      ((∀ doc ∈ store, doc.createdAt ≤ env.now) →
        data.totalSummaries =
          (store.filter (fun doc =>
            doc.userId == userId && decide (data.startDate ≤ (doc.createdAt : Int)) &&
            decide (doc.createdAt ≤ env.now))).length) := by
  have hstart := HistoryController.startDateOf_eq env period
  have htotal :
      (HistoryController.dailyStatsOf
        (store.filter (HistoryController.analyticsMatch userId
          (HistoryController.startDateOf env (period.getD "30d".toList))))).foldl
        (fun sum day => sum + day.count) 0 =
      (store.filter (fun doc =>
        doc.userId == userId &&
        decide (HistoryController.startDateOf env (period.getD "30d".toList) ≤
          (doc.createdAt : Int)))).length := by
    rw [foldl_add_eq_sum, HistoryController.dailyStatsOf_total, Nat.zero_add]
    rfl
  refine ⟨_, rfl, rfl, hstart, rfl, HistoryController.dailyStatsOf_sorted _, ?_, ?_, htotal, ?_⟩
  · intro entry he
    obtain ⟨hc, doc, hd, hday⟩ := HistoryController.dailyStatsOf_count _ entry he
    constructor
    · rw [hc, List.filter_filter]
      congr 1
      apply List.filter_congr
      intro d _
      simp only [HistoryController.analyticsMatch, Bool.and_comm]
    · rw [hc]
      apply List.length_pos_of_mem
      apply List.mem_filter.mpr
      exact ⟨hd, by simp [hday]⟩
  · intro doc hd hu hs
    apply HistoryController.dailyStatsOf_mem
    apply List.mem_filter.mpr
    refine ⟨hd, ?_⟩
    simp only [HistoryController.analyticsMatch, Bool.and_eq_true, beq_iff_eq, decide_eq_true_eq]
    exact ⟨hu, hs⟩
  · intro hnow
    show (HistoryController.dailyStatsOf _).foldl (fun sum day => sum + day.count) 0 = _
    rw [htotal]
    congr 1
    apply List.filter_congr
    intro d hd
    simp only [decide_eq_true (hnow d hd), Bool.and_true]

/-- Witness of C22 (amended): the window of seven days over the sample store
holds the two recent records of the sample user, both on the same day. -/
theorem C22_analytics_window_witness :
    ∃ data,
      (HistoryController.getSummaryAnalytics offlineEnv recentStore "user-1".toList
        (some "7d".toList)).body = .analytics data ∧
      (data.dailyStats.map (fun entry => entry.day)).Sorted (fun a b => a < b) ∧
      data.totalSummaries = 2 := by
  obtain ⟨data, _, hb, hs, _, hsorted, _, _, _, hwin⟩ :=
    C22_analytics_window offlineEnv recentStore "user-1".toList (some "7d".toList)
  refine ⟨data, hb, hsorted, ?_⟩
  rw [hwin (by decide), hs]
  decide
end MeetingSummarizer
